import Mathlib

/-!
EXGL native methods: batching, handles and argument checks.

A shallow embedding of `packages/expo-gl-cpp/cpp/EXGLNativeMethods.cpp`.

* A JavaScript call is a list of `JsValue` arguments; an adapter returns
  `Except String JsValue` (a C++ `throw` is `.error` with the message) together
  with the context it leaves behind, so that whatever an adapter did before it
  threw stays visible.
* A work item (a C++ closure handed to `addToNextBatch`) is a value of `Op`;
  `Op.run` is what the closure does on the rendering thread.
* The driver is an external collaborator: every driver call is appended to a
  log, and what the driver answers is given by a `Driver` function of the log
  so far and of the call.
* JavaScript numbers are carried as integers.
-/

namespace EXGL

abbrev GLenum := Nat
abbrev GLuint := Nat
abbrev GLint := Int
abbrev GLsizei := Int
abbrev UEXGLObjectId := Nat

/-- Values that cross the scripting boundary (`jsi::Value`). -/
inductive JsValue
  | undefined
  | null
  | bool (b : Bool)
  | number (n : Int)
  | string (s : String)
  | object
  | array (elems : List Int)
  | arrayBuffer (bytes : List Nat)
  | typedArray (buffer : List Nat) (byteOffset : Nat)
  /-- A freshly built Float32Array, Int32Array or Uint32Array result. -/
  | typedNumbers (kind : String) (elems : List Int)
  deriving DecidableEq, Repr

deriving instance DecidableEq for Except

/-- Outcome of a native method: the returned value, or the message of the
exception it threw. -/
abbrev Outcome := Except String JsValue

/-- One call into the driver: the entry point, its scalar arguments, and the
bytes behind its pixel or buffer pointer argument, or the enums behind its
attachment pointer (`none` for a call without one, or with `nullptr`). The
characters of a name handed to the driver are listed after the scalars. -/
structure GLCall where
  func : String
  args : List Int
  data : Option (List Nat) := none
  deriving DecidableEq, Repr

/-- What the driver answers to a call, given the calls made before it. -/
abbrev Driver := List GLCall → GLCall → List Int

/-- Conversion of a driver integer to a 32-bit unsigned name. -/
def asGLuint (i : Int) : GLuint := (i % 4294967296).toNat

/-- Result of 32-bit `int` arithmetic: the mathematical result wrapped to
the range of `int` (two's complement). -/
def wrapInt32 (i : Int) : Int := (i + 2147483648) % 4294967296 - 2147483648

/-- Conversion of an integer to `size_t` (64 bits). -/
def asSizeT (i : Int) : Nat := (i % 18446744073709551616).toNat

/-- Value a work item produced, or the fault it ended with. -/
abbrev OpResult := Except String (List Int)

/-- The members of the context that work items touch on the rendering thread:
the handle registry `objects`, the driver (as the log of calls made to it),
the redraw flag, the faults raised by items that have no caller to report to,
and the slot through which a blocking item hands its result back. -/
structure GLThread where
  objects : List (UEXGLObjectId × GLuint) := []
  defaultFramebuffer : Nat := 0
  calls : List GLCall := []
  needsRedraw : Bool := false
  faults : List String := []
  published : Option OpResult := none
  deriving DecidableEq, Repr

/-! ## Object registry -/

/-- Modelled from the spec: mapObject is declared in EXGLContext.h, which is
not among the sources. "On execution, stores the returned native name under
the previously allocated handle"; "a handle maps to at most one native name at
a time". -/
def mapObject (exglObjId : UEXGLObjectId) (glObj : GLuint) :
    List (UEXGLObjectId × GLuint) → List (UEXGLObjectId × GLuint)
  | [] => [(exglObjId, glObj)]
  | (k, v) :: rest =>
    if k = exglObjId then (k, glObj) :: rest else (k, v) :: mapObject exglObjId glObj rest

/-- Modelled from the spec: destroyObject is declared in EXGLContext.h, which
is not among the sources. "Removes the registry entry." -/
def destroyObject (exglObjId : UEXGLObjectId) (objects : List (UEXGLObjectId × GLuint)) :
    List (UEXGLObjectId × GLuint) :=
  objects.filter (fun p => p.1 ≠ exglObjId)

/-- Modelled from the spec: lookupObject is declared in EXGLContext.h, which is
not among the sources. "lookup(Handle) -> NativeName: rendering-thread-only;
fails with an internal-consistency error if the handle is unknown." -/
def lookupObject (objects : List (UEXGLObjectId × GLuint)) (exglObjId : UEXGLObjectId) :
    Except String GLuint :=
  match objects.find? (fun p => p.1 = exglObjId) with
  | some p => .ok p.2
  | none => .error "EXGL: unknown object id"

/-! ## Work items -/

/-- The closures the native methods hand to the batch queue. -/
inductive Op
  /-- A closure that calls one driver entry point with captured scalars and
  keeps the driver's answer. -/
  | native (func : String) (args : List Int)
  /-- A closure `[=] { func(args..., lookupObject(obj), more...); }`. -/
  | withObject (func : String) (args : List Int) (obj : UEXGLObjectId) (more : List Int)
  /-- The closure of bindFramebuffer. -/
  | bindFramebuffer (target : GLenum) (framebuffer : UEXGLObjectId)
  /-- The closure of exglGenObject. -/
  | genObject (glFunc : String) (exglObjId : UEXGLObjectId)
  /-- The closure of exglCreateObject. -/
  | createObject (glFunc : String) (args : List Int) (exglObjId : UEXGLObjectId)
  /-- The closure of exglDeleteObject. -/
  | deleteObject (glFunc : String) (exglObjId : UEXGLObjectId)
  /-- The closure of endFrameEXP. -/
  | setNeedsRedraw (b : Bool)
  /-- The empty closure of flushEXP. -/
  | nop
  /-- A closure `[=] { func(args..., data.get()); }` that captured a copy of
  pixel or buffer bytes (`none` for `nullptr`). -/
  | upload (func : String) (args : List Int) (data : Option (List Nat))
  /-- A closure `[=] { void *nulled = calloc(nmemb, size); func(args..., nulled);
  free(nulled); }`. -/
  | uploadZeroed (func : String) (args : List Int) (nmemb size : Nat)
  /-- The closure of getAttachedShaders. -/
  | getAttachedShaders (fProgram : UEXGLObjectId)
  deriving DecidableEq, Repr

/-- Append a driver call to the log and return the driver's answer. -/
def glCall (drv : Driver) (func : String) (args : List Int) (g : GLThread) :
    GLThread × List Int :=
  let call : GLCall := { func := func, args := args }
  ({ g with calls := g.calls ++ [call] }, drv g.calls call)

/-- Append a driver call that is handed bytes to the log. -/
def glCallData (drv : Driver) (func : String) (args : List Int) (data : Option (List Nat))
    (g : GLThread) : GLThread × List Int :=
  let call : GLCall := { func := func, args := args, data := data }
  ({ g with calls := g.calls ++ [call] }, drv g.calls call)

/-- Execute one closure on the rendering thread. -/
def Op.run (drv : Driver) : Op → GLThread → GLThread × OpResult
  | .native func args, g =>
    let r := glCall drv func args g
    (r.1, .ok r.2)
  | .withObject func args obj more, g =>
    match lookupObject g.objects obj with
    | .error e => (g, .error e)
    | .ok name =>
      let r := glCall drv func (args ++ [(name : Int)] ++ more) g
      (r.1, .ok r.2)
  | .bindFramebuffer target framebuffer, g =>
    if framebuffer = 0 then
      ((glCall drv "glBindFramebuffer" [(target : Int), (g.defaultFramebuffer : Int)] g).1, .ok [])
    else
      match lookupObject g.objects framebuffer with
      | .error e => (g, .error e)
      | .ok name =>
        ((glCall drv "glBindFramebuffer" [(target : Int), (name : Int)] g).1, .ok [])
  | .genObject glFunc exglObjId, g =>
    -- GLuint buffer; glFunc(1, &buffer); mapObject(exglObjId, buffer);
    let r := glCall drv glFunc [1] g
    let buffer : GLuint := asGLuint (r.2.headD 0)
    ({ r.1 with objects := mapObject exglObjId buffer r.1.objects }, .ok [])
  | .createObject glFunc args exglObjId, g =>
    let r := glCall drv glFunc args g
    let name : GLuint := asGLuint (r.2.headD 0)
    ({ r.1 with objects := mapObject exglObjId name r.1.objects }, .ok [])
  | .deleteObject glFunc exglObjId, g =>
    match lookupObject g.objects exglObjId with
    | .error _ => (g, .ok [])
    | .ok name =>
      let r := glCall drv glFunc [1, (name : Int)] g
      ({ r.1 with objects := destroyObject exglObjId r.1.objects }, .ok [])
  | .setNeedsRedraw b, g => ({ g with needsRedraw := b }, .ok [])
  | .nop, g => (g, .ok [])
  | .upload func args data, g => ((glCallData drv func args data g).1, .ok [])
  | .uploadZeroed func args nmemb size, g =>
    ((glCallData drv func args (some (List.replicate (nmemb * size) 0)) g).1, .ok [])
  | .getAttachedShaders fProgram, g =>
    -- GLuint program = lookupObject(fProgram);
    -- glGetProgramiv(program, GL_ATTACHED_SHADERS, &count);
    -- glResults.resize(count);
    -- glGetAttachedShaders(program, count, nullptr, glResults.data());
    match lookupObject g.objects fProgram with
    | .error e => (g, .error e)
    | .ok program =>
      let r1 := glCall drv "glGetProgramiv" [(program : Int), 0x8B85] g
      let count : Int := r1.2.headD 0
      let r2 := glCall drv "glGetAttachedShaders" [(program : Int), count] r1.1
      (r2.1, .ok ((List.range count.toNat).map fun i => r2.2.getD i 0))

/-- Work item: a closure, tagged as blocking when a caller waits for it. -/
structure WorkItem where
  op : Op
  blocking : Bool := false
  deriving DecidableEq, Repr

/-- Modelled from the spec: the executor's treatment of one item is in
EXGLContext.cpp, which is not among the sources. "For a blocking item,
captures its result and signals the waiting submitter before proceeding to the
next item"; a failure of a non-blocking item is "surfaced through the ambient
error-reporting channel" and does not abort the remaining items. -/
def WorkItem.exec (drv : Driver) (w : WorkItem) (g : GLThread) : GLThread :=
  let r := w.op.run drv g
  if w.blocking then { r.1 with published := some r.2 }
  else
    match r.2 with
    | .ok _ => r.1
    | .error e => { r.1 with faults := r.1.faults ++ [e] }

/-- Execute the items of one batch in order. -/
def runBatch (drv : Driver) (batch : List WorkItem) (g : GLThread) : GLThread :=
  batch.foldl (fun g w => w.exec drv g) g

/-! ## Context and batch queue -/

/-- The context (EXGLContext): the batch being filled, the sealed batches not
yet executed, the handle counter, the unpack-flip-Y flag, the JavaScript
console, the writes made into JavaScript array buffers (byte offset, bytes),
and the rendering-thread members. -/
structure EXGLContext where
  nextBatch : List WorkItem := []
  backlog : List (List WorkItem) := []
  nextObjectId : UEXGLObjectId := 1
  unpackFLipY : Bool := false
  console : List String := []
  arrayUpdates : List (Nat × List Int) := []
  gl : GLThread := {}
  deriving DecidableEq, Repr

/-- Modelled from the spec: addToNextBatch is defined in EXGLContext.cpp, which
is not among the sources. "enqueue(work): appends a non-blocking Work Item to
the batch currently being filled. Never blocks the submitting thread." -/
def addToNextBatch (op : Op) (c : EXGLContext) : EXGLContext :=
  { c with nextBatch := c.nextBatch ++ [{ op := op }] }

/-- Modelled from the spec: endNextBatch is defined in EXGLContext.cpp, which
is not among the sources. "seal(): atomically swaps in a fresh empty batch for
subsequent enqueue calls and returns the just-closed batch for execution." -/
def endNextBatch (c : EXGLContext) : EXGLContext :=
  { c with backlog := c.backlog ++ [c.nextBatch], nextBatch := [] }

/-- Modelled from the spec: flush is defined in EXGLContext.cpp, which is not
among the sources. "Drains queued batches strictly in submission order on the
rendering thread, executing each work item against the live driver
context." -/
def flush (drv : Driver) (c : EXGLContext) : EXGLContext :=
  { c with backlog := [], gl := c.backlog.foldl (fun g b => runBatch drv b g) c.gl }

/-- Modelled from the spec: flushOnGLThread is platform code that is not among
the sources. It asks the rendering thread to run `flush`; the submitting thread
does not wait, so the sealed batches stay queued until the rendering thread
takes its turn. -/
def flushOnGLThread (c : EXGLContext) : EXGLContext := c

/-- Modelled from the spec: addBlockingToNextBatch is defined in
EXGLContext.cpp, which is not among the sources. "enqueueBlocking(work):
appends a blocking Work Item, then suspends the submitting thread until the
rendering thread executes it and publishes a result"; the batch is sealed
eagerly. The caller resumes with what the item published. -/
def addBlockingToNextBatch (drv : Driver) (op : Op) (c : EXGLContext) :
    OpResult × EXGLContext :=
  let c1 : EXGLContext := { c with nextBatch := c.nextBatch ++ [{ op := op, blocking := true }] }
  let c2 := flush drv (flushOnGLThread (endNextBatch c1))
  (c2.gl.published.getD (.error "EXGL: no result"), c2)

/-! ## Helpers that are not among the sources -/

/-- The C++ types native methods unpack arguments to. -/
inductive ArgType
  /-- GLenum, GLuint, UEXGLObjectId, UEXGLContextId: unsigned int. -/
  | uint
  /-- GLint, GLsizei, GLintptr. -/
  | int
  /-- GLboolean: unsigned char. -/
  | uchar
  /-- The jsi::Object behind a value. -/
  | object
  deriving DecidableEq, Repr

/-- Helpers the native methods call whose definitions are in headers that are
not among the sources, taken as parameters: the driver, `unpackArg<T>` for the
types used here, `EXJS_UNPACK_ARGV`, `generateNativeMethod` (the closure a
SIMPLE_NATIVE_METHOD enqueues), `rawArrayBuffer`,
`bytesPerPixel`, `loadImage` (given the value and the current width and
height, it returns the decoded bytes, or none for a null pointer, and the
width and height it stored) and `unpackArg<jsi::Array>` (the numbers held by
the array). Each unpacking helper may throw. -/
structure Externals where
  drv : Driver
  unpackUInt : JsValue → Except String Nat
  unpackInt : JsValue → Except String Int
  unpackUChar : JsValue → Except String Nat
  unpackObject : JsValue → Except String JsValue
  unpackArgv : List ArgType → List JsValue → Except String (List Int)
  generateNativeMethod : String → List JsValue → Except String Op
  rawArrayBuffer : JsValue → Except String (List Nat)
  bytesPerPixel : GLenum → GLenum → Nat
  loadImage : JsValue → Int → Int → Except String (Option (List Nat) × Int × Int)
  unpackArray : JsValue → Except String (List Int)

/-- Whether `unpackArg` at the given type accepts the value. -/
def Externals.accepts (E : Externals) : ArgType → JsValue → Bool
  | .uint, v => (E.unpackUInt v).toBool
  | .int, v => (E.unpackInt v).toBool
  | .uchar, v => (E.unpackUChar v).toBool
  | .object, v => (E.unpackObject v).toBool

/-- Every supplied argument is accepted at the type it is read with. -/
def Externals.suppliedOk (E : Externals) (types : List ArgType) (jsArgv : List JsValue) : Prop :=
  ∀ (i : Nat) (ty : ArgType) (v : JsValue), types[i]? = some ty → jsArgv[i]? = some v → E.accepts ty v = true

/-- The macro ARG(index, type):
`argc > index ? unpackArg<type>(runtime, jsArgv + index)
              : throw std::runtime_error("EXGL: Too few arguments")`. -/
def ARG {α : Type} (unpack : JsValue → Except String α) (jsArgv : List JsValue) (index : Nat) :
    Except String α :=
  match jsArgv[index]? with
  | some v => unpack v
  | none => .error "EXGL: Too few arguments"

/-- Result type of a native method: what the caller gets and the context
left behind. -/
abbrev NativeResult := Outcome × EXGLContext

/-- The macro SIMPLE_NATIVE_METHOD(name, func):
`addToNextBatch(generateNativeMethod(runtime, func, jsArgv, argc)); return nullptr;`. -/
def SIMPLE_NATIVE_METHOD (E : Externals) (func : String) (jsArgv : List JsValue)
    (c : EXGLContext) : NativeResult :=
  match E.generateNativeMethod func jsArgv with
  | .error e => (.error e, c)
  | .ok op => (.ok .null, addToNextBatch op c)

/-- Modelled from the spec: exglUnimplemented is declared in EXGLContext.h, which
is not among the sources. "An operation recognized but not supported by this
implementation must fail immediately and explicitly (a distinct, identifiable
error), never silently degrade to a no-op": it throws, and the message holds
the name it was given. The spec does not fix the wording of the message. -/
def exglUnimplemented (name : String) : Outcome :=
  .error ("EXGL: " ++ name ++ "() isn\x27t implemented yet!")

/-- The macro UNIMPL_NATIVE_METHOD(name): `return exglUnimplemented(#name);`. -/
def UNIMPL_NATIVE_METHOD (_E : Externals) (name : String) (_jsArgv : List JsValue)
    (c : EXGLContext) : NativeResult :=
  (exglUnimplemented name, c)

/-- Modelled from the spec: createObject is declared in EXGLContext.h, which is
not among the sources. "allocate() -> Handle: returns a fresh unique handle
immediately (does not touch the driver)"; "integers starting at 1"; "a simple
mutex or atomic counter suffices". -/
def createObject (c : EXGLContext) : UEXGLObjectId × EXGLContext :=
  (c.nextObjectId, { c with nextObjectId := c.nextObjectId + 1 })

/-- Modelled from the spec: exglGenObject is declared in EXGLContext.h, which
is not among the sources. allocate(), then "bindNativeName(Handle, generator):
enqueues, as a non-blocking work item, a call to a driver create function; on
execution, stores the returned native name under the previously allocated
handle"; "the handle is returned to the caller immediately". -/
def exglGenObject (glFunc : String) (c : EXGLContext) : NativeResult :=
  let r := createObject c
  (.ok (.number (r.1 : Int)), addToNextBatch (.genObject glFunc r.1) r.2)

/-- Modelled from the spec: exglCreateObject is declared in EXGLContext.h, which
is not among the sources; as exglGenObject, for driver functions that return
the name (glCreateProgram, glCreateShader). -/
def exglCreateObject (glFunc : String) (args : List Int) (c : EXGLContext) : NativeResult :=
  let r := createObject c
  (.ok (.number (r.1 : Int)), addToNextBatch (.createObject glFunc args r.1) r.2)

/-- Modelled from the spec: exglDeleteObject is declared in EXGLContext.h, which
is not among the sources. "release(Handle, deleter): enqueues a non-blocking
deletion of the native name (if bound) and removes the registry entry." -/
def exglDeleteObject (exglObjId : Except String UEXGLObjectId) (glFunc : String)
    (c : EXGLContext) : NativeResult :=
  match exglObjId with
  | .error e => (.error e, c)
  | .ok id => (.ok .null, addToNextBatch (.deleteObject glFunc id) c)

/-- Modelled from the spec: jsConsoleLog is not among the sources; it writes
a line to the JavaScript console. -/
def jsConsoleLog (msg : String) (c : EXGLContext) : EXGLContext :=
  { c with console := c.console ++ [msg] }

/-! ## Constants of the graphics API (values of the OpenGL ES 3 and WebGL headers) -/

def GL_COMPRESSED_TEXTURE_FORMATS : GLenum := 0x86A3
def GL_ALIASED_LINE_WIDTH_RANGE : GLenum := 0x846E
def GL_ALIASED_POINT_SIZE_RANGE : GLenum := 0x846D
def GL_DEPTH_RANGE : GLenum := 0x0B70
def GL_BLEND_COLOR : GLenum := 0x8005
def GL_COLOR_CLEAR_VALUE : GLenum := 0x0C22
def GL_MAX_VIEWPORT_DIMS : GLenum := 0x0D3A
def GL_SCISSOR_BOX : GLenum := 0x0C10
def GL_VIEWPORT : GLenum := 0x0BA2
def GL_COLOR_WRITEMASK : GLenum := 0x0C23
def GL_UNPACK_FLIP_Y_WEBGL : GLenum := 0x9240
def GL_UNPACK_PREMULTIPLY_ALPHA_WEBGL : GLenum := 0x9241
def GL_UNPACK_COLORSPACE_CONVERSION_WEBGL : GLenum := 0x9243
def GL_RASTERIZER_DISCARD : GLenum := 0x8C89
def GL_SAMPLE_ALPHA_TO_COVERAGE : GLenum := 0x809E
def GL_SAMPLE_COVERAGE : GLenum := 0x80A0
def GL_TRANSFORM_FEEDBACK_ACTIVE : GLenum := 0x8E24
def GL_TRANSFORM_FEEDBACK_PAUSED : GLenum := 0x8E23
def GL_RENDERER : GLenum := 0x1F01
def GL_SHADING_LANGUAGE_VERSION : GLenum := 0x8B8C
def GL_VENDOR : GLenum := 0x1F00
def GL_VERSION : GLenum := 0x1F02
def GL_DEPTH_CLEAR_VALUE : GLenum := 0x0B73
def GL_LINE_WIDTH : GLenum := 0x0B21
def GL_POLYGON_OFFSET_FACTOR : GLenum := 0x8038
def GL_POLYGON_OFFSET_UNITS : GLenum := 0x2A00
def GL_SAMPLE_COVERAGE_VALUE : GLenum := 0x80AA
def GL_MAX_TEXTURE_LOD_BIAS : GLenum := 0x84FD
def GL_ARRAY_BUFFER_BINDING : GLenum := 0x8894
def GL_ELEMENT_ARRAY_BUFFER_BINDING : GLenum := 0x8895
def GL_CURRENT_PROGRAM : GLenum := 0x8B8D
def GL_COPY_READ_BUFFER_BINDING : GLenum := 0x8F36
def GL_COPY_WRITE_BUFFER_BINDING : GLenum := 0x8F37
def GL_DRAW_FRAMEBUFFER_BINDING : GLenum := 0x8CA6
def GL_READ_FRAMEBUFFER_BINDING : GLenum := 0x8CAA
def GL_RENDERBUFFER : GLenum := 0x8D41
def GL_SAMPLER_BINDING : GLenum := 0x8919
def GL_TEXTURE_BINDING_2D_ARRAY : GLenum := 0x8C1D
def GL_TEXTURE_BINDING_2D : GLenum := 0x8069
def GL_TEXTURE_BINDING_3D : GLenum := 0x806A
def GL_TEXTURE_BINDING_CUBE_MAP : GLenum := 0x8514
def GL_TRANSFORM_FEEDBACK_BINDING : GLenum := 0x8E25
def GL_TRANSFORM_FEEDBACK_BUFFER_BINDING : GLenum := 0x8C8F
def GL_UNIFORM_BUFFER_BINDING : GLenum := 0x8A28
def GL_VERTEX_ARRAY_BINDING : GLenum := 0x85B5
def GL_VERTEX_SHADER : GLenum := 0x8B31
def GL_FRAGMENT_SHADER : GLenum := 0x8B30
def GL_UNSIGNED_BYTE : GLenum := 0x1401
def GL_RGBA : GLenum := 0x1908
def GL_PACK_ALIGNMENT : GLenum := 0x0D05
def GL_FRAMEBUFFER_BINDING : GLenum := 0x8CA6
def GL_RENDERBUFFER_BINDING : GLenum := 0x8CA7
def GL_DELETE_STATUS : GLenum := 0x8B80
def GL_COMPILE_STATUS : GLenum := 0x8B81
def GL_LINK_STATUS : GLenum := 0x8B82
def GL_VALIDATE_STATUS : GLenum := 0x8B83
def GL_TRUE : Int := 1

/-- The parameter names getParameter lists under "Unimplemented...". -/
def unsupportedParameters : List GLenum :=
  [GL_COPY_READ_BUFFER_BINDING, GL_COPY_WRITE_BUFFER_BINDING, GL_DRAW_FRAMEBUFFER_BINDING,
   GL_READ_FRAMEBUFFER_BINDING, GL_RENDERBUFFER, GL_SAMPLER_BINDING, GL_TEXTURE_BINDING_2D_ARRAY,
   GL_TEXTURE_BINDING_2D, GL_TEXTURE_BINDING_3D, GL_TEXTURE_BINDING_CUBE_MAP,
   GL_TRANSFORM_FEEDBACK_BINDING, GL_TRANSFORM_FEEDBACK_BUFFER_BINDING, GL_UNIFORM_BUFFER_BINDING,
   GL_VERTEX_ARRAY_BINDING]

/-! ## Native methods -/

/-- A blocking driver query whose answer the caller turns into a value:
`addBlockingToNextBatch([&] { func(args..., &result); }); return convert(result);`. -/
def blockingQuery (E : Externals) (func : String) (args : List Int)
    (convert : List Int → EXGLContext → JsValue) (c : EXGLContext) : NativeResult :=
  let r := addBlockingToNextBatch E.drv (.native func args) c
  match r.1 with
  | .error e => (.error e, r.2)
  | .ok answer => (.ok (convert answer r.2), r.2)

/-- The first `n` answers of the driver, as the elements of a result vector of
size `n` (zero where the driver wrote nothing). -/
def resultVector (n : Nat) (answer : List Int) : List Int :=
  (List.range n).map (fun i => answer.getD i 0)

/-- The loop `for (const auto &pair : objects) if (pair.second == glInt) return pair.first;`
followed by `return nullptr`. -/
def findObjectId (objects : List (UEXGLObjectId × GLuint)) (glInt : Int) : JsValue :=
  match objects.find? (fun p => p.2 = asGLuint glInt) with
  | some p => .number (p.1 : Int)
  | none => .null

def getParameter (E : Externals) (jsArgv : List JsValue) (c : EXGLContext) : NativeResult :=
  match ARG E.unpackUInt jsArgv 0 with
  | .error e => (.error e, c)
  | .ok pname =>
    if pname = GL_COMPRESSED_TEXTURE_FORMATS then
      (.ok (.typedNumbers "Float32Array" []), c)
    else if pname = GL_ALIASED_LINE_WIDTH_RANGE ∨ pname = GL_ALIASED_POINT_SIZE_RANGE
        ∨ pname = GL_DEPTH_RANGE then
      blockingQuery E "glGetFloatv" [(pname : Int)]
        (fun a _ => .typedNumbers "Float32Array" (resultVector 2 a)) c
    else if pname = GL_BLEND_COLOR ∨ pname = GL_COLOR_CLEAR_VALUE then
      blockingQuery E "glGetFloatv" [(pname : Int)]
        (fun a _ => .typedNumbers "Float32Array" (resultVector 4 a)) c
    else if pname = GL_MAX_VIEWPORT_DIMS then
      blockingQuery E "glGetIntegerv" [(pname : Int)]
        (fun a _ => .typedNumbers "Int32Array" (resultVector 2 a)) c
    else if pname = GL_SCISSOR_BOX ∨ pname = GL_VIEWPORT then
      blockingQuery E "glGetIntegerv" [(pname : Int)]
        (fun a _ => .typedNumbers "Int32Array" (resultVector 4 a)) c
    else if pname = GL_COLOR_WRITEMASK then
      blockingQuery E "glGetIntegerv" [(pname : Int)] (fun a _ => .array (resultVector 4 a)) c
    else if pname = GL_UNPACK_FLIP_Y_WEBGL then
      (.ok (.bool c.unpackFLipY), c)
    else if pname = GL_UNPACK_PREMULTIPLY_ALPHA_WEBGL
        ∨ pname = GL_UNPACK_COLORSPACE_CONVERSION_WEBGL then
      (.ok (.bool false), c)
    else if pname = GL_RASTERIZER_DISCARD ∨ pname = GL_SAMPLE_ALPHA_TO_COVERAGE
        ∨ pname = GL_SAMPLE_COVERAGE ∨ pname = GL_TRANSFORM_FEEDBACK_ACTIVE
        ∨ pname = GL_TRANSFORM_FEEDBACK_PAUSED then
      blockingQuery E "glGetIntegerv" [(pname : Int)] (fun a _ => .number (a.headD 0)) c
    else if pname = GL_RENDERER ∨ pname = GL_SHADING_LANGUAGE_VERSION ∨ pname = GL_VENDOR
        ∨ pname = GL_VERSION then
      blockingQuery E "glGetString" [(pname : Int)]
        (fun a _ => .string (String.mk (a.map (fun i => Char.ofNat i.toNat)))) c
    else if pname = GL_DEPTH_CLEAR_VALUE ∨ pname = GL_LINE_WIDTH ∨ pname = GL_POLYGON_OFFSET_FACTOR
        ∨ pname = GL_POLYGON_OFFSET_UNITS ∨ pname = GL_SAMPLE_COVERAGE_VALUE
        ∨ pname = GL_MAX_TEXTURE_LOD_BIAS then
      blockingQuery E "glGetFloatv" [(pname : Int)] (fun a _ => .number (a.headD 0)) c
    else if pname = GL_ARRAY_BUFFER_BINDING ∨ pname = GL_ELEMENT_ARRAY_BUFFER_BINDING
        ∨ pname = GL_CURRENT_PROGRAM then
      blockingQuery E "glGetIntegerv" [(pname : Int)]
        (fun a c1 => findObjectId c1.gl.objects (a.headD 0)) c
    else if pname ∈ unsupportedParameters then
      (.error ("EXGL: getParameter() doesn\x27t support gl." ++ toString pname ++ " yet!"), c)
    else
      blockingQuery E "glGetIntegerv" [(pname : Int)] (fun a _ => .number (a.headD 0)) c

def getError (E : Externals) (_jsArgv : List JsValue) (c : EXGLContext) : NativeResult :=
  blockingQuery E "glGetError" [] (fun a _ => .number (a.headD 0)) c

def pixelStorei (E : Externals) (jsArgv : List JsValue) (c : EXGLContext) : NativeResult :=
  match ARG E.unpackUInt jsArgv 0 with
  | .error e => (.error e, c)
  | .ok pname =>
    if pname = GL_UNPACK_FLIP_Y_WEBGL then
      match ARG E.unpackUChar jsArgv 1 with
      | .error e => (.error e, c)
      | .ok flag => (.ok .null, { c with unpackFLipY := decide (flag ≠ 0) })
    else
      (.ok .null,
        jsConsoleLog "EXGL: gl.pixelStorei() doesn\x27t support this parameter yet!" c)

def bindBuffer (E : Externals) (jsArgv : List JsValue) (c : EXGLContext) : NativeResult :=
  let unpacked : Except String (GLenum × UEXGLObjectId) := do
    let target ← ARG E.unpackUInt jsArgv 0
    let buffer ← ARG E.unpackUInt jsArgv 1
    pure (target, buffer)
  match unpacked with
  | .error e => (.error e, c)
  | .ok (target, buffer) =>
    (.ok .null, addToNextBatch (.withObject "glBindBuffer" [(target : Int)] buffer []) c)

/-- The closure of bufferSubData captures the copied bytes; the log keeps the
target, the offset and the size handed to the driver. -/
def bufferSubData (E : Externals) (jsArgv : List JsValue) (c : EXGLContext) : NativeResult :=
  let unpacked : Except String (GLenum × Int × List Nat) := do
    let target ← ARG E.unpackUInt jsArgv 0
    let offset ← ARG E.unpackInt jsArgv 1
    let jsData ← ARG E.unpackObject jsArgv 2
    let data ← E.rawArrayBuffer jsData
    pure (target, offset, data)
  match unpacked with
  | .error e => (.error e, c)
  | .ok (target, offset, data) =>
    (.ok .null,
      addToNextBatch (.native "glBufferSubData" [(target : Int), offset, (data.length : Int)]) c)

def createBuffer (_E : Externals) (_jsArgv : List JsValue) (c : EXGLContext) : NativeResult :=
  exglGenObject "glGenBuffers" c

def deleteBuffer (E : Externals) (jsArgv : List JsValue) (c : EXGLContext) : NativeResult :=
  exglDeleteObject (ARG E.unpackUInt jsArgv 0) "glDeleteBuffers" c

def bindFramebuffer (E : Externals) (jsArgv : List JsValue) (c : EXGLContext) : NativeResult :=
  let unpacked : Except String (GLenum × UEXGLObjectId) := do
    let target ← ARG E.unpackUInt jsArgv 0
    let framebuffer ← ARG E.unpackUInt jsArgv 1
    pure (target, framebuffer)
  match unpacked with
  | .error e => (.error e, c)
  | .ok (target, framebuffer) =>
    (.ok .null, addToNextBatch (.bindFramebuffer target framebuffer) c)

def createFramebuffer (_E : Externals) (_jsArgv : List JsValue) (c : EXGLContext) :
    NativeResult :=
  exglGenObject "glGenFramebuffers" c

def deleteFramebuffer (E : Externals) (jsArgv : List JsValue) (c : EXGLContext) : NativeResult :=
  exglDeleteObject (ARG E.unpackUInt jsArgv 0) "glDeleteFramebuffers" c

/-- The destination `jsArgv[6].asObject(runtime).asTypedArray(runtime)` of
readPixels: its byte offset, or the exception for a value that is not a typed
array. The source reads `jsArgv[6]` without comparing against `argc`; a
missing seventh argument is read as `undefined`. -/
def asTypedArray (v : JsValue) : Except String Nat :=
  match v with
  | .typedArray _ byteOffset => .ok byteOffset
  | .typedNumbers _ _ => .ok 0
  | .object => .error "EXGL: object is not a TypedArray"
  | .array _ => .error "EXGL: object is not a TypedArray"
  | .arrayBuffer _ => .error "EXGL: object is not a TypedArray"
  | _ => .error "Value is not an Object"

def readPixels (E : Externals) (jsArgv : List JsValue) (c : EXGLContext) : NativeResult :=
  let unpacked : Except String (Int × Int × Int × Int × GLenum × GLenum) := do
    let x ← ARG E.unpackInt jsArgv 0
    let y ← ARG E.unpackInt jsArgv 1
    let width ← ARG E.unpackInt jsArgv 2
    let height ← ARG E.unpackInt jsArgv 3
    let format ← ARG E.unpackUInt jsArgv 4
    let type ← ARG E.unpackUInt jsArgv 5
    pure (x, y, width, height, format, type)
  match unpacked with
  | .error e => (.error e, c)
  | .ok (x, y, width, height, format, type) =>
    -- size_t byteLength = width * height * bytesPerPixel(type, format);
    -- `width * height` is a product of two GLsizei, computed in `int`; the
    -- return type of bytesPerPixel is declared in a header that is not among
    -- the sources, so the second product is taken without wrap-around.
    let byteLength : Nat :=
      asSizeT (wrapInt32 (width * height) * (E.bytesPerPixel type format : Int))
    let r := addBlockingToNextBatch E.drv
      (.native "glReadPixels" [x, y, width, height, (format : Int), (type : Int)]) c
    match r.1 with
    | .error e => (.error e, r.2)
    | .ok answer =>
      let pixels := resultVector byteLength answer
      match asTypedArray (jsArgv.getD 6 .undefined) with
      | .error e => (.error e, r.2)
      | .ok byteOffset =>
        (.ok .null, { r.2 with arrayUpdates := r.2.arrayUpdates ++ [(byteOffset, pixels)] })

def renderbufferStorage (E : Externals) (jsArgv : List JsValue) (c : EXGLContext) :
    NativeResult :=
  let unpacked : Except String (GLenum × Int × Int × Int) := do
    let target ← ARG E.unpackUInt jsArgv 0
    let internalformat ← ARG E.unpackInt jsArgv 1
    let width ← ARG E.unpackInt jsArgv 2
    let height ← ARG E.unpackInt jsArgv 3
    pure (target, internalformat, width, height)
  match unpacked with
  | .error e => (.error e, c)
  | .ok (target, internalformat, width, height) =>
    (.ok .null,
      addToNextBatch (.native "glRenderbufferStorage" [(target : Int), internalformat, width, height])
        c)

def bindBufferRange (E : Externals) (jsArgv : List JsValue) (c : EXGLContext) : NativeResult :=
  let unpacked : Except String (GLenum × GLuint × UEXGLObjectId × Int × Int) := do
    let target ← ARG E.unpackUInt jsArgv 0
    let index ← ARG E.unpackUInt jsArgv 1
    let buffer ← ARG E.unpackUInt jsArgv 2
    let offset ← ARG E.unpackInt jsArgv 3
    let size ← ARG E.unpackInt jsArgv 4
    pure (target, index, buffer, offset, size)
  match unpacked with
  | .error e => (.error e, c)
  | .ok (target, index, buffer, offset, size) =>
    (.ok .null,
      addToNextBatch
        (.withObject "glBindBufferRange" [(target : Int), (index : Int)] buffer [offset, size]) c)

def createRenderbuffer (_E : Externals) (_jsArgv : List JsValue) (c : EXGLContext) :
    NativeResult :=
  exglGenObject "glGenRenderbuffers" c

def deleteRenderbuffer (E : Externals) (jsArgv : List JsValue) (c : EXGLContext) :
    NativeResult :=
  exglDeleteObject (ARG E.unpackUInt jsArgv 0) "glDeleteRenderbuffers" c

def createTexture (_E : Externals) (_jsArgv : List JsValue) (c : EXGLContext) :
    NativeResult :=
  exglGenObject "glGenTextures" c

def deleteTexture (E : Externals) (jsArgv : List JsValue) (c : EXGLContext) :
    NativeResult :=
  exglDeleteObject (ARG E.unpackUInt jsArgv 0) "glDeleteTextures" c

def createQuery (_E : Externals) (_jsArgv : List JsValue) (c : EXGLContext) :
    NativeResult :=
  exglGenObject "glGenQueries" c

def deleteQuery (E : Externals) (jsArgv : List JsValue) (c : EXGLContext) :
    NativeResult :=
  exglDeleteObject (ARG E.unpackUInt jsArgv 0) "glDeleteQueries" c

def createSampler (_E : Externals) (_jsArgv : List JsValue) (c : EXGLContext) :
    NativeResult :=
  exglGenObject "glGenSamplers" c

def deleteSampler (E : Externals) (jsArgv : List JsValue) (c : EXGLContext) :
    NativeResult :=
  exglDeleteObject (ARG E.unpackUInt jsArgv 0) "glDeleteSamplers" c

def createTransformFeedback (_E : Externals) (_jsArgv : List JsValue) (c : EXGLContext) :
    NativeResult :=
  exglGenObject "glGenTransformFeedbacks" c

def deleteTransformFeedback (E : Externals) (jsArgv : List JsValue) (c : EXGLContext) :
    NativeResult :=
  exglDeleteObject (ARG E.unpackUInt jsArgv 0) "glDeleteTransformFeedbacks" c

def createVertexArray (_E : Externals) (_jsArgv : List JsValue) (c : EXGLContext) :
    NativeResult :=
  exglGenObject "glGenVertexArrays" c

def deleteVertexArray (E : Externals) (jsArgv : List JsValue) (c : EXGLContext) :
    NativeResult :=
  exglDeleteObject (ARG E.unpackUInt jsArgv 0) "glDeleteVertexArrays" c

def createProgram (_E : Externals) (_jsArgv : List JsValue) (c : EXGLContext) : NativeResult :=
  exglCreateObject "glCreateProgram" [] c

def createShader (E : Externals) (jsArgv : List JsValue) (c : EXGLContext) : NativeResult :=
  match E.unpackArgv [.uint] jsArgv with
  | .error e => (.error e, c)
  | .ok unpacked =>
    let type : GLenum := (unpacked.headD 0).toNat
    if type = GL_VERTEX_SHADER ∨ type = GL_FRAGMENT_SHADER then
      exglCreateObject "glCreateShader" [(type : Int)] c
    else
      (.error "unknown shader type passed to function", c)

def deleteProgram (E : Externals) (jsArgv : List JsValue) (c : EXGLContext) : NativeResult :=
  exglDeleteObject (ARG E.unpackUInt jsArgv 0) "glDeleteProgram" c

def deleteShader (E : Externals) (jsArgv : List JsValue) (c : EXGLContext) : NativeResult :=
  exglDeleteObject (ARG E.unpackUInt jsArgv 0) "glDeleteShader" c

def getBufferSubData (E : Externals) : List JsValue → EXGLContext → NativeResult :=
  UNIMPL_NATIVE_METHOD E "getBufferSubData"

def getFramebufferAttachmentParameter (E : Externals) : List JsValue → EXGLContext → NativeResult :=
  UNIMPL_NATIVE_METHOD E "getFramebufferAttachmentParameter"

def getRenderbufferParameter (E : Externals) : List JsValue → EXGLContext → NativeResult :=
  UNIMPL_NATIVE_METHOD E "getRenderbufferParameter"

def getInternalformatParameter (E : Externals) : List JsValue → EXGLContext → NativeResult :=
  UNIMPL_NATIVE_METHOD E "getInternalformatParameter"

def renderbufferStorageMultisample (E : Externals) : List JsValue → EXGLContext → NativeResult :=
  UNIMPL_NATIVE_METHOD E "renderbufferStorageMultisample"

def compressedTexImage2D (E : Externals) : List JsValue → EXGLContext → NativeResult :=
  UNIMPL_NATIVE_METHOD E "compressedTexImage2D"

def compressedTexSubImage2D (E : Externals) : List JsValue → EXGLContext → NativeResult :=
  UNIMPL_NATIVE_METHOD E "compressedTexSubImage2D"

def getTexParameter (E : Externals) : List JsValue → EXGLContext → NativeResult :=
  UNIMPL_NATIVE_METHOD E "getTexParameter"

def compressedTexImage3D (E : Externals) : List JsValue → EXGLContext → NativeResult :=
  UNIMPL_NATIVE_METHOD E "compressedTexImage3D"

def compressedTexSubImage3D (E : Externals) : List JsValue → EXGLContext → NativeResult :=
  UNIMPL_NATIVE_METHOD E "compressedTexSubImage3D"

def getUniform (E : Externals) : List JsValue → EXGLContext → NativeResult :=
  UNIMPL_NATIVE_METHOD E "getUniform"

def getVertexAttrib (E : Externals) : List JsValue → EXGLContext → NativeResult :=
  UNIMPL_NATIVE_METHOD E "getVertexAttrib"

def getVertexAttribOffset (E : Externals) : List JsValue → EXGLContext → NativeResult :=
  UNIMPL_NATIVE_METHOD E "getVertexAttribOffset"

def fenceSync (E : Externals) : List JsValue → EXGLContext → NativeResult :=
  UNIMPL_NATIVE_METHOD E "fenceSync"

def isSync (E : Externals) : List JsValue → EXGLContext → NativeResult :=
  UNIMPL_NATIVE_METHOD E "isSync"

def deleteSync (E : Externals) : List JsValue → EXGLContext → NativeResult :=
  UNIMPL_NATIVE_METHOD E "deleteSync"

def clientWaitSync (E : Externals) : List JsValue → EXGLContext → NativeResult :=
  UNIMPL_NATIVE_METHOD E "clientWaitSync"

def waitSync (E : Externals) : List JsValue → EXGLContext → NativeResult :=
  UNIMPL_NATIVE_METHOD E "waitSync"

def getSyncParameter (E : Externals) : List JsValue → EXGLContext → NativeResult :=
  UNIMPL_NATIVE_METHOD E "getSyncParameter"

def getActiveUniformBlockParameter (E : Externals) : List JsValue → EXGLContext → NativeResult :=
  UNIMPL_NATIVE_METHOD E "getActiveUniformBlockParameter"

def endFrameEXP (_E : Externals) (_jsArgv : List JsValue) (c : EXGLContext) : NativeResult :=
  (.ok .null, flushOnGLThread (endNextBatch (addToNextBatch (.setNeedsRedraw true) c)))

def flushEXP (E : Externals) (_jsArgv : List JsValue) (c : EXGLContext) : NativeResult :=
  let r := addBlockingToNextBatch E.drv .nop c
  match r.1 with
  | .error e => (.error e, r.2)
  | .ok _ => (.ok .null, r.2)

/-! ## Pixel data -/

/-- Position that the byte at position `j` is taken from when the first `rows`
rows of `bytesPerRow` bytes are reversed top to bottom. -/
def flipIndex (bytesPerRow rows j : Nat) : Nat :=
  if j < bytesPerRow * rows then (rows - 1 - j / bytesPerRow) * bytesPerRow + j % bytesPerRow
  else j

/-- Modelled from the spec: flipPixels is declared in EXGLImageUtils.h, which is
not among the sources. "flipVertical(buffer, rowBytes, rowCount): in-place
top-bottom row reversal of a tightly packed pixel buffer"; the buffer keeps its
size, and bytes after the `rowCount` rows stay as they are. The spec describes
the flip for a buffer that holds the rows. flipPixels is handed a pointer and
no size: for a shorter buffer the code reaches past the end of the allocation,
which has no defined result, and the positions outside the buffer read as 0
here. -/
def flipPixels (pixels : List Nat) (bytesPerRow rows : Nat) : List Nat :=
  (List.range pixels.length).map fun j => pixels.getD (flipIndex bytesPerRow rows j) 0

/-- The call `flipPixels(texels + offset, bytesPerRow, rows)` on a buffer. -/
def flipPixelsAt (texels : List Nat) (offset bytesPerRow rows : Nat) : List Nat :=
  texels.take offset ++ flipPixels (texels.drop offset) bytesPerRow rows

/-- The loop of texImage3D and texSubImage3D:
`for (int z = 0; z < depth; z++) { flipPixels(texelLayer, width * bytesPerPixel(type, format),
height); texelLayer += bytesPerPixel(type, format) * width * height; }`.
The sizes handed to flipPixels and the pointer step are non-negative for a
buffer of width × height × depth pixels; a negative one is read as 0. -/
def flipLayers (texels : List Nat) (bpp : Nat) (width height depth : Int) : List Nat :=
  (List.range depth.toNat).foldl
    (fun data z =>
      flipPixelsAt data (z * ((bpp : Int) * width * height).toNat) (width * (bpp : Int)).toNat
        height.toNat)
    texels

/-- The conversion `jsPixels.asObject(runtime)`: it throws for a value that is
not an object. -/
def asObject (v : JsValue) : Except String JsValue :=
  match v with
  | .object => .ok v
  | .array _ => .ok v
  | .arrayBuffer _ => .ok v
  | .typedArray _ _ => .ok v
  | .typedNumbers _ _ => .ok v
  | _ => .error "Value is not an Object"

/-- The test `isArrayBuffer(runtime) || isTypedArray(runtime)` on an object. -/
def isArrayBufferOrTypedArray (v : JsValue) : Bool :=
  match v with
  | .arrayBuffer _ => true
  | .typedArray _ _ => true
  | .typedNumbers _ _ => true
  | _ => false

/-- The part shared by the four texture uploads, from `std::shared_ptr<uint8_t>
data(nullptr);` to the end of the `else` branch: the bytes copied out of an
ArrayBuffer or typed array, or what loadImage decoded, with the width and height
in force afterwards. -/
def pixelData (E : Externals) (jsPixels : JsValue) (width height : Int) :
    Except String (Option (List Nat) × Int × Int) :=
  match asObject jsPixels with
  | .error e => .error e
  | .ok obj =>
    if isArrayBufferOrTypedArray obj then
      match E.rawArrayBuffer obj with
      | .error e => .error e
      | .ok vec => .ok (some vec, width, height)
    else
      E.loadImage jsPixels width height

/-- The row size `width * bytesPerPixel(type, format)` and the row count
`height` handed to flipPixels are non-negative for an image of width × height
pixels; a negative one is read as 0. -/
def texImage2D (E : Externals) (jsArgv : List JsValue) (c : EXGLContext) : NativeResult :=
  -- GLsizei width = 0, height = 0, border = 0;
  let unpacked : Except String (List Int × JsValue) :=
    if jsArgv.length = 9 then
      match E.unpackArgv [.uint, .int, .int, .int, .int, .int, .uint, .uint] jsArgv with
      | .error e => .error e
      | .ok a => .ok (a, jsArgv.getD 8 .undefined)
    else if jsArgv.length = 6 then
      match E.unpackArgv [.uint, .int, .int, .uint, .uint] jsArgv with
      | .error e => .error e
      | .ok a =>
        .ok ([a.getD 0 0, a.getD 1 0, a.getD 2 0, 0, 0, 0, a.getD 3 0, a.getD 4 0],
             jsArgv.getD 5 .undefined)
    else
      .error "EXGL: Invalid number of arguments to gl.texImage2D()!"
  match unpacked with
  | .error e => (.error e, c)
  | .ok (a, jsPixels) =>
    let target := a.getD 0 0
    let level := a.getD 1 0
    let internalformat := a.getD 2 0
    let width := a.getD 3 0
    let height := a.getD 4 0
    let border := a.getD 5 0
    let format := a.getD 6 0
    let type := a.getD 7 0
    if jsPixels = .null then
      (.ok .null,
        addToNextBatch
          (.upload "glTexImage2D"
            [target, level, internalformat, width, height, border, format, type] none) c)
    else
      match pixelData E jsPixels width height with
      | .error e => (.error e, c)
      | .ok (none, _, _) =>
        (.error "EXGL: Invalid pixel data argument for gl.texImage2D()!", c)
      | .ok (some data, width, height) =>
        let bpp := E.bytesPerPixel type.toNat format.toNat
        let data :=
          if c.unpackFLipY then flipPixels data (width * (bpp : Int)).toNat height.toNat
          else data
        (.ok .null,
          addToNextBatch
            (.upload "glTexImage2D"
              [target, level, internalformat, width, height, border, format, type] (some data))
            c)

def texSubImage2D (E : Externals) (jsArgv : List JsValue) (c : EXGLContext) : NativeResult :=
  -- GLsizei width = 0, height = 0;
  let unpacked : Except String (List Int × JsValue) :=
    if jsArgv.length = 9 then
      match E.unpackArgv [.uint, .int, .int, .int, .int, .int, .uint, .uint] jsArgv with
      | .error e => .error e
      | .ok a => .ok (a, jsArgv.getD 8 .undefined)
    else if jsArgv.length = 7 then
      match E.unpackArgv [.uint, .int, .int, .int, .uint, .uint] jsArgv with
      | .error e => .error e
      | .ok a =>
        .ok ([a.getD 0 0, a.getD 1 0, a.getD 2 0, a.getD 3 0, 0, 0, a.getD 4 0, a.getD 5 0],
             jsArgv.getD 6 .undefined)
    else
      .error "EXGL: Invalid number of arguments to gl.texSubImage2D()!"
  match unpacked with
  | .error e => (.error e, c)
  | .ok (a, jsPixels) =>
    let target := a.getD 0 0
    let level := a.getD 1 0
    let xoffset := a.getD 2 0
    let yoffset := a.getD 3 0
    let width := a.getD 4 0
    let height := a.getD 5 0
    let format := a.getD 6 0
    let type := a.getD 7 0
    let bpp := E.bytesPerPixel type.toNat format.toNat
    if jsPixels = .null then
      -- void *nulled = calloc(width * height, bytesPerPixel(type, format));
      (.ok .null,
        addToNextBatch
          (.uploadZeroed "glTexSubImage2D"
            [target, level, xoffset, yoffset, width, height, format, type]
            (asSizeT (wrapInt32 (width * height))) bpp) c)
    else
      match pixelData E jsPixels width height with
      | .error e => (.error e, c)
      | .ok (none, _, _) =>
        (.error "EXGL: Invalid pixel data argument for gl.texSubImage2D()!", c)
      | .ok (some data, width, height) =>
        let data :=
          if c.unpackFLipY then flipPixels data (width * (bpp : Int)).toNat height.toNat
          else data
        (.ok .null,
          addToNextBatch
            (.upload "glTexSubImage2D"
              [target, level, xoffset, yoffset, width, height, format, type] (some data)) c)

def texSubImage3D (E : Externals) (jsArgv : List JsValue) (c : EXGLContext) : NativeResult :=
  match E.unpackArgv [.uint, .int, .int, .int, .int, .int, .int, .int, .uint, .uint] jsArgv with
  | .error e => (.error e, c)
  | .ok a =>
    let target := a.getD 0 0
    let level := a.getD 1 0
    let xoffset := a.getD 2 0
    let yoffset := a.getD 3 0
    let zoffset := a.getD 4 0
    let width := a.getD 5 0
    let height := a.getD 6 0
    let depth := a.getD 7 0
    let format := a.getD 8 0
    let type := a.getD 9 0
    let bpp := E.bytesPerPixel type.toNat format.toNat
    -- const jsi::Value &jsPixels = jsArgv[10];
    let jsPixels := jsArgv.getD 10 .undefined
    if jsPixels = .null then
      -- void *nulled = calloc(width * height, bytesPerPixel(type, format));
      (.ok .null,
        addToNextBatch
          (.uploadZeroed "glTexSubImage3D"
            [target, level, xoffset, yoffset, zoffset, width, height, depth, format, type]
            (asSizeT (wrapInt32 (width * height))) bpp) c)
    else
      match pixelData E jsPixels width height with
      | .error e => (.error e, c)
      | .ok (none, _, _) =>
        (.error "EXGL: Invalid pixel data argument for gl.texSubImage3D()!", c)
      | .ok (some data, width, height) =>
        let data := if c.unpackFLipY then flipLayers data bpp width height depth else data
        (.ok .null,
          addToNextBatch
            (.upload "glTexSubImage3D"
              [target, level, xoffset, yoffset, zoffset, width, height, depth, format, type]
              (some data)) c)

/-! ## Buffer data and attached shaders -/

def bufferData (E : Externals) (jsArgv : List JsValue) (c : EXGLContext) : NativeResult :=
  let unpacked : Except String (GLenum × JsValue × GLenum) := do
    let target ← ARG E.unpackUInt jsArgv 0
    let sizeOrData ← ARG (fun v => .ok v) jsArgv 1
    let usage ← ARG E.unpackUInt jsArgv 2
    pure (target, sizeOrData, usage)
  match unpacked with
  | .error e => (.error e, c)
  | .ok (target, sizeOrData, usage) =>
    match sizeOrData with
    | .number length =>
      (.ok .null,
        addToNextBatch (.upload "glBufferData" [(target : Int), length, (usage : Int)] none) c)
    | .null =>
      (.ok .null,
        addToNextBatch (.upload "glBufferData" [(target : Int), 0, (usage : Int)] none) c)
    | .undefined =>
      (.ok .null,
        addToNextBatch (.upload "glBufferData" [(target : Int), 0, (usage : Int)] none) c)
    | .bool _ => (.ok .null, c)
    | .string _ => (.ok .null, c)
    | obj =>
      match E.rawArrayBuffer obj with
      | .error e => (.error e, c)
      | .ok data =>
        (.ok .null,
          addToNextBatch
            (.upload "glBufferData" [(target : Int), (data.length : Int), (usage : Int)]
              (some data)) c)

/-- The inner loop of getAttachedShaders for one driver name:
`UEXGLObjectId exglObjId = 0; for (const auto &pair : objects) if (pair.second == name)
exglObjId = pair.first;`. -/
def shaderObjectId (objects : List (UEXGLObjectId × GLuint)) (name : Int) : UEXGLObjectId :=
  objects.foldl (fun exglObjId pair => if pair.2 = asGLuint name then pair.1 else exglObjId) 0

/-- The outer loop of getAttachedShaders: the handle of every name, or the
exception at the first name without one. -/
def shaderObjectIds (objects : List (UEXGLObjectId × GLuint)) :
    List Int → Except String (List Int)
  | [] => .ok []
  | name :: rest =>
    if shaderObjectId objects name = 0 then
      .error ("EXGL: Internal error: couldn\x27t find UEXGLObjectId " ++
        "associated with shader in getAttachedShaders()!")
    else
      match shaderObjectIds objects rest with
      | .error e => .error e
      | .ok ids => .ok ((shaderObjectId objects name : Int) :: ids)

def getAttachedShaders (E : Externals) (jsArgv : List JsValue) (c : EXGLContext) :
    NativeResult :=
  match E.unpackArgv [.uint] jsArgv with
  | .error e => (.error e, c)
  | .ok a =>
    let fProgram : UEXGLObjectId := (a.getD 0 0).toNat
    let r := addBlockingToNextBatch E.drv (.getAttachedShaders fProgram) c
    match r.1 with
    | .error e => (.error e, r.2)
    | .ok glResults =>
      match shaderObjectIds r.2.gl.objects glResults with
      | .error e => (.error e, r.2)
      | .ok ids => (.ok (.array ids), r.2)

/-! ## Framebuffer invalidation -/

/-- Order in which the members of the closure object of a lambda with the
capture list `[=, name{init}]` are initialised. The language leaves it open
whether the members of init-captures or the members of the variables captured
by copy come first. -/
inductive CaptureOrder
  | initCapturesFirst
  | copiesFirst
  deriving DecidableEq, Repr

/-- The loop `for (int i = 0; i < attachments.size(); i++) attachments[i] =
jsAttachments.getValueAtIndex(runtime, i).asNumber();` on a vector of the size
of the array: each number converted to GLenum. -/
def attachmentEnums (jsAttachments : List Int) : List GLenum :=
  jsAttachments.map asGLuint

/-- The capture list of invalidateFramebuffer is
`[=, attachaments{std::move(attachments)}]` and the body of the closure names
`attachments`: the body reads the copy that `=` makes of the local vector,
while the init-capture `attachaments`, which the body never names, moves the
local vector away. The copy holds the elements when it is made before the
move, and is the vector that was moved from, which is empty, when it is made
after. The scalars of the driver call are the target and the count; the
elements behind the pointer are the data of the call. -/
def invalidateFramebuffer (E : Externals) (order : CaptureOrder) (jsArgv : List JsValue)
    (c : EXGLContext) : NativeResult :=
  let unpacked : Except String (GLenum × List Int) := do
    let target ← ARG E.unpackUInt jsArgv 0
    let jsAttachments ← ARG E.unpackArray jsArgv 1
    pure (target, jsAttachments)
  match unpacked with
  | .error e => (.error e, c)
  | .ok (target, jsAttachments) =>
    let attachments : List GLenum := attachmentEnums jsAttachments
    let captured : List GLenum :=
      match order with
      | .initCapturesFirst => []
      | .copiesFirst => attachments
    (.ok .null,
      addToNextBatch
        (.upload "glInvalidateFramebuffer" [(target : Int), wrapInt32 (captured.length : Int)]
          (some captured)) c)

/-- The capture list of invalidateSubFramebuffer is
`[=, attachments{std::move(attachments)}]`: the body of the closure names the
init-capture, which holds the elements whatever the order. The scalars of the
driver call are the target, the count and the rectangle; the elements behind
the pointer are the data of the call. -/
def invalidateSubFramebuffer (E : Externals) (jsArgv : List JsValue) (c : EXGLContext) :
    NativeResult :=
  let unpacked : Except String (GLenum × List Int × Int × Int × Int × Int) := do
    let target ← ARG E.unpackUInt jsArgv 0
    let jsAttachments ← ARG E.unpackArray jsArgv 1
    let x ← ARG E.unpackInt jsArgv 2
    let y ← ARG E.unpackInt jsArgv 3
    let width ← ARG E.unpackInt jsArgv 4
    let height ← ARG E.unpackInt jsArgv 5
    pure (target, jsAttachments, x, y, width, height)
  match unpacked with
  | .error e => (.error e, c)
  | .ok (target, jsAttachments, x, y, width, height) =>
    let attachments : List GLenum := attachmentEnums jsAttachments
    (.ok .null,
      addToNextBatch
        (.upload "glInvalidateSubFramebuffer"
          [(target : Int), wrapInt32 (attachments.length : Int), x, y, width, height]
          (some attachments)) c)

/-! ## Program and shader queries -/

/-- The blocking closure `[&] { func(lookupObject(obj), more..., &result); }`
and the value it wrote (zero where the driver wrote nothing). -/
def blockingObjectQuery (E : Externals) (func : String) (obj : UEXGLObjectId) (more : List Int)
    (convert : Int → JsValue) (c : EXGLContext) : NativeResult :=
  let r := addBlockingToNextBatch E.drv (.withObject func [] obj more) c
  match r.1 with
  | .error e => (.error e, r.2)
  | .ok answer => (.ok (convert (answer.headD 0)), r.2)

def getProgramParameter (E : Externals) (jsArgv : List JsValue) (c : EXGLContext) :
    NativeResult :=
  match E.unpackArgv [.uint, .uint] jsArgv with
  | .error e => (.error e, c)
  | .ok a =>
    let fProgram : UEXGLObjectId := (a.getD 0 0).toNat
    let pname : GLenum := (a.getD 1 0).toNat
    blockingObjectQuery E "glGetProgramiv" fProgram [(pname : Int)]
      (fun glResult =>
        if pname = GL_DELETE_STATUS ∨ pname = GL_LINK_STATUS ∨ pname = GL_VALIDATE_STATUS then
          .bool (decide (glResult = GL_TRUE))
        else
          .number glResult) c

def getShaderParameter (E : Externals) (jsArgv : List JsValue) (c : EXGLContext) :
    NativeResult :=
  match E.unpackArgv [.uint, .uint] jsArgv with
  | .error e => (.error e, c)
  | .ok a =>
    let fShader : UEXGLObjectId := (a.getD 0 0).toNat
    let pname : GLenum := (a.getD 1 0).toNat
    blockingObjectQuery E "glGetShaderiv" fShader [(pname : Int)]
      (fun glResult =>
        if pname = GL_DELETE_STATUS ∨ pname = GL_COMPILE_STATUS then
          .bool (decide (glResult = GL_TRUE))
        else
          .number glResult) c

/-! ## Locations -/

/-- The conversion `jsArgv[1].asString(runtime).utf8(runtime)`: it throws for a
value that is not a string. The source reads `jsArgv[1]` without comparing
against `argc`; a missing second argument is read as `undefined`. -/
def asString (v : JsValue) : Except String String :=
  match v with
  | .string s => .ok s
  | _ => .error "Value is not a String"

/-- The characters of a name, as the driver is handed them (`name.c_str()`). -/
def nameChars (name : String) : List Int :=
  name.data.map fun ch => (ch.toNat : Int)

/-- The part shared by the three location queries: unpack the program, read the
name, and run the blocking closure
`[&] { location = func(lookupObject(program), name.c_str()); }`. -/
def locationQuery (E : Externals) (func : String) (convert : Int → JsValue)
    (jsArgv : List JsValue) (c : EXGLContext) : NativeResult :=
  match E.unpackArgv [.uint] jsArgv with
  | .error e => (.error e, c)
  | .ok a =>
    let program : UEXGLObjectId := (a.getD 0 0).toNat
    match asString (jsArgv.getD 1 .undefined) with
    | .error e => (.error e, c)
    | .ok name => blockingObjectQuery E func program (nameChars name) convert c

def getFragDataLocation (E : Externals) (jsArgv : List JsValue) (c : EXGLContext) :
    NativeResult :=
  locationQuery E "glGetFragDataLocation"
    (fun location => if location = -1 then .null else .number location) jsArgv c

def getAttribLocation (E : Externals) (jsArgv : List JsValue) (c : EXGLContext) :
    NativeResult :=
  locationQuery E "glGetAttribLocation" (fun location => .number location) jsArgv c

def getUniformLocation (E : Externals) (jsArgv : List JsValue) (c : EXGLContext) :
    NativeResult :=
  locationQuery E "glGetUniformLocation"
    (fun location => if location = -1 then .null else .number location) jsArgv c

/-! ## Sequences of calls -/

/-- The native methods that sequences of calls are built from. `simple func` stands for the methods
defined with SIMPLE_NATIVE_METHOD(name, func), `unimplemented name` for those
defined with UNIMPL_NATIVE_METHOD(name). -/
inductive Method
  | simple (func : String)
  | unimplemented (name : String)
  | getParameter | getError | pixelStorei
  | bindBuffer | bufferSubData | createBuffer | deleteBuffer
  | bindFramebuffer | createFramebuffer | deleteFramebuffer | readPixels
  | createRenderbuffer | deleteRenderbuffer | renderbufferStorage
  | createTexture | deleteTexture
  | createProgram | createShader | deleteProgram | deleteShader
  | createQuery | deleteQuery
  | createSampler | deleteSampler
  | createTransformFeedback | deleteTransformFeedback
  | bindBufferRange
  | createVertexArray | deleteVertexArray
  | endFrameEXP | flushEXP
  deriving DecidableEq, Repr

/-- The function behind each method (`EXGLContext::glNativeMethod_##name`). -/
def Method.call (E : Externals) : Method → List JsValue → EXGLContext → NativeResult
  | .simple func => SIMPLE_NATIVE_METHOD E func
  | .unimplemented name => UNIMPL_NATIVE_METHOD E name
  | .getParameter => EXGL.getParameter E
  | .getError => EXGL.getError E
  | .pixelStorei => EXGL.pixelStorei E
  | .bindBuffer => EXGL.bindBuffer E
  | .bufferSubData => EXGL.bufferSubData E
  | .createBuffer => EXGL.createBuffer E
  | .deleteBuffer => EXGL.deleteBuffer E
  | .bindFramebuffer => EXGL.bindFramebuffer E
  | .createFramebuffer => EXGL.createFramebuffer E
  | .deleteFramebuffer => EXGL.deleteFramebuffer E
  | .readPixels => EXGL.readPixels E
  | .createRenderbuffer => EXGL.createRenderbuffer E
  | .deleteRenderbuffer => EXGL.deleteRenderbuffer E
  | .renderbufferStorage => EXGL.renderbufferStorage E
  | .createTexture => EXGL.createTexture E
  | .deleteTexture => EXGL.deleteTexture E
  | .createProgram => EXGL.createProgram E
  | .createShader => EXGL.createShader E
  | .deleteProgram => EXGL.deleteProgram E
  | .deleteShader => EXGL.deleteShader E
  | .createQuery => EXGL.createQuery E
  | .deleteQuery => EXGL.deleteQuery E
  | .createSampler => EXGL.createSampler E
  | .deleteSampler => EXGL.deleteSampler E
  | .createTransformFeedback => EXGL.createTransformFeedback E
  | .deleteTransformFeedback => EXGL.deleteTransformFeedback E
  | .bindBufferRange => EXGL.bindBufferRange E
  | .createVertexArray => EXGL.createVertexArray E
  | .deleteVertexArray => EXGL.deleteVertexArray E
  | .endFrameEXP => EXGL.endFrameEXP E
  | .flushEXP => EXGL.flushEXP E

/-- The methods that hand out a handle. -/
def Method.allocates : Method → Bool
  | .createBuffer | .createFramebuffer | .createRenderbuffer | .createTexture
  | .createProgram | .createShader | .createQuery | .createSampler
  | .createTransformFeedback | .createVertexArray => true
  | _ => false

/-- What happens to a context: the submitting thread calls a native method,
or the rendering thread takes its turn and runs `flush`. -/
inductive Event
  | call (m : Method) (jsArgv : List JsValue)
  | drain
  deriving DecidableEq, Repr

def Event.step (E : Externals) : Event → EXGLContext → Option Outcome × EXGLContext
  | .call m jsArgv, c =>
    let r := m.call E jsArgv c
    (some r.1, r.2)
  | .drain, c => (none, flush E.drv c)

/-- Run a sequence of events as the code does: items wait in batches. -/
def run (E : Externals) : List Event → EXGLContext → List (Option Outcome) × EXGLContext
  | [], c => ([], c)
  | ev :: rest, c =>
    let r := ev.step E c
    let rs := run E rest r.2
    (r.1 :: rs.1, rs.2)

/-- Seal the batch being filled and let the rendering thread execute all that
is queued. -/
def settle (drv : Driver) (c : EXGLContext) : EXGLContext :=
  flush drv (endNextBatch c)

/-- The call returned null and, whatever value the unpack-flip-Y flag takes
afterwards, once the queued batches have been executed the last call made to
the driver is `func` with the given scalars and bytes. -/
def handsToDriver (E : Externals) (r : NativeResult) (func : String) (args : List Int)
    (data : Option (List Nat)) : Prop :=
  r.1 = .ok .null ∧
  ∀ flag : Bool,
    (settle E.drv { r.2 with unpackFLipY := flag }).gl.calls.getLast?
      = some { func := func, args := args, data := data }

/-- The exception of texImage2D for a wrong argument count. -/
def texImage2DCountError : String := "EXGL: Invalid number of arguments to gl.texImage2D()!"

/-- The exception of texSubImage2D for a wrong argument count. -/
def texSubImage2DCountError : String :=
  "EXGL: Invalid number of arguments to gl.texSubImage2D()!"

/-- The helpers that are not among the sources never throw the message `msg`. -/
def Externals.neverThrows (E : Externals) (msg : String) : Prop :=
  (∀ types jsArgv, E.unpackArgv types jsArgv ≠ .error msg) ∧
  (∀ v, E.rawArrayBuffer v ≠ .error msg) ∧
  (∀ v width height, E.loadImage v width height ≠ .error msg)

/-- The handles handed out by the handle-allocating calls of a sequence, in
the order in which they were returned. -/
def handlesReturned (E : Externals) : List Event → EXGLContext → List Int
  | [], _ => []
  | ev :: rest, c =>
    let r := ev.step E c
    let later := handlesReturned E rest r.2
    match ev, r.1 with
    | .call m _, some (.ok (.number h)) => if m.allocates then h :: later else later
    | _, _ => later

/-- Whether a closure leaves the registry entry of handle `h` alone. -/
def Op.leaves (h : UEXGLObjectId) : Op → Bool
  | .genObject _ exglObjId => exglObjId ≠ h
  | .createObject _ _ exglObjId => exglObjId ≠ h
  | .deleteObject _ exglObjId => exglObjId ≠ h
  | _ => true

/-! ## A concrete instance, for evaluating the definitions -/

/-- A driver that answers every call with the number of calls made so far,
plus one. -/
def countingDriver : Driver := fun calls _ => [(calls.length : Int) + 1]

/-- Helpers that accept numbers where scalars are read and objects where
objects are read. -/
def sampleExternals : Externals where
  drv := countingDriver
  unpackUInt := fun v =>
    match v with
    | .number n => .ok n.toNat
    | _ => .error "Value is not a number"
  unpackInt := fun v =>
    match v with
    | .number n => .ok n
    | _ => .error "Value is not a number"
  unpackUChar := fun v =>
    match v with
    | .bool b => .ok (if b then 1 else 0)
    | .number n => .ok (n.toNat % 256)
    | _ => .error "Value is not a boolean"
  unpackObject := fun v =>
    match v with
    | .object => .ok v
    | .array _ => .ok v
    | .arrayBuffer _ => .ok v
    | .typedArray _ _ => .ok v
    | .typedNumbers _ _ => .ok v
    | _ => .error "Value is not an Object"
  unpackArgv := fun types jsArgv =>
    if jsArgv.length < types.length then .error "EXGL: Too few arguments"
    else .ok ((jsArgv.take types.length).map fun v =>
      match v with
      | .number n => n
      | _ => 0)
  generateNativeMethod := fun func jsArgv =>
    .ok (.native func (jsArgv.map fun v =>
      match v with
      | .number n => n
      | _ => 0))
  rawArrayBuffer := fun v =>
    match v with
    | .arrayBuffer bytes => .ok bytes
    | .typedArray buffer _ => .ok buffer
    | _ => .error "EXGL: not an ArrayBuffer"
  bytesPerPixel := fun type format => if type = GL_UNSIGNED_BYTE ∧ format = GL_RGBA then 4 else 1
  loadImage := fun _ width height => .ok (none, width, height)
  unpackArray := fun v =>
    match v with
    | .array elems => .ok elems
    | _ => .error "Value is not an Array"

/-- A driver whose every answer is 1, the first name of each kind of object:
the first buffer, the first texture and the first program are all named 1. -/
def firstNameDriver : Driver := fun _ _ => [1]

/-- The sample helpers on top of the driver whose every answer is 1. -/
def firstNameExternals : Externals := { sampleExternals with drv := firstNameDriver }

/-- A driver whose every answer is the given number. -/
def constantDriver (answer : Int) : Driver := fun _ _ => [answer]

/-- The sample helpers on top of a driver whose every answer is `answer`. -/
def constantExternals (answer : Int) : Externals :=
  { sampleExternals with drv := constantDriver answer }

/-! ## Lemmas on the batch queue -/

theorem runBatch_append (drv : Driver) (a b : List WorkItem) (g : GLThread) :
    runBatch drv (a ++ b) g = runBatch drv b (runBatch drv a g) := by
  simp [runBatch, List.foldl_append]

theorem foldl_runBatch (drv : Driver) (batches : List (List WorkItem)) (g : GLThread) :
    batches.foldl (fun g b => runBatch drv b g) g = runBatch drv batches.flatten g := by
  induction batches generalizing g with
  | nil => rfl
  | cons b bs ih => simp [List.flatten, runBatch_append, ih]

theorem settle_eq (drv : Driver) (c : EXGLContext) :
    settle drv c =
      { c with nextBatch := [], backlog := [],
               gl := runBatch drv (c.backlog.flatten ++ c.nextBatch) c.gl } := by
  simp [settle, flush, endNextBatch, foldl_runBatch, runBatch_append]

theorem settle_gl_addToNextBatch (drv : Driver) (op : Op) (c : EXGLContext) :
    (settle drv (addToNextBatch op c)).gl
      = WorkItem.exec drv { op := op, blocking := false } (settle drv c).gl := by
  simp [settle_eq, addToNextBatch, runBatch_append]
  simp [runBatch]

theorem addBlockingToNextBatch_eq (drv : Driver) (op : Op) (c : EXGLContext) :
    addBlockingToNextBatch drv op c =
      ((Op.run drv op (settle drv c).gl).2,
       { c with nextBatch := [], backlog := [],
                gl := WorkItem.exec drv { op := op, blocking := true } (settle drv c).gl }) := by
  simp [addBlockingToNextBatch, settle_eq, flush, endNextBatch, flushOnGLThread, foldl_runBatch,
    runBatch_append]
  simp [runBatch, WorkItem.exec]

/-- C2: a blocking call waits for everything queued before it. When getError
or flushEXP is called after two work items A and B were enqueued, then on
return the rendering thread has executed all earlier items, then A, then B,
then the item of the blocking call; nothing is left queued; getError returns
the error code the driver gave to its own glGetError call, made after the
calls of A and B, and flushEXP returns null. -/
theorem blocking_call_runs_after_earlier_items (E : Externals) (c : EXGLContext)
    (opA opB : Op) (jsArgv : List JsValue) :
    let cAB := addToNextBatch opB (addToNextBatch opA c)
    let gB := WorkItem.exec E.drv { op := opB }
      (WorkItem.exec E.drv { op := opA } (settle E.drv c).gl)
    (getError E jsArgv cAB).2.gl
        = WorkItem.exec E.drv { op := .native "glGetError" [], blocking := true } gB ∧
    (getError E jsArgv cAB).2.gl.calls = gB.calls ++ [{ func := "glGetError", args := [] }] ∧
    (getError E jsArgv cAB).1
        = .ok (.number ((E.drv gB.calls { func := "glGetError", args := [] }).headD 0)) ∧
    (getError E jsArgv cAB).2.nextBatch = [] ∧ (getError E jsArgv cAB).2.backlog = [] ∧
    (flushEXP E jsArgv cAB).2.gl = WorkItem.exec E.drv { op := .nop, blocking := true } gB ∧
    (flushEXP E jsArgv cAB).2.gl.calls = gB.calls ∧
    (flushEXP E jsArgv cAB).1 = .ok .null ∧
    (flushEXP E jsArgv cAB).2.nextBatch = [] ∧ (flushEXP E jsArgv cAB).2.backlog = [] := by
  intro cAB gB
  have hB : (settle E.drv cAB).gl = gB := by
    simp only [cAB, gB, settle_gl_addToNextBatch]
  simp only [getError, flushEXP, blockingQuery, addBlockingToNextBatch_eq, hB]
  clear_value gB
  simp [WorkItem.exec, Op.run, glCall]

/-! ## Handle allocation -/

theorem addBlockingToNextBatch_nextObjectId (drv : Driver) (op : Op) (c : EXGLContext) :
    (addBlockingToNextBatch drv op c).2.nextObjectId = c.nextObjectId := by
  simp [addBlockingToNextBatch_eq]

theorem blockingQuery_nextObjectId (E : Externals) (func : String) (args : List Int)
    (convert : List Int → EXGLContext → JsValue) (c : EXGLContext) :
    (blockingQuery E func args convert c).2.nextObjectId = c.nextObjectId := by
  simp only [blockingQuery]
  split <;> simp [addBlockingToNextBatch_nextObjectId]

theorem ite_nextObjectId {p : Prop} [Decidable p] {a b : NativeResult} (n : Nat)
    (ha : a.2.nextObjectId = n) (hb : b.2.nextObjectId = n) :
    (if p then a else b).2.nextObjectId = n := by
  by_cases h : p <;> simp [h, ha, hb]

/-- A call either leaves the handle counter alone, or it is a
handle-allocating call that returned the counter and advanced it by one. -/
theorem call_nextObjectId (E : Externals) (m : Method) (jsArgv : List JsValue)
    (c : EXGLContext) :
    (∀ h : Int, m.allocates = true → (m.call E jsArgv c).1 = .ok (.number h) →
      h = (c.nextObjectId : Int) ∧ (m.call E jsArgv c).2.nextObjectId = c.nextObjectId + 1) ∧
    (m.allocates = false → (m.call E jsArgv c).2.nextObjectId = c.nextObjectId) ∧
    (∀ e : String, (m.call E jsArgv c).1 = .error e →
      (m.call E jsArgv c).2.nextObjectId = c.nextObjectId) := by
  cases m
  case simple func =>
    simp only [Method.call, SIMPLE_NATIVE_METHOD, Method.allocates]
    split <;> simp [addToNextBatch]
  case unimplemented name => simp [Method.call, UNIMPL_NATIVE_METHOD, Method.allocates]
  case createBuffer =>
    simp [Method.call, createBuffer, exglGenObject, createObject, addToNextBatch,
      Method.allocates]
  case createFramebuffer =>
    simp [Method.call, createFramebuffer, exglGenObject, createObject, addToNextBatch,
      Method.allocates]
  case createRenderbuffer =>
    simp [Method.call, createRenderbuffer, exglGenObject, createObject, addToNextBatch,
      Method.allocates]
  case createTexture =>
    simp [Method.call, createTexture, exglGenObject, createObject, addToNextBatch,
      Method.allocates]
  case createQuery =>
    simp [Method.call, createQuery, exglGenObject, createObject, addToNextBatch,
      Method.allocates]
  case createSampler =>
    simp [Method.call, createSampler, exglGenObject, createObject, addToNextBatch,
      Method.allocates]
  case createTransformFeedback =>
    simp [Method.call, createTransformFeedback, exglGenObject, createObject, addToNextBatch,
      Method.allocates]
  case createVertexArray =>
    simp [Method.call, createVertexArray, exglGenObject, createObject, addToNextBatch,
      Method.allocates]
  case createProgram =>
    simp [Method.call, createProgram, exglCreateObject, createObject, addToNextBatch,
      Method.allocates]
  case createShader =>
    simp only [Method.call, createShader]
    split
    · simp
    · split <;> simp [exglCreateObject, createObject, addToNextBatch, Method.allocates]
  case deleteBuffer =>
    simp only [Method.call, deleteBuffer, exglDeleteObject, Method.allocates]
    split <;> simp [addToNextBatch]
  case deleteFramebuffer =>
    simp only [Method.call, deleteFramebuffer, exglDeleteObject, Method.allocates]
    split <;> simp [addToNextBatch]
  case deleteRenderbuffer =>
    simp only [Method.call, deleteRenderbuffer, exglDeleteObject, Method.allocates]
    split <;> simp [addToNextBatch]
  case deleteTexture =>
    simp only [Method.call, deleteTexture, exglDeleteObject, Method.allocates]
    split <;> simp [addToNextBatch]
  case deleteProgram =>
    simp only [Method.call, deleteProgram, exglDeleteObject, Method.allocates]
    split <;> simp [addToNextBatch]
  case deleteShader =>
    simp only [Method.call, deleteShader, exglDeleteObject, Method.allocates]
    split <;> simp [addToNextBatch]
  case deleteQuery =>
    simp only [Method.call, deleteQuery, exglDeleteObject, Method.allocates]
    split <;> simp [addToNextBatch]
  case deleteSampler =>
    simp only [Method.call, deleteSampler, exglDeleteObject, Method.allocates]
    split <;> simp [addToNextBatch]
  case deleteTransformFeedback =>
    simp only [Method.call, deleteTransformFeedback, exglDeleteObject, Method.allocates]
    split <;> simp [addToNextBatch]
  case deleteVertexArray =>
    simp only [Method.call, deleteVertexArray, exglDeleteObject, Method.allocates]
    split <;> simp [addToNextBatch]
  case bindBuffer =>
    simp only [Method.call, bindBuffer, Method.allocates]
    split <;> simp [addToNextBatch]
  case bufferSubData =>
    simp only [Method.call, bufferSubData, Method.allocates]
    split <;> simp [addToNextBatch]
  case bindFramebuffer =>
    simp only [Method.call, bindFramebuffer, Method.allocates]
    split <;> simp [addToNextBatch]
  case renderbufferStorage =>
    simp only [Method.call, renderbufferStorage, Method.allocates]
    split <;> simp [addToNextBatch]
  case bindBufferRange =>
    simp only [Method.call, bindBufferRange, Method.allocates]
    split <;> simp [addToNextBatch]
  case getError =>
    simp [Method.call, getError, Method.allocates, blockingQuery_nextObjectId]
  case flushEXP =>
    simp only [Method.call, flushEXP, Method.allocates]
    split <;> simp [addBlockingToNextBatch_nextObjectId]
  case endFrameEXP =>
    simp [Method.call, endFrameEXP, flushOnGLThread, endNextBatch, addToNextBatch,
      Method.allocates]
  case readPixels =>
    simp only [Method.call, readPixels, Method.allocates]
    split
    · simp
    · split
      · simp [addBlockingToNextBatch_nextObjectId]
      · split <;> simp [addBlockingToNextBatch_nextObjectId]
  case pixelStorei =>
    simp only [Method.call, pixelStorei, Method.allocates]
    split
    · simp
    · split
      · split <;> simp
      · simp [jsConsoleLog]
  case getParameter =>
    have key : (getParameter E jsArgv c).2.nextObjectId = c.nextObjectId := by
      simp only [getParameter]
      split
      · rfl
      · repeat' apply ite_nextObjectId
        all_goals first | rfl | exact blockingQuery_nextObjectId _ _ _ _ _
    simp [Method.call, Method.allocates, key]

theorem handlesReturned_increasing (E : Externals) (evs : List Event) :
    ∀ c : EXGLContext,
      (∀ x ∈ handlesReturned E evs c, (c.nextObjectId : Int) ≤ x) ∧
      (handlesReturned E evs c).Pairwise (fun earlier later => earlier < later) := by
  induction evs with
  | nil => intro c; simp [handlesReturned]
  | cons ev rest ih =>
    intro c
    have hrest := ih (ev.step E c).2
    cases ev with
    | drain =>
      simp only [handlesReturned]
      simpa [Event.step, flush] using hrest
    | call m jsArgv =>
      have hc := call_nextObjectId E m jsArgv c
      simp only [Event.step] at hrest
      simp only [handlesReturned, Event.step]
      cases hres : (m.call E jsArgv c).1 with
      | error e =>
        have hn := hc.2.2 e hres
        rw [hn] at hrest
        simpa using hrest
      | ok v =>
        cases hal : m.allocates with
        | false =>
          have hn := hc.2.1 hal
          rw [hn] at hrest
          cases v <;> simpa [hal] using hrest
        | true =>
          cases v
          case number h =>
            obtain ⟨hh, hn⟩ := hc.1 h hal hres
            rw [hn] at hrest
            simp only [hal, if_true]
            refine ⟨?_, ?_⟩
            · intro x hx
              rcases List.mem_cons.1 hx with rfl | hx
              · omega
              · have := hrest.1 x hx
                push_cast at this
                omega
            · refine List.pairwise_cons.2 ⟨?_, hrest.2⟩
              intro x hx
              have := hrest.1 x hx
              push_cast at this
              omega
          all_goals
            exfalso
            revert hres
            cases m <;> first
              | (simp [Method.allocates] at hal; done)
              | (simp only [Method.call, createBuffer, createFramebuffer, createRenderbuffer,
                  createTexture, createQuery, createSampler, createTransformFeedback,
                  createVertexArray, createProgram, createShader, exglGenObject,
                  exglCreateObject]
                 try split
                 all_goals try split
                 all_goals simp)

/-- C3: handles are positive and never repeated. Starting from a context
whose handle counter is positive (it starts at 1), in every sequence of calls
and rendering-thread turns, each handle returned by createBuffer,
createFramebuffer, createRenderbuffer, createTexture, createProgram,
createShader, createQuery, createSampler, createTransformFeedback or
createVertexArray is strictly positive and differs from every handle returned
earlier, deleted or not. -/
theorem handles_positive_and_fresh (E : Externals) (evs : List Event) (c : EXGLContext)
    (hpos : 0 < c.nextObjectId) :
    (∀ h ∈ handlesReturned E evs c, 0 < h) ∧
    (handlesReturned E evs c).Pairwise (fun earlier later => later ≠ earlier) := by
  have h := handlesReturned_increasing E evs c
  have hp : (0 : Int) < (c.nextObjectId : Int) := by exact_mod_cast hpos
  refine ⟨?_, h.2.imp ?_⟩
  · intro x hx
    have := h.1 x hx
    omega
  · intro a b hab
    omega

theorem handles_positive_and_fresh_witness :
    0 < ({} : EXGLContext).nextObjectId ∧
    handlesReturned sampleExternals
      [.call .createBuffer [], .call .deleteBuffer [.number 1], .call .createTexture [],
       .drain, .call .createShader [.number 0x8B31]] {} = [1, 2, 3] ∧
    ((∀ h ∈ handlesReturned sampleExternals
        [.call .createBuffer [], .call .deleteBuffer [.number 1], .call .createTexture [],
         .drain, .call .createShader [.number 0x8B31]] {}, 0 < h) ∧
     (handlesReturned sampleExternals
        [.call .createBuffer [], .call .deleteBuffer [.number 1], .call .createTexture [],
         .drain, .call .createShader [.number 0x8B31]] {}).Pairwise
        (fun earlier later => later ≠ earlier)) :=
  ⟨by decide, by decide, handles_positive_and_fresh sampleExternals _ {} (by decide)⟩

/-! ## Registry lemmas -/

theorem lookupObject_mapObject_self (objects : List (UEXGLObjectId × GLuint))
    (k : UEXGLObjectId) (v : GLuint) :
    lookupObject (mapObject k v objects) k = .ok v := by
  induction objects with
  | nil => simp [mapObject, lookupObject]
  | cons p rest ih =>
    obtain ⟨k', v'⟩ := p
    by_cases h : k' = k
    · simp [mapObject, lookupObject, h]
    · simp only [mapObject, h, if_false]
      simp only [lookupObject, List.find?, h, decide_False] at ih ⊢
      exact ih

theorem lookupObject_mapObject_other (objects : List (UEXGLObjectId × GLuint))
    (k k' : UEXGLObjectId) (v : GLuint) (hne : k ≠ k') :
    lookupObject (mapObject k v objects) k' = lookupObject objects k' := by
  induction objects with
  | nil => simp [mapObject, lookupObject, hne]
  | cons p rest ih =>
    obtain ⟨k0, v0⟩ := p
    by_cases h : k0 = k
    · subst h
      simp [mapObject, lookupObject, hne]
    · simp only [mapObject, h, if_false]
      by_cases h' : k0 = k'
      · simp [lookupObject, h']
      · simp only [lookupObject, List.find?, h', decide_False] at ih ⊢
        exact ih

theorem lookupObject_destroyObject_self (objects : List (UEXGLObjectId × GLuint))
    (k : UEXGLObjectId) :
    lookupObject (destroyObject k objects) k = .error "EXGL: unknown object id" := by
  have h : (destroyObject k objects).find? (fun p => decide (p.1 = k)) = none := by
    rw [List.find?_eq_none]
    intro p hp
    simp [destroyObject] at hp
    simp [hp.2]
  simp [lookupObject, h]

theorem lookupObject_destroyObject_other (objects : List (UEXGLObjectId × GLuint))
    (k k' : UEXGLObjectId) (hne : k ≠ k') :
    lookupObject (destroyObject k objects) k' = lookupObject objects k' := by
  have hp : (fun a : UEXGLObjectId × GLuint => (!decide (a.1 = k) && decide (a.1 = k')))
      = fun a => decide (a.1 = k') := by
    funext a
    by_cases h : a.1 = k'
    · simp [h, Ne.symm hne]
    · simp [h]
  simp [lookupObject, destroyObject, List.find?_filter, hp]

theorem exec_objects (drv : Driver) (w : WorkItem) (g : GLThread) :
    (WorkItem.exec drv w g).objects = (w.op.run drv g).1.objects := by
  simp only [WorkItem.exec]
  split
  · rfl
  · split <;> rfl

theorem exec_leaves (drv : Driver) (h : UEXGLObjectId) (op : Op) (g : GLThread)
    (hop : op.leaves h = true) :
    lookupObject (WorkItem.exec drv { op := op, blocking := false } g).objects h
      = lookupObject g.objects h := by
  rw [exec_objects]
  cases op
  case native func args => simp [Op.run, glCall]
  case withObject func args obj more =>
    cases hl : lookupObject g.objects obj <;> simp [Op.run, hl, glCall]
  case bindFramebuffer target framebuffer =>
    by_cases h0 : framebuffer = 0
    · simp [Op.run, h0, glCall]
    · cases hl : lookupObject g.objects framebuffer <;> simp [Op.run, h0, hl, glCall]
  case genObject glFunc id =>
    simp [Op.leaves] at hop
    simp [Op.run, glCall, lookupObject_mapObject_other _ _ _ _ hop]
  case createObject glFunc args id =>
    simp [Op.leaves] at hop
    simp [Op.run, glCall, lookupObject_mapObject_other _ _ _ _ hop]
  case deleteObject glFunc id =>
    simp [Op.leaves] at hop
    cases hl : lookupObject g.objects id <;>
      simp [Op.run, hl, glCall, lookupObject_destroyObject_other _ _ _ hop]
  case setNeedsRedraw b => simp [Op.run]
  case nop => simp [Op.run]
  case upload func args data => simp [Op.run, glCallData]
  case uploadZeroed func args nmemb size => simp [Op.run, glCallData]
  case getAttachedShaders fProgram =>
    cases hl : lookupObject g.objects fProgram <;> simp [Op.run, hl, glCall]

theorem runBatch_leaves (drv : Driver) (h : UEXGLObjectId) (ops : List Op) :
    ∀ g : GLThread, (∀ op ∈ ops, op.leaves h = true) →
      lookupObject (runBatch drv (ops.map fun op => { op := op, blocking := false }) g).objects h
        = lookupObject g.objects h := by
  induction ops with
  | nil => intro g _; rfl
  | cons op rest ih =>
    intro g hall
    have h1 := exec_leaves drv h op g (hall op (List.mem_cons_self _ _))
    have h2 := ih (WorkItem.exec drv { op := op, blocking := false } g)
      (fun o ho => hall o (List.mem_cons_of_mem _ ho))
    simp only [List.map_cons, runBatch, List.foldl_cons] at h2 ⊢
    rw [h2, h1]

theorem settle_gl_foldl_addToNextBatch (drv : Driver) (ops : List Op) :
    ∀ c : EXGLContext,
      (settle drv (ops.foldl (fun c op => addToNextBatch op c) c)).gl
        = runBatch drv (ops.map fun op => { op := op, blocking := false }) (settle drv c).gl := by
  induction ops with
  | nil => intro c; rfl
  | cons op rest ih =>
    intro c
    simp only [List.foldl_cons, List.map_cons]
    rw [ih, settle_gl_addToNextBatch]
    rfl

/-- C4: a buffer deleted before its batch is sealed leaves nothing behind.
Let H be the handle createBuffer returns. If, after any further work items that
leave H alone, deleteBuffer(H) is called before the batch is sealed, and the
batch is then sealed and drained, then both calls return normally, the
creation item bound H to the name the driver generated, a lookup of H fails
afterwards, and the last driver call is glDeleteBuffers on that generated
name. -/
theorem buffer_deleted_before_seal (E : Externals) (c : EXGLContext) (mid : List Op)
    (hmid : ∀ op ∈ mid, op.leaves c.nextObjectId = true)
    (harg : E.unpackUInt (.number (c.nextObjectId : Int)) = .ok c.nextObjectId) :
    let H := c.nextObjectId
    let created := createBuffer E [] c
    let queued := mid.foldl (fun c op => addToNextBatch op c) created.2
    let deleted := deleteBuffer E [.number (H : Int)] queued
    let final := settle E.drv deleted.2
    let g0 := (settle E.drv c).gl
    let name := asGLuint ((E.drv g0.calls { func := "glGenBuffers", args := [1] }).headD 0)
    let gMid := runBatch E.drv (mid.map fun op => { op := op, blocking := false })
      (WorkItem.exec E.drv { op := .genObject "glGenBuffers" H, blocking := false } g0)
    created.1 = .ok (.number (H : Int)) ∧
    deleted.1 = .ok .null ∧
    lookupObject gMid.objects H = .ok name ∧
    lookupObject final.gl.objects H = .error "EXGL: unknown object id" ∧
    final.gl.calls = gMid.calls ++ [{ func := "glDeleteBuffers", args := [1, (name : Int)] }] := by
  intro H created queued deleted final g0 name gMid
  have hcreated : created = (.ok (.number (H : Int)),
      addToNextBatch (.genObject "glGenBuffers" H) { c with nextObjectId := H + 1 }) := rfl
  have hdeleted : deleted = (.ok .null, addToNextBatch (.deleteObject "glDeleteBuffers" H) queued) := by
    simp [deleted, deleteBuffer, exglDeleteObject, ARG, harg, H]
  have hbase : (settle E.drv ({ c with nextObjectId := H + 1 } : EXGLContext)).gl = g0 := by
    simp [g0, settle_eq]
  have hqueued : (settle E.drv queued).gl = gMid := by
    simp only [queued, hcreated, settle_gl_foldl_addToNextBatch, settle_gl_addToNextBatch, hbase,
      gMid]
  have hfinal : final.gl
      = WorkItem.exec E.drv { op := .deleteObject "glDeleteBuffers" H, blocking := false } gMid := by
    simp only [final, hdeleted, settle_gl_addToNextBatch, hqueued]
  have hbound : lookupObject gMid.objects H = .ok name := by
    simp only [gMid]
    rw [runBatch_leaves E.drv H mid _ hmid, exec_objects]
    simp [Op.run, glCall, lookupObject_mapObject_self, name]
  refine ⟨by rw [hcreated], by rw [hdeleted], hbound, ?_, ?_⟩
  · rw [hfinal, exec_objects]
    simp [Op.run, hbound, glCall, lookupObject_destroyObject_self]
  · rw [hfinal]
    simp [WorkItem.exec, Op.run, hbound, glCall]

theorem buffer_deleted_before_seal_witness :
    (∀ op ∈ [Op.native "glClear" [16384], Op.withObject "glBindBuffer" [34962] 1 []],
      op.leaves ({} : EXGLContext).nextObjectId = true) ∧
    sampleExternals.unpackUInt (.number ((({} : EXGLContext).nextObjectId : Nat) : Int))
      = .ok ({} : EXGLContext).nextObjectId ∧
    lookupObject
      (settle sampleExternals.drv
        (deleteBuffer sampleExternals [.number 1]
          ([Op.native "glClear" [16384], Op.withObject "glBindBuffer" [34962] 1 []].foldl
            (fun c op => addToNextBatch op c) (createBuffer sampleExternals [] {}).2)).2).gl.objects
      1 = .error "EXGL: unknown object id" ∧
    (settle sampleExternals.drv
        (deleteBuffer sampleExternals [.number 1]
          ([Op.native "glClear" [16384], Op.withObject "glBindBuffer" [34962] 1 []].foldl
            (fun c op => addToNextBatch op c) (createBuffer sampleExternals [] {}).2)).2).gl.calls
      = [{ func := "glGenBuffers", args := [1] }, { func := "glClear", args := [16384] },
         { func := "glBindBuffer", args := [34962, 1] },
         { func := "glDeleteBuffers", args := [1, 1] }] :=
  ⟨by decide, by decide,
    (buffer_deleted_before_seal sampleExternals {}
      [Op.native "glClear" [16384], Op.withObject "glBindBuffer" [34962] 1 []]
      (by decide) (by decide)).2.2.2.1,
    by decide⟩

/-! ## Argument checks -/

theorem ARG_supplied {α : Type} (unpack : JsValue → Except String α) (jsArgv : List JsValue)
    (index : Nat) (hok : ∀ v, jsArgv[index]? = some v → (unpack v).toBool = true) :
    ARG unpack jsArgv index = .error "EXGL: Too few arguments" ∨
    ∃ x, ARG unpack jsArgv index = .ok x := by
  cases hv : jsArgv[index]? with
  | none => left; simp [ARG, hv]
  | some v =>
    right
    have := hok v hv
    cases hu : unpack v with
    | error e => simp [hu, Except.toBool] at this
    | ok x => exact ⟨x, by simp [ARG, hv, hu]⟩

theorem ARG_supplied_object (E : Externals) (types : List ArgType) (jsArgv : List JsValue)
    (hs : E.suppliedOk types jsArgv) (index : Nat) (hty : types[index]? = some .object) :
    ARG E.unpackObject jsArgv index = .error "EXGL: Too few arguments" ∨
    ∃ x, ARG E.unpackObject jsArgv index = .ok x :=
  ARG_supplied _ _ _ (fun v hv => hs index .object v hty hv)

theorem bindBuffer_rejected_argument (E : Externals) (v : JsValue) (e : String)
    (c : EXGLContext) (hv : E.unpackUInt v = .error e) :
    bindBuffer E [v] c = (.error e, c) := by
  simp [bindBuffer, ARG, hv, bind, Except.bind]

/-- C6: readPixels and a destination that is not a typed array. Evaluation of
readPixels(0, 0, 1, 1, RGBA, UNSIGNED_BYTE, 7): the exception for the seventh
argument is raised only after the blocking item was enqueued and executed, so
the driver has performed glReadPixels and nothing is left queued. -/
theorem readPixels_reads_before_checking_destination :
    (readPixels sampleExternals
      [.number 0, .number 0, .number 1, .number 1, .number 0x1908, .number 0x1401, .number 7]
      {}).1 = .error "Value is not an Object" ∧
    (readPixels sampleExternals
      [.number 0, .number 0, .number 1, .number 1, .number 0x1908, .number 0x1401, .number 7]
      {}).2.gl.calls = [{ func := "glReadPixels", args := [0, 0, 1, 1, 0x1908, 0x1401] }] ∧
    (readPixels sampleExternals
      [.number 0, .number 0, .number 1, .number 1, .number 0x1908, .number 0x1401, .string "x"]
      {}).2.gl.calls = [{ func := "glReadPixels", args := [0, 0, 1, 1, 0x1908, 0x1401] }] := by
  decide

theorem exglUnimplemented_injective (a b : String) :
    exglUnimplemented a = exglUnimplemented b ↔ a = b := by
  constructor
  · intro h
    simp only [exglUnimplemented, Except.error.injEq] at h
    have hd := congrArg String.data h
    simp only [String.data_append, List.append_assoc] at hd
    have h1 := List.append_cancel_left hd
    have h2 := List.append_cancel_right h1
    exact String.ext h2
  · intro h
    rw [h]

/-- C7: unimplemented operations. Each of the twenty operations declared with
UNIMPL_NATIVE_METHOD yields, for every argument list, exactly the outcome of
exglUnimplemented applied to the operation's own name and leaves the context
unchanged: no work item is enqueued. That outcome is a failure for every name,
never a normal return, and it identifies the operation: exglUnimplemented
yields the same outcome for two names only when the names are the same, and
the outcomes of the twenty operations are pairwise different. -/
theorem unimplemented_methods_report_their_name (E : Externals) (jsArgv : List JsValue)
    (c : EXGLContext) :
    (getBufferSubData E jsArgv c = (exglUnimplemented "getBufferSubData", c) ∧
    getFramebufferAttachmentParameter E jsArgv c = (exglUnimplemented "getFramebufferAttachmentParameter", c) ∧
    getRenderbufferParameter E jsArgv c = (exglUnimplemented "getRenderbufferParameter", c) ∧
    getInternalformatParameter E jsArgv c = (exglUnimplemented "getInternalformatParameter", c) ∧
    renderbufferStorageMultisample E jsArgv c = (exglUnimplemented "renderbufferStorageMultisample", c) ∧
    compressedTexImage2D E jsArgv c = (exglUnimplemented "compressedTexImage2D", c) ∧
    compressedTexSubImage2D E jsArgv c = (exglUnimplemented "compressedTexSubImage2D", c) ∧
    getTexParameter E jsArgv c = (exglUnimplemented "getTexParameter", c) ∧
    compressedTexImage3D E jsArgv c = (exglUnimplemented "compressedTexImage3D", c) ∧
    compressedTexSubImage3D E jsArgv c = (exglUnimplemented "compressedTexSubImage3D", c) ∧
    getUniform E jsArgv c = (exglUnimplemented "getUniform", c) ∧
    getVertexAttrib E jsArgv c = (exglUnimplemented "getVertexAttrib", c) ∧
    getVertexAttribOffset E jsArgv c = (exglUnimplemented "getVertexAttribOffset", c) ∧
    fenceSync E jsArgv c = (exglUnimplemented "fenceSync", c) ∧
    isSync E jsArgv c = (exglUnimplemented "isSync", c) ∧
    deleteSync E jsArgv c = (exglUnimplemented "deleteSync", c) ∧
    clientWaitSync E jsArgv c = (exglUnimplemented "clientWaitSync", c) ∧
    waitSync E jsArgv c = (exglUnimplemented "waitSync", c) ∧
    getSyncParameter E jsArgv c = (exglUnimplemented "getSyncParameter", c) ∧
    getActiveUniformBlockParameter E jsArgv c = (exglUnimplemented "getActiveUniformBlockParameter", c)) ∧
    (∀ name : String, ∃ msg : String, exglUnimplemented name = .error msg) ∧
    (∀ name : String, ∀ v : JsValue, exglUnimplemented name ≠ .ok v) ∧
    (∀ a b : String, exglUnimplemented a = exglUnimplemented b ↔ a = b) ∧
    ([getBufferSubData E jsArgv c, getFramebufferAttachmentParameter E jsArgv c,
      getRenderbufferParameter E jsArgv c, getInternalformatParameter E jsArgv c,
      renderbufferStorageMultisample E jsArgv c, compressedTexImage2D E jsArgv c,
      compressedTexSubImage2D E jsArgv c, getTexParameter E jsArgv c,
      compressedTexImage3D E jsArgv c, compressedTexSubImage3D E jsArgv c,
      getUniform E jsArgv c, getVertexAttrib E jsArgv c, getVertexAttribOffset E jsArgv c,
      fenceSync E jsArgv c, isSync E jsArgv c, deleteSync E jsArgv c,
      clientWaitSync E jsArgv c, waitSync E jsArgv c, getSyncParameter E jsArgv c,
      getActiveUniformBlockParameter E jsArgv c].map Prod.fst).Nodup := by
  refine ⟨⟨rfl, rfl, rfl, rfl, rfl, rfl, rfl, rfl, rfl, rfl, rfl, rfl, rfl, rfl, rfl, rfl, rfl,
    rfl, rfl, rfl⟩, fun name => ⟨_, rfl⟩, ?_, exglUnimplemented_injective, ?_⟩
  · intro name v h
    simp [exglUnimplemented] at h
  · simp only [getBufferSubData, getFramebufferAttachmentParameter, getRenderbufferParameter,
      getInternalformatParameter, renderbufferStorageMultisample, compressedTexImage2D,
      compressedTexSubImage2D, getTexParameter, compressedTexImage3D, compressedTexSubImage3D,
      getUniform, getVertexAttrib, getVertexAttribOffset, fenceSync, isSync, deleteSync,
      clientWaitSync, waitSync, getSyncParameter, getActiveUniformBlockParameter,
      UNIMPL_NATIVE_METHOD, List.map]
    decide

/-- C8: unsupported parameter names of getParameter. For each of the fourteen
names listed under "Unimplemented..." (`unsupportedParameters`), getParameter
throws an error whose message holds the decimal value of the requested name
between "EXGL: getParameter() doesn't support gl." and " yet!", and leaves the
context unchanged: no work item is enqueued. -/
theorem getParameter_unsupported (E : Externals) (jsArgv : List JsValue) (c : EXGLContext)
    (pname : GLenum) (hname : pname ∈ unsupportedParameters)
    (harg : ARG E.unpackUInt jsArgv 0 = .ok pname) :
    getParameter E jsArgv c =
      (.error ("EXGL: getParameter() doesn\x27t support gl." ++ toString pname ++ " yet!"), c) := by
  simp only [unsupportedParameters, List.mem_cons, List.mem_singleton, List.not_mem_nil,
    or_false] at hname
  rcases hname with h | h | h | h | h | h | h | h | h | h | h | h | h | h <;>
    subst h <;>
    simp [getParameter, harg, unsupportedParameters, GL_COMPRESSED_TEXTURE_FORMATS,
      GL_ALIASED_LINE_WIDTH_RANGE, GL_ALIASED_POINT_SIZE_RANGE, GL_DEPTH_RANGE, GL_BLEND_COLOR,
      GL_COLOR_CLEAR_VALUE, GL_MAX_VIEWPORT_DIMS, GL_SCISSOR_BOX, GL_VIEWPORT, GL_COLOR_WRITEMASK,
      GL_UNPACK_FLIP_Y_WEBGL, GL_UNPACK_PREMULTIPLY_ALPHA_WEBGL,
      GL_UNPACK_COLORSPACE_CONVERSION_WEBGL, GL_RASTERIZER_DISCARD, GL_SAMPLE_ALPHA_TO_COVERAGE,
      GL_SAMPLE_COVERAGE, GL_TRANSFORM_FEEDBACK_ACTIVE, GL_TRANSFORM_FEEDBACK_PAUSED, GL_RENDERER,
      GL_SHADING_LANGUAGE_VERSION, GL_VENDOR, GL_VERSION, GL_DEPTH_CLEAR_VALUE, GL_LINE_WIDTH,
      GL_POLYGON_OFFSET_FACTOR, GL_POLYGON_OFFSET_UNITS, GL_SAMPLE_COVERAGE_VALUE,
      GL_MAX_TEXTURE_LOD_BIAS, GL_ARRAY_BUFFER_BINDING, GL_ELEMENT_ARRAY_BUFFER_BINDING,
      GL_CURRENT_PROGRAM, GL_COPY_READ_BUFFER_BINDING, GL_COPY_WRITE_BUFFER_BINDING,
      GL_DRAW_FRAMEBUFFER_BINDING, GL_READ_FRAMEBUFFER_BINDING, GL_RENDERBUFFER,
      GL_SAMPLER_BINDING, GL_TEXTURE_BINDING_2D_ARRAY, GL_TEXTURE_BINDING_2D,
      GL_TEXTURE_BINDING_3D, GL_TEXTURE_BINDING_CUBE_MAP, GL_TRANSFORM_FEEDBACK_BINDING,
      GL_TRANSFORM_FEEDBACK_BUFFER_BINDING, GL_UNIFORM_BUFFER_BINDING, GL_VERTEX_ARRAY_BINDING]

theorem getParameter_unsupported_witness :
    GL_RENDERBUFFER ∈ unsupportedParameters ∧
    ARG sampleExternals.unpackUInt [JsValue.number 36161] 0 = .ok GL_RENDERBUFFER ∧
    getParameter sampleExternals [JsValue.number 36161] {}
      = (.error "EXGL: getParameter() doesn\x27t support gl.36161 yet!", {}) :=
  ⟨by decide, by decide,
    getParameter_unsupported sampleExternals [JsValue.number 36161] {} GL_RENDERBUFFER
      (by decide) (by decide)⟩

/-- C9, as the claim states it, fails: pixelStorei(PACK_ALIGNMENT, 1) names a
parameter other than UNPACK_FLIP_Y_WEBGL, and the call returns null normally;
no exception is thrown. -/
theorem pixelStorei_unsupported_returns_normally :
    GL_PACK_ALIGNMENT ≠ GL_UNPACK_FLIP_Y_WEBGL ∧
    ARG sampleExternals.unpackUInt [JsValue.number 0x0D05, .number 1] 0 = .ok GL_PACK_ALIGNMENT ∧
    (pixelStorei sampleExternals [JsValue.number 0x0D05, .number 1] {}).1 = .ok .null ∧
    ¬ ∃ e, (pixelStorei sampleExternals [JsValue.number 0x0D05, .number 1] {}).1 = .error e := by
  have hret : (pixelStorei sampleExternals [JsValue.number 0x0D05, .number 1] {}).1
      = .ok .null := by decide
  refine ⟨by decide, by decide, hret, ?_⟩
  rintro ⟨e, he⟩
  rw [hret] at he
  cases he

/-- C9, amended: for every pixelStorei call whose parameter name is not
UNPACK_FLIP_Y_WEBGL, the call writes the line
"EXGL: gl.pixelStorei() doesn't support this parameter yet!" to the JavaScript
console and returns null; it enqueues no work item and leaves the flip flag
and everything else in the context unchanged. -/
theorem pixelStorei_unsupported_logs (E : Externals) (jsArgv : List JsValue) (c : EXGLContext)
    (pname : GLenum) (harg : ARG E.unpackUInt jsArgv 0 = .ok pname)
    (hname : pname ≠ GL_UNPACK_FLIP_Y_WEBGL) :
    pixelStorei E jsArgv c =
      (.ok .null,
       { c with console := c.console ++
          ["EXGL: gl.pixelStorei() doesn\x27t support this parameter yet!"] }) := by
  simp [pixelStorei, harg, hname, jsConsoleLog]

theorem pixelStorei_unsupported_logs_witness :
    ARG sampleExternals.unpackUInt [JsValue.number 0x0D05, .number 1] 0 = .ok GL_PACK_ALIGNMENT ∧
    GL_PACK_ALIGNMENT ≠ GL_UNPACK_FLIP_Y_WEBGL ∧
    pixelStorei sampleExternals [JsValue.number 0x0D05, .number 1] {} =
      (.ok .null,
       { console := ["EXGL: gl.pixelStorei() doesn\x27t support this parameter yet!"] }) :=
  ⟨by decide, by decide,
    pixelStorei_unsupported_logs sampleExternals [JsValue.number 0x0D05, .number 1] {}
      GL_PACK_ALIGNMENT (by decide) (by decide)⟩

/-- C10: bindFramebuffer. A call whose two arguments unpack to `target` and
`framebuffer` returns null and appends exactly one work item to the current
batch. Executed, the item for handle 0 calls glBindFramebuffer with the
context's default framebuffer whatever the registry holds, and the item for a
non-zero handle calls it with the native name the registry holds for that
handle. -/
theorem bindFramebuffer_binds (E : Externals) (jsArgv : List JsValue) (c : EXGLContext)
    (target : GLenum) (framebuffer : UEXGLObjectId)
    (htarget : ARG E.unpackUInt jsArgv 0 = .ok target)
    (hframebuffer : ARG E.unpackUInt jsArgv 1 = .ok framebuffer) :
    bindFramebuffer E jsArgv c =
      (.ok .null,
       { c with nextBatch := c.nextBatch ++
          [{ op := .bindFramebuffer target framebuffer, blocking := false }] }) ∧
    (framebuffer = 0 → ∀ (drv : Driver) (g : GLThread),
      Op.run drv (.bindFramebuffer target framebuffer) g =
        ({ g with calls := g.calls ++
            [{ func := "glBindFramebuffer",
               args := [(target : Int), (g.defaultFramebuffer : Int)] }] }, .ok [])) ∧
    (framebuffer ≠ 0 → ∀ (drv : Driver) (g : GLThread) (name : GLuint),
      lookupObject g.objects framebuffer = .ok name →
      Op.run drv (.bindFramebuffer target framebuffer) g =
        ({ g with calls := g.calls ++
            [{ func := "glBindFramebuffer", args := [(target : Int), (name : Int)] }] },
         .ok [])) := by
  refine ⟨?_, ?_, ?_⟩
  · simp [bindFramebuffer, bind, Except.bind, pure, Except.pure, htarget, hframebuffer,
      addToNextBatch]
  · intro h0 drv g
    simp [Op.run, h0, glCall]
  · intro h0 drv g name hl
    simp [Op.run, h0, hl, glCall]

theorem bindFramebuffer_binds_witness :
    ARG sampleExternals.unpackUInt [JsValue.number 36160, .number 0] 0 = .ok 36160 ∧
    ARG sampleExternals.unpackUInt [JsValue.number 36160, .number 0] 1 = .ok 0 ∧
    bindFramebuffer sampleExternals [JsValue.number 36160, .number 0] {} =
      (.ok .null, { nextBatch := [{ op := .bindFramebuffer 36160 0, blocking := false }] }) ∧
    Op.run countingDriver (.bindFramebuffer 36160 0)
        { objects := [(0, 9), (4, 7)], defaultFramebuffer := 3 } =
      ({ objects := [(0, 9), (4, 7)], defaultFramebuffer := 3,
         calls := [{ func := "glBindFramebuffer", args := [36160, 3] }] }, .ok []) ∧
    ARG sampleExternals.unpackUInt [JsValue.number 36160, .number 4] 1 = .ok 4 ∧
    lookupObject [(0, 9), (4, 7)] 4 = .ok 7 ∧
    Op.run countingDriver (.bindFramebuffer 36160 4)
        { objects := [(0, 9), (4, 7)], defaultFramebuffer := 3 } =
      ({ objects := [(0, 9), (4, 7)], defaultFramebuffer := 3,
         calls := [{ func := "glBindFramebuffer", args := [36160, 7] }] }, .ok []) :=
  ⟨by decide, by decide,
    (bindFramebuffer_binds sampleExternals [JsValue.number 36160, .number 0] {} 36160 0
      (by decide) (by decide)).1,
    (bindFramebuffer_binds sampleExternals [JsValue.number 36160, .number 0] {} 36160 0
      (by decide) (by decide)).2.1 rfl countingDriver
      { objects := [(0, 9), (4, 7)], defaultFramebuffer := 3 },
    by decide, by decide,
    (bindFramebuffer_binds sampleExternals [JsValue.number 36160, .number 4] {} 36160 4
      (by decide) (by decide)).2.2 (by decide) countingDriver
      { objects := [(0, 9), (4, 7)], defaultFramebuffer := 3 } 7 (by decide)⟩

/-! ## Vertical flip -/

theorem length_flipPixels (p : List Nat) (rb rows : Nat) :
    (flipPixels p rb rows).length = p.length := by
  simp [flipPixels]

theorem ext_getD {a b : List Nat} (hlen : a.length = b.length)
    (h : ∀ j, a.getD j 0 = b.getD j 0) : a = b := by
  apply List.ext_getElem hlen
  intro j h1 h2
  have := h j
  simpa [List.getD_eq_getElem?_getD, List.getElem?_eq_getElem h1, List.getElem?_eq_getElem h2]
    using this

theorem flipIndex_row (rb rows r k : Nat) (hr : r < rows) (hk : k < rb) :
    flipIndex rb rows (r * rb + k) = (rows - 1 - r) * rb + k := by
  have hlt : r * rb + k < rb * rows := by
    calc r * rb + k < r * rb + rb := by omega
      _ = rb * (r + 1) := by ring
      _ ≤ rb * rows := Nat.mul_le_mul_left _ hr
  have hpos : 0 < rb := by omega
  have hdiv : (r * rb + k) / rb = r := by
    rw [Nat.add_comm, Nat.add_mul_div_right _ _ hpos, Nat.div_eq_of_lt hk]; simp
  have hmod : (r * rb + k) % rb = k := by
    rw [Nat.add_comm, Nat.add_mul_mod_self_right, Nat.mod_eq_of_lt hk]
  simp [flipIndex, hlt, hdiv, hmod]

theorem flipIndex_lt (rb rows j : Nat) (hj : j < rb * rows) :
    flipIndex rb rows j < rb * rows := by
  have hpos : 0 < rb := by
    rcases Nat.eq_zero_or_pos rb with h | h
    · simp [h] at hj
    · exact h
  have hq : j / rb < rows := by
    rw [Nat.div_lt_iff_lt_mul hpos]; rwa [Nat.mul_comm] at hj
  have hm : j % rb < rb := Nat.mod_lt _ hpos
  simp only [flipIndex, hj, if_true]
  generalize j / rb = q at hq
  generalize j % rb = m at hm
  calc (rows - 1 - q) * rb + m < (rows - 1 - q) * rb + rb := by omega
    _ = rb * (rows - 1 - q + 1) := by ring
    _ ≤ rb * rows := Nat.mul_le_mul_left _ (by omega)

theorem flipIndex_flipIndex (rb rows j : Nat) :
    flipIndex rb rows (flipIndex rb rows j) = j := by
  by_cases hj : j < rb * rows
  · have hpos : 0 < rb := by
      rcases Nat.eq_zero_or_pos rb with h | h
      · simp [h] at hj
      · exact h
    have hq : j / rb < rows := by
      rw [Nat.div_lt_iff_lt_mul hpos]; rwa [Nat.mul_comm] at hj
    have hm : j % rb < rb := Nat.mod_lt _ hpos
    have h1 : flipIndex rb rows j = (rows - 1 - j / rb) * rb + j % rb := by
      simp [flipIndex, hj]
    have hdm := Nat.div_add_mod j rb
    generalize j / rb = q at hq h1 hdm
    rw [h1, flipIndex_row rb rows _ _ (by omega) hm]
    have : rows - 1 - (rows - 1 - q) = q := by omega
    rw [this]
    rw [Nat.mul_comm] at hdm
    exact hdm
  · simp [flipIndex, hj]

theorem getD_flipPixels (p : List Nat) (rb rows : Nat) (hsize : rb * rows ≤ p.length) (j : Nat) :
    (flipPixels p rb rows).getD j 0 = p.getD (flipIndex rb rows j) 0 := by
  by_cases hj : j < p.length
  · simp [flipPixels, List.getD_eq_getElem?_getD, List.getElem?_map, List.getElem?_range hj]
  · have h1 : ¬ j < rb * rows := by omega
    have h2 : (flipPixels p rb rows).length ≤ j := by rw [length_flipPixels]; omega
    simp [flipIndex, h1, List.getD_eq_getElem?_getD, List.getElem?_eq_none (by omega : p.length ≤ j),
      List.getElem?_eq_none h2]

theorem flipPixels_flipPixels (p : List Nat) (rb rows : Nat) (hsize : rb * rows ≤ p.length) :
    flipPixels (flipPixels p rb rows) rb rows = p := by
  apply ext_getD
  · simp [length_flipPixels]
  · intro j
    rw [getD_flipPixels _ _ _ (by rw [length_flipPixels]; exact hsize),
      getD_flipPixels _ _ _ hsize, flipIndex_flipIndex]

theorem length_flipPixelsAt (p : List Nat) (off rb rows : Nat) :
    (flipPixelsAt p off rb rows).length = p.length := by
  simp [flipPixelsAt, length_flipPixels]
  omega

theorem getD_flipPixelsAt (p : List Nat) (off rb rows : Nat)
    (hsize : off + rb * rows ≤ p.length) (j : Nat) :
    (flipPixelsAt p off rb rows).getD j 0
      = p.getD (if j < off then j else off + flipIndex rb rows (j - off)) 0 := by
  have hoff : off ≤ p.length := by omega
  have htake : (p.take off).length = off := by simp [hoff]
  by_cases hj : j < off
  · simp only [flipPixelsAt, hj, if_true]
    rw [List.getD_append _ _ _ _ (by rw [htake]; exact hj)]
    simp [List.getD_eq_getElem?_getD, List.getElem?_take, hj]
  · simp only [flipPixelsAt, hj, if_false]
    rw [List.getD_append_right _ _ _ _ (by rw [htake]; omega), htake,
      getD_flipPixels _ _ _ (by simp; omega)]
    simp [List.getD_eq_getElem?_getD, List.getElem?_drop]

theorem foldl_flipPixelsAt (p : List Nat) (L rb rows : Nat) (hL : L = rb * rows) (depth : Nat) :
    depth * L ≤ p.length →
    let out := (List.range depth).foldl (fun data z => flipPixelsAt data (z * L) rb rows) p
    out.length = p.length ∧
    ∀ j, out.getD j 0
      = p.getD (if j < depth * L then (j / L) * L + flipIndex rb rows (j % L) else j) 0 := by
  induction depth with
  | zero => intro _; simp
  | succ z ih =>
    intro hsize
    have hz : z * L ≤ p.length := by
      have : z * L ≤ (z + 1) * L := Nat.mul_le_mul_right _ (by omega)
      omega
    obtain ⟨hlen, hget⟩ := ih hz
    have hstep : z * L + rb * rows ≤ p.length := by
      rw [← hL]
      have : (z + 1) * L = z * L + L := by ring
      omega
    simp only [List.range_succ, List.foldl_append, List.foldl_cons, List.foldl_nil]
    refine ⟨by rw [length_flipPixelsAt]; exact hlen, ?_⟩
    intro j
    rw [getD_flipPixelsAt _ _ _ _ (by rw [hlen]; exact hstep), hget]
    congr 1
    have hsucc : (z + 1) * L = z * L + L := by ring
    by_cases h1 : j < z * L
    · have h2 : j < (z + 1) * L := by omega
      simp [h1, h2]
    · simp only [h1, if_false]
      have h3 : ¬ z * L + flipIndex rb rows (j - z * L) < z * L := by omega
      simp only [h3, if_false]
      by_cases h2 : j < (z + 1) * L
      · simp only [h2, if_true]
        have hdiv : j / L = z := Nat.div_eq_of_lt_le (by omega) h2
        have hmod : j % L = j - z * L := by
          have := Nat.div_add_mod j L
          rw [hdiv, Nat.mul_comm] at this
          omega
        rw [hdiv, hmod]
      · simp only [h2, if_false]
        have h4 : ¬ j - z * L < rb * rows := by rw [← hL]; omega
        simp only [flipIndex, h4, if_false]
        omega

theorem flipLayers_eq (p : List Nat) (bpp W H D : Nat) :
    flipLayers p bpp (W : Int) (H : Int) (D : Int)
      = (List.range D).foldl (fun data z => flipPixelsAt data (z * (bpp * W * H)) (W * bpp) H) p := by
  have h1 : ((bpp : Int) * (W : Int) * (H : Int)).toNat = bpp * W * H := by
    have : ((bpp : Int) * (W : Int) * (H : Int)) = ((bpp * W * H : Nat) : Int) := by push_cast; ring
    rw [this, Int.toNat_natCast]
  have h2 : ((W : Int) * (bpp : Int)).toNat = W * bpp := by
    have : ((W : Int) * (bpp : Int)) = ((W * bpp : Nat) : Int) := by push_cast; ring
    rw [this, Int.toNat_natCast]
  simp only [flipLayers, h1, h2, Int.toNat_natCast]

theorem layerIndex_lt (L rb rows depth j : Nat) (hL : L = rb * rows) (hj : j < depth * L) :
    (j / L) * L + flipIndex rb rows (j % L) < depth * L ∧
    ((j / L) * L + flipIndex rb rows (j % L)) / L = j / L ∧
    ((j / L) * L + flipIndex rb rows (j % L)) % L = flipIndex rb rows (j % L) := by
  have hpos : 0 < L := by
    rcases Nat.eq_zero_or_pos L with h | h
    · simp [h] at hj
    · exact h
  have hq : j / L < depth := by
    rw [Nat.div_lt_iff_lt_mul hpos]; exact hj
  have hf : flipIndex rb rows (j % L) < L := by
    have := flipIndex_lt rb rows (j % L) (by rw [← hL]; exact Nat.mod_lt _ hpos)
    omega
  generalize flipIndex rb rows (j % L) = f at hf
  generalize j / L = q at hq
  refine ⟨?_, ?_, ?_⟩
  · calc q * L + f < q * L + L := by omega
      _ = (q + 1) * L := by ring
      _ ≤ depth * L := Nat.mul_le_mul_right _ (by omega)
  · rw [Nat.add_comm, Nat.add_mul_div_right _ _ hpos, Nat.div_eq_of_lt hf]; simp
  · rw [Nat.add_comm, Nat.add_mul_mod_self_right, Nat.mod_eq_of_lt hf]

theorem flipLayers_flipLayers (p : List Nat) (bpp W H D : Nat)
    (hsize : D * (bpp * W * H) ≤ p.length) :
    flipLayers (flipLayers p bpp (W : Int) (H : Int) (D : Int)) bpp (W : Int) (H : Int) (D : Int)
      = p := by
  have hL : bpp * W * H = W * bpp * H := by ring
  rw [flipLayers_eq, flipLayers_eq]
  obtain ⟨hlen1, hget1⟩ := foldl_flipPixelsAt p (bpp * W * H) (W * bpp) H hL D hsize
  obtain ⟨hlen2, hget2⟩ := foldl_flipPixelsAt _ (bpp * W * H) (W * bpp) H hL D
    (by rw [hlen1]; exact hsize)
  apply ext_getD (by rw [hlen2, hlen1])
  intro j
  rw [hget2, hget1]
  congr 1
  by_cases hj : j < D * (bpp * W * H)
  · obtain ⟨h1, h2, h3⟩ := layerIndex_lt (bpp * W * H) (W * bpp) H D j hL hj
    simp only [hj, if_true, h1, h2, h3, flipIndex_flipIndex]
    have := Nat.div_add_mod j (bpp * W * H)
    rw [Nat.mul_comm] at this
    exact this
  · simp [hj]

/-! ## Texture uploads -/

theorem handsToDriver_upload (E : Externals) (c : EXGLContext) (func : String)
    (args : List Int) (data : Option (List Nat)) :
    handsToDriver E (.ok .null, addToNextBatch (.upload func args data) c) func args data := by
  refine ⟨rfl, fun flag => ?_⟩
  have h : ({ addToNextBatch (.upload func args data) c with unpackFLipY := flag } : EXGLContext)
      = addToNextBatch (.upload func args data) { c with unpackFLipY := flag } := rfl
  simp only [h, settle_gl_addToNextBatch]
  simp [WorkItem.exec, Op.run, glCallData]

theorem pixelData_typed (E : Externals) (pixels : JsValue) (bytes : List Nat)
    (width height : Int) (hbuf : isArrayBufferOrTypedArray pixels = true)
    (hraw : E.rawArrayBuffer pixels = .ok bytes) :
    pixels ≠ .null ∧ pixelData E pixels width height = .ok (some bytes, width, height) := by
  cases pixels <;> simp [isArrayBufferOrTypedArray] at hbuf <;>
    simp [pixelData, asObject, isArrayBufferOrTypedArray, hraw]

theorem flipPixels_zero_rows (p : List Nat) (rb : Nat) : flipPixels p rb 0 = p := by
  apply ext_getD (length_flipPixels _ _ _)
  intro j
  rw [getD_flipPixels _ _ _ (by simp)]
  simp [flipIndex]

theorem texImage2D_typed9 (E : Externals) (jsArgv : List JsValue) (c : EXGLContext)
    (pixels : JsValue) (bytes : List Nat)
    (target level internalformat width height border format type : Int)
    (hbuf : isArrayBufferOrTypedArray pixels = true) (hraw : E.rawArrayBuffer pixels = .ok bytes)
    (hlen : jsArgv.length = 9)
    (hun : E.unpackArgv [.uint, .int, .int, .int, .int, .int, .uint, .uint] jsArgv
      = .ok [target, level, internalformat, width, height, border, format, type])
    (hpx : jsArgv[8]? = some pixels) :
    texImage2D E jsArgv c =
      (.ok .null,
        addToNextBatch
          (.upload "glTexImage2D"
            [target, level, internalformat, width, height, border, format, type]
            (some (if c.unpackFLipY then
                flipPixels bytes (width * (E.bytesPerPixel type.toNat format.toNat : Int)).toNat
                  height.toNat
              else bytes))) c) := by
  obtain ⟨hnull, hdata⟩ := pixelData_typed E pixels bytes width height hbuf hraw
  have hget : jsArgv.getD 8 .undefined = pixels := by
    simp [List.getD_eq_getElem?_getD, hpx]
  simp only [texImage2D, hlen, hun, hget]
  simp [hnull, hdata]

theorem texImage2D_typed6 (E : Externals) (jsArgv : List JsValue) (c : EXGLContext)
    (pixels : JsValue) (bytes : List Nat) (target level internalformat format type : Int)
    (hbuf : isArrayBufferOrTypedArray pixels = true) (hraw : E.rawArrayBuffer pixels = .ok bytes)
    (hlen : jsArgv.length = 6)
    (hun : E.unpackArgv [.uint, .int, .int, .uint, .uint] jsArgv
      = .ok [target, level, internalformat, format, type])
    (hpx : jsArgv[5]? = some pixels) :
    texImage2D E jsArgv c =
      (.ok .null,
        addToNextBatch
          (.upload "glTexImage2D" [target, level, internalformat, 0, 0, 0, format, type]
            (some bytes)) c) := by
  obtain ⟨hnull, hdata⟩ := pixelData_typed E pixels bytes 0 0 hbuf hraw
  have hget : jsArgv.getD 5 .undefined = pixels := by
    simp [List.getD_eq_getElem?_getD, hpx]
  simp only [texImage2D, hlen, hun, hget]
  simp [hnull, hdata, flipPixels_zero_rows]

theorem texSubImage2D_typed9 (E : Externals) (jsArgv : List JsValue) (c : EXGLContext)
    (pixels : JsValue) (bytes : List Nat)
    (target level xoffset yoffset width height format type : Int)
    (hbuf : isArrayBufferOrTypedArray pixels = true) (hraw : E.rawArrayBuffer pixels = .ok bytes)
    (hlen : jsArgv.length = 9)
    (hun : E.unpackArgv [.uint, .int, .int, .int, .int, .int, .uint, .uint] jsArgv
      = .ok [target, level, xoffset, yoffset, width, height, format, type])
    (hpx : jsArgv[8]? = some pixels) :
    texSubImage2D E jsArgv c =
      (.ok .null,
        addToNextBatch
          (.upload "glTexSubImage2D"
            [target, level, xoffset, yoffset, width, height, format, type]
            (some (if c.unpackFLipY then
                flipPixels bytes (width * (E.bytesPerPixel type.toNat format.toNat : Int)).toNat
                  height.toNat
              else bytes))) c) := by
  obtain ⟨hnull, hdata⟩ := pixelData_typed E pixels bytes width height hbuf hraw
  have hget : jsArgv.getD 8 .undefined = pixels := by
    simp [List.getD_eq_getElem?_getD, hpx]
  simp only [texSubImage2D, hlen, hun, hget]
  simp [hnull, hdata]

theorem texSubImage2D_typed7 (E : Externals) (jsArgv : List JsValue) (c : EXGLContext)
    (pixels : JsValue) (bytes : List Nat) (target level xoffset yoffset format type : Int)
    (hbuf : isArrayBufferOrTypedArray pixels = true) (hraw : E.rawArrayBuffer pixels = .ok bytes)
    (hlen : jsArgv.length = 7)
    (hun : E.unpackArgv [.uint, .int, .int, .int, .uint, .uint] jsArgv
      = .ok [target, level, xoffset, yoffset, format, type])
    (hpx : jsArgv[6]? = some pixels) :
    texSubImage2D E jsArgv c =
      (.ok .null,
        addToNextBatch
          (.upload "glTexSubImage2D" [target, level, xoffset, yoffset, 0, 0, format, type]
            (some bytes)) c) := by
  obtain ⟨hnull, hdata⟩ := pixelData_typed E pixels bytes 0 0 hbuf hraw
  have hget : jsArgv.getD 6 .undefined = pixels := by
    simp [List.getD_eq_getElem?_getD, hpx]
  simp only [texSubImage2D, hlen, hun, hget]
  simp [hnull, hdata, flipPixels_zero_rows]

/-- C11: an array shorter than the rows it is said to hold.
texImage2D(TEXTURE_2D, 0, RGBA, 1, 2, 0, RGBA, UNSIGNED_BYTE, pixels) and
texSubImage2D(TEXTURE_2D, 0, 0, 0, 1, 2, RGBA, UNSIGNED_BYTE, pixels) are called
with the flip flag set and a typed array of the 4 bytes 1, 2, 3, 4. With
bytesPerPixel 4 the array holds one row where width and height announce two.
Neither call compares the size of the array with the rows: both return null
and enqueue the upload of flipPixels applied to the copy of the 4 bytes with a
row size of 4 and a row count of 2, so 8 bytes are reversed in a buffer of 4.
In the source the second row lies past the end of the allocation; there is no
second row of source bytes that the driver could be handed first. -/
theorem texImage2D_flips_past_short_array :
    sampleExternals.rawArrayBuffer (.typedArray [1, 2, 3, 4] 0) = .ok [1, 2, 3, 4] ∧
    sampleExternals.bytesPerPixel GL_UNSIGNED_BYTE GL_RGBA = 4 ∧
    ([1, 2, 3, 4] : List Nat).length < 4 * 2 ∧
    texImage2D sampleExternals
        [.number 3553, .number 0, .number 6408, .number 1, .number 2, .number 0, .number 6408,
         .number 5121, .typedArray [1, 2, 3, 4] 0] { unpackFLipY := true }
      = (.ok .null,
          addToNextBatch
            (.upload "glTexImage2D" [3553, 0, 6408, 1, 2, 0, 6408, 5121]
              (some (flipPixels [1, 2, 3, 4] 4 2))) { unpackFLipY := true }) ∧
    texSubImage2D sampleExternals
        [.number 3553, .number 0, .number 0, .number 0, .number 1, .number 2, .number 6408,
         .number 5121, .typedArray [1, 2, 3, 4] 0] { unpackFLipY := true }
      = (.ok .null,
          addToNextBatch
            (.upload "glTexSubImage2D" [3553, 0, 0, 0, 1, 2, 6408, 5121]
              (some (flipPixels [1, 2, 3, 4] 4 2))) { unpackFLipY := true }) := by
  decide

/-- Bytes handed over by texImage2D and texSubImage2D for an array that holds
the rows. For a call whose pixel argument is an ArrayBuffer or typed array
holding `bytes`, the call returns null and the enqueued item hands the driver,
whatever the flip flag is when the item executes, flipPixels applied to `bytes`
with the row size `width * bytesPerPixel(type, format)` and the row count
`height` when the flag was set at the time of the call, and `bytes` unmodified
when it was clear. In the 6- and 7-argument forms width and height are 0, so
the bytes go out unmodified. When `bytes` holds the rows, flipPixels keeps the
size, byte k of row r is byte k of row height - 1 - r of the source, and bytes
after the rows stay as they are. -/
theorem texImage2D_hands_flipped_rows (E : Externals) (jsArgv : List JsValue) (c : EXGLContext)
    (pixels : JsValue) (bytes : List Nat)
    (target level p2 p3 width height border format type : Int)
    (hbuf : isArrayBufferOrTypedArray pixels = true)
    (hraw : E.rawArrayBuffer pixels = .ok bytes) :
    (jsArgv.length = 9 →
      E.unpackArgv [.uint, .int, .int, .int, .int, .int, .uint, .uint] jsArgv
        = .ok [target, level, p2, width, height, border, format, type] →
      jsArgv[8]? = some pixels →
      handsToDriver E (texImage2D E jsArgv c) "glTexImage2D"
        [target, level, p2, width, height, border, format, type]
        (some (if c.unpackFLipY then
            flipPixels bytes (width * (E.bytesPerPixel type.toNat format.toNat : Int)).toNat
              height.toNat
          else bytes))) ∧
    (jsArgv.length = 6 →
      E.unpackArgv [.uint, .int, .int, .uint, .uint] jsArgv
        = .ok [target, level, p2, format, type] →
      jsArgv[5]? = some pixels →
      handsToDriver E (texImage2D E jsArgv c) "glTexImage2D"
        [target, level, p2, 0, 0, 0, format, type] (some bytes)) ∧
    (jsArgv.length = 9 →
      E.unpackArgv [.uint, .int, .int, .int, .int, .int, .uint, .uint] jsArgv
        = .ok [target, level, p2, p3, width, height, format, type] →
      jsArgv[8]? = some pixels →
      handsToDriver E (texSubImage2D E jsArgv c) "glTexSubImage2D"
        [target, level, p2, p3, width, height, format, type]
        (some (if c.unpackFLipY then
            flipPixels bytes (width * (E.bytesPerPixel type.toNat format.toNat : Int)).toNat
              height.toNat
          else bytes))) ∧
    (jsArgv.length = 7 →
      E.unpackArgv [.uint, .int, .int, .int, .uint, .uint] jsArgv
        = .ok [target, level, p2, p3, format, type] →
      jsArgv[6]? = some pixels →
      handsToDriver E (texSubImage2D E jsArgv c) "glTexSubImage2D"
        [target, level, p2, p3, 0, 0, format, type] (some bytes)) ∧
    (∀ rowBytes rows : Nat, rowBytes * rows ≤ bytes.length →
      (flipPixels bytes rowBytes rows).length = bytes.length ∧
      (∀ r k : Nat, r < rows → k < rowBytes →
        (flipPixels bytes rowBytes rows).getD (r * rowBytes + k) 0
          = bytes.getD ((rows - 1 - r) * rowBytes + k) 0) ∧
      (∀ j : Nat, rowBytes * rows ≤ j →
        (flipPixels bytes rowBytes rows).getD j 0 = bytes.getD j 0)) := by
  refine ⟨?_, ?_, ?_, ?_, ?_⟩
  · intro hlen hun hpx
    rw [texImage2D_typed9 E jsArgv c pixels bytes _ _ _ _ _ _ _ _ hbuf hraw hlen hun hpx]
    exact handsToDriver_upload _ _ _ _ _
  · intro hlen hun hpx
    rw [texImage2D_typed6 E jsArgv c pixels bytes _ _ _ _ _ hbuf hraw hlen hun hpx]
    exact handsToDriver_upload _ _ _ _ _
  · intro hlen hun hpx
    rw [texSubImage2D_typed9 E jsArgv c pixels bytes _ _ _ _ _ _ _ _ hbuf hraw hlen hun hpx]
    exact handsToDriver_upload _ _ _ _ _
  · intro hlen hun hpx
    rw [texSubImage2D_typed7 E jsArgv c pixels bytes _ _ _ _ _ _ hbuf hraw hlen hun hpx]
    exact handsToDriver_upload _ _ _ _ _
  · intro rowBytes rows hsize
    refine ⟨length_flipPixels _ _ _, ?_, ?_⟩
    · intro r k hr hk
      rw [getD_flipPixels _ _ _ hsize, flipIndex_row _ _ _ _ hr hk]
    · intro j hj
      rw [getD_flipPixels _ _ _ hsize]
      simp [flipIndex, Nat.not_lt.2 hj]

theorem texImage2D_hands_flipped_rows_witness :
    isArrayBufferOrTypedArray (.typedArray [1, 2, 3, 4, 5, 6, 7, 8] 0) = true ∧
    sampleExternals.rawArrayBuffer (.typedArray [1, 2, 3, 4, 5, 6, 7, 8] 0)
      = .ok [1, 2, 3, 4, 5, 6, 7, 8] ∧
    handsToDriver sampleExternals
      (texImage2D sampleExternals
        [.number 3553, .number 0, .number 6408, .number 1, .number 2, .number 0, .number 6408,
         .number 5121, .typedArray [1, 2, 3, 4, 5, 6, 7, 8] 0] { unpackFLipY := true })
      "glTexImage2D" [3553, 0, 6408, 1, 2, 0, 6408, 5121] (some [5, 6, 7, 8, 1, 2, 3, 4]) ∧
    handsToDriver sampleExternals
      (texImage2D sampleExternals
        [.number 3553, .number 0, .number 6408, .number 6408, .number 5121,
         .typedArray [1, 2, 3, 4, 5, 6, 7, 8] 0] { unpackFLipY := true })
      "glTexImage2D" [3553, 0, 6408, 0, 0, 0, 6408, 5121] (some [1, 2, 3, 4, 5, 6, 7, 8]) ∧
    handsToDriver sampleExternals
      (texSubImage2D sampleExternals
        [.number 3553, .number 0, .number 0, .number 0, .number 1, .number 2, .number 6408,
         .number 5121, .typedArray [1, 2, 3, 4, 5, 6, 7, 8] 0] { unpackFLipY := false })
      "glTexSubImage2D" [3553, 0, 0, 0, 1, 2, 6408, 5121] (some [1, 2, 3, 4, 5, 6, 7, 8]) ∧
    handsToDriver sampleExternals
      (texSubImage2D sampleExternals
        [.number 3553, .number 0, .number 0, .number 0, .number 6408, .number 5121,
         .typedArray [1, 2, 3, 4, 5, 6, 7, 8] 0] { unpackFLipY := true })
      "glTexSubImage2D" [3553, 0, 0, 0, 0, 0, 6408, 5121] (some [1, 2, 3, 4, 5, 6, 7, 8]) ∧
    (4 * 2 ≤ [1, 2, 3, 4, 5, 6, 7, 8].length ∧
      (flipPixels [1, 2, 3, 4, 5, 6, 7, 8] 4 2).getD (0 * 4 + 1) 0
        = ([1, 2, 3, 4, 5, 6, 7, 8] : List Nat).getD ((2 - 1 - 0) * 4 + 1) 0) :=
  ⟨by decide, by decide,
    (texImage2D_hands_flipped_rows sampleExternals _ { unpackFLipY := true }
      (.typedArray [1, 2, 3, 4, 5, 6, 7, 8] 0) [1, 2, 3, 4, 5, 6, 7, 8]
      3553 0 6408 0 1 2 0 6408 5121 (by decide) (by decide)).1 (by decide) (by decide)
      (by decide),
    (texImage2D_hands_flipped_rows sampleExternals _ { unpackFLipY := true }
      (.typedArray [1, 2, 3, 4, 5, 6, 7, 8] 0) [1, 2, 3, 4, 5, 6, 7, 8]
      3553 0 6408 0 0 0 0 6408 5121 (by decide) (by decide)).2.1 (by decide) (by decide)
      (by decide),
    (texImage2D_hands_flipped_rows sampleExternals _ { unpackFLipY := false }
      (.typedArray [1, 2, 3, 4, 5, 6, 7, 8] 0) [1, 2, 3, 4, 5, 6, 7, 8]
      3553 0 0 0 1 2 0 6408 5121 (by decide) (by decide)).2.2.1 (by decide) (by decide)
      (by decide),
    (texImage2D_hands_flipped_rows sampleExternals _ { unpackFLipY := true }
      (.typedArray [1, 2, 3, 4, 5, 6, 7, 8] 0) [1, 2, 3, 4, 5, 6, 7, 8]
      3553 0 0 0 0 0 0 6408 5121 (by decide) (by decide)).2.2.2.1 (by decide) (by decide)
      (by decide),
    by decide,
    ((texImage2D_hands_flipped_rows sampleExternals [] {}
      (.typedArray [1, 2, 3, 4, 5, 6, 7, 8] 0) [1, 2, 3, 4, 5, 6, 7, 8]
      0 0 0 0 0 0 0 0 0 (by decide) (by decide)).2.2.2.2 4 2 (by decide)).2.1 0 1
      (by decide) (by decide)⟩

/-- C13: the vertical flip is its own inverse. For every buffer of
rows × rowBytes bytes, flipPixels applied twice gives back the buffer; and for
every buffer of depth × height × (width × bytesPerPixel) bytes the layer-wise
flip of texImage3D applied twice gives back the buffer. -/
theorem flip_twice_is_identity (buffer : List Nat) (rowBytes rows bpp width height depth : Nat) :
    (buffer.length = rows * rowBytes →
      flipPixels (flipPixels buffer rowBytes rows) rowBytes rows = buffer) ∧
    (buffer.length = depth * (height * (width * bpp)) →
      flipLayers (flipLayers buffer bpp (width : Int) (height : Int) (depth : Int)) bpp
        (width : Int) (height : Int) (depth : Int) = buffer) := by
  refine ⟨?_, ?_⟩
  · intro hlen
    exact flipPixels_flipPixels buffer rowBytes rows (by rw [hlen, Nat.mul_comm])
  · intro hlen
    apply flipLayers_flipLayers
    rw [hlen]
    apply le_of_eq
    ring

theorem flip_twice_is_identity_witness :
    ([1, 2, 3, 4, 5, 6] : List Nat).length = 3 * 2 ∧
    flipPixels [1, 2, 3, 4, 5, 6] 2 3 = [5, 6, 3, 4, 1, 2] ∧
    flipPixels (flipPixels [1, 2, 3, 4, 5, 6] 2 3) 2 3 = [1, 2, 3, 4, 5, 6] ∧
    ([1, 2, 3, 4, 5, 6, 7, 8] : List Nat).length = 2 * (2 * (2 * 1)) ∧
    flipLayers [1, 2, 3, 4, 5, 6, 7, 8] 1 2 2 2 = [3, 4, 1, 2, 7, 8, 5, 6] ∧
    flipLayers (flipLayers [1, 2, 3, 4, 5, 6, 7, 8] 1 2 2 2) 1 2 2 2
      = [1, 2, 3, 4, 5, 6, 7, 8] :=
  ⟨by decide, by decide,
    (flip_twice_is_identity [1, 2, 3, 4, 5, 6] 2 3 0 0 0 0).1 (by decide),
    by decide, by decide,
    (flip_twice_is_identity [1, 2, 3, 4, 5, 6, 7, 8] 0 0 1 2 2 2).2 (by decide)⟩

/-! ## readPixels -/

theorem wrapInt32_of_fits (i : Int) (h0 : 0 ≤ i) (h1 : i < 2147483648) : wrapInt32 i = i := by
  simp only [wrapInt32]
  omega

theorem asSizeT_of_fits (i : Int) (h0 : 0 ≤ i) (h1 : i < 2147483648) :
    ((asSizeT i : Nat) : Int) = i := by
  simp only [asSizeT]
  rw [Int.emod_eq_of_lt h0 (by omega), Int.toNat_of_nonneg h0]

theorem readPixels_byteLength (width height : Int) (bpp : Nat) (hw : 0 ≤ width)
    (hh : 0 ≤ height) (hfit : width * height * (bpp : Int) < 2147483648) :
    ((asSizeT (wrapInt32 (width * height) * (bpp : Int)) : Nat) : Int)
      = width * height * (bpp : Int) := by
  have hwh : 0 ≤ width * height := mul_nonneg hw hh
  rcases Nat.eq_zero_or_pos bpp with hb | hb
  · subst hb
    simp [asSizeT]
  · have hb1 : (1 : Int) ≤ (bpp : Int) := by exact_mod_cast hb
    have hle : width * height ≤ width * height * (bpp : Int) := le_mul_of_one_le_right hwh hb1
    rw [wrapInt32_of_fits _ hwh (by omega)]
    exact asSizeT_of_fits _ (by omega) hfit

/-- C14: readPixels(0, 0, 65536, 65536, RGBA, UNSIGNED_BYTE, dest) with
bytesPerPixel 4. The product width * height of two GLsizei is 2^32, which `int`
cannot hold; wrapped to 32 bits it is 0, so the size computed for the vector is
0 and not 65536 * 65536 * 4. The driver is then called with width 65536 and
height 65536 and the data pointer of that vector, and what is copied into the
destination afterwards is a vector of 0 bytes. -/
theorem readPixels_buffer_wraps :
    sampleExternals.bytesPerPixel GL_UNSIGNED_BYTE GL_RGBA = 4 ∧
    (2147483648 : Int) ≤ 65536 * 65536 ∧
    wrapInt32 (65536 * 65536) = 0 ∧
    asSizeT (wrapInt32 (65536 * 65536) * 4) = 0 ∧
    (readPixels sampleExternals
      [.number 0, .number 0, .number 65536, .number 65536, .number 0x1908, .number 0x1401,
       .typedArray [] 0] {}).2.gl.calls
      = [{ func := "glReadPixels", args := [0, 0, 65536, 65536, 0x1908, 0x1401] }] ∧
    (readPixels sampleExternals
      [.number 0, .number 0, .number 65536, .number 65536, .number 0x1908, .number 0x1401,
       .typedArray [] 0] {}).2.arrayUpdates = [(0, [])] ∧
    (([] : List Int).length : Int) < 65536 * 65536 * 4 := by
  decide

/-- Size of the buffer of readPixels within the range of `int`: for every
readPixels call with non-negative width and height
whose byte count width * height * bytesPerPixel(type, format) is below 2^31
(so that the 32-bit product does not overflow), the call returns null and the
buffer that the blocking item fills and that is written into the destination
at the array's byte offset has exactly width * height *
bytesPerPixel(type, format) bytes; for UNSIGNED_BYTE and RGBA, where
bytesPerPixel is 4, this is 4 * width * height. -/
theorem readPixels_buffer_size (E : Externals) (jsArgv : List JsValue) (c : EXGLContext)
    (x y width height : Int) (format type : GLenum) (byteOffset : Nat)
    (hx : ARG E.unpackInt jsArgv 0 = .ok x) (hy : ARG E.unpackInt jsArgv 1 = .ok y)
    (hwidth : ARG E.unpackInt jsArgv 2 = .ok width)
    (hheight : ARG E.unpackInt jsArgv 3 = .ok height)
    (hformat : ARG E.unpackUInt jsArgv 4 = .ok format)
    (htype : ARG E.unpackUInt jsArgv 5 = .ok type)
    (hdest : asTypedArray (jsArgv.getD 6 .undefined) = .ok byteOffset)
    (hw : 0 ≤ width) (hh : 0 ≤ height)
    (hfit : width * height * (E.bytesPerPixel type format : Int) < 2147483648) :
    ∃ pixels : List Int,
      (readPixels E jsArgv c).1 = .ok .null ∧
      (readPixels E jsArgv c).2.arrayUpdates = c.arrayUpdates ++ [(byteOffset, pixels)] ∧
      (pixels.length : Int) = width * height * (E.bytesPerPixel type format : Int) ∧
      (type = GL_UNSIGNED_BYTE → format = GL_RGBA →
        E.bytesPerPixel GL_UNSIGNED_BYTE GL_RGBA = 4 →
        (pixels.length : Int) = 4 * width * height) := by
  have hlen := readPixels_byteLength width height (E.bytesPerPixel type format) hw hh hfit
  rw [List.getD_eq_getElem?_getD] at hdest
  refine ⟨resultVector (asSizeT (wrapInt32 (width * height) * (E.bytesPerPixel type format : Int)))
    (E.drv (settle E.drv c).gl.calls
      { func := "glReadPixels", args := [x, y, width, height, (format : Int), (type : Int)] }),
    ?_, ?_, ?_, ?_⟩
  · simp [readPixels, bind, Except.bind, pure, Except.pure, hx, hy, hwidth, hheight, hformat,
      htype, hdest, addBlockingToNextBatch_eq, Op.run, glCall]
  · simp [readPixels, bind, Except.bind, pure, Except.pure, hx, hy, hwidth, hheight, hformat,
      htype, hdest, addBlockingToNextBatch_eq, Op.run, glCall]
  · simp only [resultVector, List.length_map, List.length_range]
    exact hlen
  · intro ht hf h4
    subst ht hf
    simp only [resultVector, List.length_map, List.length_range]
    rw [hlen, h4]
    push_cast
    ring

theorem readPixels_buffer_size_witness :
    ARG sampleExternals.unpackInt
      [.number 0, .number 0, .number 2, .number 3, .number 0x1908, .number 0x1401,
       .typedArray [] 8] 2 = .ok 2 ∧
    (2 : Int) * 3 * (sampleExternals.bytesPerPixel 0x1401 0x1908 : Int) < 2147483648 ∧
    (readPixels sampleExternals
      [.number 0, .number 0, .number 2, .number 3, .number 0x1908, .number 0x1401,
       .typedArray [] 8] {}).2.arrayUpdates
      = [(8, [1, 0, 0, 0, 0, 0, 0, 0, 0, 0, 0, 0, 0, 0, 0, 0, 0, 0, 0, 0, 0, 0, 0, 0])] ∧
    ∃ pixels : List Int,
      (readPixels sampleExternals
        [.number 0, .number 0, .number 2, .number 3, .number 0x1908, .number 0x1401,
         .typedArray [] 8] {}).1 = .ok .null ∧
      (readPixels sampleExternals
        [.number 0, .number 0, .number 2, .number 3, .number 0x1908, .number 0x1401,
         .typedArray [] 8] {}).2.arrayUpdates
        = ({} : EXGLContext).arrayUpdates ++ [(8, pixels)] ∧
      (pixels.length : Int) = 2 * 3 * (sampleExternals.bytesPerPixel 0x1401 0x1908 : Int) ∧
      ((0x1401 : GLenum) = GL_UNSIGNED_BYTE → (0x1908 : GLenum) = GL_RGBA →
        sampleExternals.bytesPerPixel GL_UNSIGNED_BYTE GL_RGBA = 4 →
        (pixels.length : Int) = 4 * 2 * 3) :=
  ⟨by decide, by decide, by decide,
    readPixels_buffer_size sampleExternals
      [.number 0, .number 0, .number 2, .number 3, .number 0x1908, .number 0x1401,
       .typedArray [] 8] {} 0 0 2 3 0x1908 0x1401 8
      (by decide) (by decide) (by decide) (by decide) (by decide) (by decide) (by decide)
      (by decide) (by decide) (by decide)⟩

/-! ## The unpack-flip-Y flag -/

/-- C15: the flip flag is stored and read back without the queue. When
pixelStorei(UNPACK_FLIP_Y_WEBGL, b) is called (the second argument unpacking to
a GLboolean that is non-zero exactly when b is true), it returns null and
changes nothing in the context but the flag, which becomes b; a following
getParameter(UNPACK_FLIP_Y_WEBGL) returns b and leaves the context unchanged.
getParameter for UNPACK_PREMULTIPLY_ALPHA_WEBGL and
UNPACK_COLORSPACE_CONVERSION_WEBGL returns false in every context and leaves it
unchanged. No work item is enqueued by any of these calls. -/
theorem flip_flag_roundtrip (E : Externals) (c : EXGLContext) (b : Bool) (flag : Nat)
    (jsSet jsGet : List JsValue)
    (hset : ARG E.unpackUInt jsSet 0 = .ok GL_UNPACK_FLIP_Y_WEBGL)
    (hflag : ARG E.unpackUChar jsSet 1 = .ok flag)
    (hb : decide (flag ≠ 0) = b)
    (hget : ARG E.unpackUInt jsGet 0 = .ok GL_UNPACK_FLIP_Y_WEBGL) :
    pixelStorei E jsSet c = (.ok .null, { c with unpackFLipY := b }) ∧
    getParameter E jsGet (pixelStorei E jsSet c).2
      = (.ok (.bool b), (pixelStorei E jsSet c).2) ∧
    (∀ (c' : EXGLContext) (jsArgv : List JsValue) (pname : GLenum),
      ARG E.unpackUInt jsArgv 0 = .ok pname →
      pname = GL_UNPACK_PREMULTIPLY_ALPHA_WEBGL ∨
        pname = GL_UNPACK_COLORSPACE_CONVERSION_WEBGL →
      getParameter E jsArgv c' = (.ok (.bool false), c')) := by
  have hstore : pixelStorei E jsSet c = (.ok .null, { c with unpackFLipY := b }) := by
    simp [pixelStorei, hset, hflag, ← hb]
  refine ⟨hstore, ?_, ?_⟩
  · rw [hstore]
    simp [getParameter, hget, GL_COMPRESSED_TEXTURE_FORMATS,
      GL_ALIASED_LINE_WIDTH_RANGE, GL_ALIASED_POINT_SIZE_RANGE, GL_DEPTH_RANGE, GL_BLEND_COLOR,
      GL_COLOR_CLEAR_VALUE, GL_MAX_VIEWPORT_DIMS, GL_SCISSOR_BOX, GL_VIEWPORT, GL_COLOR_WRITEMASK,
      GL_UNPACK_FLIP_Y_WEBGL, GL_UNPACK_PREMULTIPLY_ALPHA_WEBGL,
      GL_UNPACK_COLORSPACE_CONVERSION_WEBGL]
  · intro c' jsArgv pname harg hp
    rcases hp with h | h <;> subst h <;>
      simp [getParameter, harg, GL_COMPRESSED_TEXTURE_FORMATS,
      GL_ALIASED_LINE_WIDTH_RANGE, GL_ALIASED_POINT_SIZE_RANGE, GL_DEPTH_RANGE, GL_BLEND_COLOR,
      GL_COLOR_CLEAR_VALUE, GL_MAX_VIEWPORT_DIMS, GL_SCISSOR_BOX, GL_VIEWPORT, GL_COLOR_WRITEMASK,
      GL_UNPACK_FLIP_Y_WEBGL, GL_UNPACK_PREMULTIPLY_ALPHA_WEBGL,
      GL_UNPACK_COLORSPACE_CONVERSION_WEBGL]

theorem flip_flag_roundtrip_witness :
    ARG sampleExternals.unpackUInt [JsValue.number 0x9240, .bool true] 0
      = .ok GL_UNPACK_FLIP_Y_WEBGL ∧
    ARG sampleExternals.unpackUChar [JsValue.number 0x9240, .bool true] 1 = .ok 1 ∧
    decide ((1 : Nat) ≠ 0) = true ∧
    ARG sampleExternals.unpackUInt [JsValue.number 0x9240] 0 = .ok GL_UNPACK_FLIP_Y_WEBGL ∧
    pixelStorei sampleExternals [JsValue.number 0x9240, .bool true] {}
      = (.ok .null, { unpackFLipY := true }) ∧
    getParameter sampleExternals [JsValue.number 0x9240]
        (pixelStorei sampleExternals [JsValue.number 0x9240, .bool true] {}).2
      = (.ok (.bool true), (pixelStorei sampleExternals [JsValue.number 0x9240, .bool true] {}).2) :=
  ⟨by decide, by decide, by decide, by decide,
    (flip_flag_roundtrip sampleExternals {} true 1 [JsValue.number 0x9240, .bool true]
      [JsValue.number 0x9240] (by decide) (by decide) (by decide) (by decide)).1,
    (flip_flag_roundtrip sampleExternals {} true 1 [JsValue.number 0x9240, .bool true]
      [JsValue.number 0x9240] (by decide) (by decide) (by decide) (by decide)).2.1⟩

/-! ## bufferData -/

/-- C16: bufferData with a data argument that is neither a number, null,
undefined nor an object. Evaluation of bufferData(ARRAY_BUFFER, "abc",
STATIC_DRAW) and bufferData(ARRAY_BUFFER, true, STATIC_DRAW): the call returns
null normally, no argument error is reported and nothing is enqueued. With a
number, null, undefined or an ArrayBuffer the call enqueues one item, with the
given size, size 0, or the copied bytes. -/
theorem bufferData_ignores_malformed_data :
    bufferData sampleExternals [.number 34962, .string "abc", .number 35044] {}
      = (.ok .null, {}) ∧
    bufferData sampleExternals [.number 34962, .bool true, .number 35044] {}
      = (.ok .null, {}) ∧
    bufferData sampleExternals [.number 34962, .number 16, .number 35044] {}
      = (.ok .null,
         { nextBatch := [{ op := .upload "glBufferData" [34962, 16, 35044] none }] }) ∧
    bufferData sampleExternals [.number 34962, .null, .number 35044] {}
      = (.ok .null,
         { nextBatch := [{ op := .upload "glBufferData" [34962, 0, 35044] none }] }) ∧
    bufferData sampleExternals [.number 34962, .undefined, .number 35044] {}
      = (.ok .null,
         { nextBatch := [{ op := .upload "glBufferData" [34962, 0, 35044] none }] }) ∧
    bufferData sampleExternals [.number 34962, .arrayBuffer [7, 8, 9], .number 35044] {}
      = (.ok .null,
         { nextBatch :=
            [{ op := .upload "glBufferData" [34962, 3, 35044] (some [7, 8, 9]) }] }) := by
  decide

/-! ## Argument counts of texImage2D and texSubImage2D -/

theorem pixelData_error (E : Externals) (msg : String) (hE : E.neverThrows msg)
    (hmsg : msg ≠ "Value is not an Object") (v : JsValue) (width height : Int) :
    pixelData E v width height ≠ .error msg := by
  obtain ⟨_, hR, hL⟩ := hE
  simp only [pixelData]
  cases hobj : asObject v with
  | error e =>
    have he : e = "Value is not an Object" := by
      cases v <;> simp [asObject] at hobj <;> exact hobj.symm
    subst he
    intro h
    injection h with h
    exact hmsg h.symm
  | ok obj =>
    by_cases hb : isArrayBufferOrTypedArray obj = true
    · simp only [hb, if_true]
      cases hr : E.rawArrayBuffer obj with
      | error e =>
        intro h
        injection h with h
        subst h
        exact hR obj hr
      | ok vec => simp
    · simp only [hb]
      exact hL v width height

theorem texImage2D_count_ok (E : Externals) (jsArgv : List JsValue) (c : EXGLContext)
    (hE : E.neverThrows texImage2DCountError)
    (hlen : jsArgv.length = 6 ∨ jsArgv.length = 9) :
    (texImage2D E jsArgv c).1 ≠ .error texImage2DCountError := by
  have hP := pixelData_error E texImage2DCountError hE (by decide)
  obtain ⟨hU, _, _⟩ := hE
  rcases hlen with hlen | hlen
  · simp only [texImage2D, hlen]
    cases hu : E.unpackArgv [.uint, .int, .int, .uint, .uint] jsArgv with
    | error e =>
      intro h
      simp at h
      subst h
      exact hU _ _ hu
    | ok a =>
      simp only [Nat.reduceEqDiff, if_false, if_true]
      split
      · simp
      · split
        · rename_i e heq
          intro h
          simp only at h
          injection h with h
          subst h
          exact hP _ _ _ heq
        · simp [texImage2DCountError]
        · simp
  · simp only [texImage2D, hlen]
    cases hu : E.unpackArgv [.uint, .int, .int, .int, .int, .int, .uint, .uint] jsArgv with
    | error e =>
      intro h
      simp at h
      subst h
      exact hU _ _ hu
    | ok a =>
      simp only [Nat.reduceEqDiff, if_false, if_true]
      split
      · simp
      · split
        · rename_i e heq
          intro h
          simp only at h
          injection h with h
          subst h
          exact hP _ _ _ heq
        · simp [texImage2DCountError]
        · simp

theorem texSubImage2D_count_ok (E : Externals) (jsArgv : List JsValue) (c : EXGLContext)
    (hE : E.neverThrows texSubImage2DCountError)
    (hlen : jsArgv.length = 7 ∨ jsArgv.length = 9) :
    (texSubImage2D E jsArgv c).1 ≠ .error texSubImage2DCountError := by
  have hP := pixelData_error E texSubImage2DCountError hE (by decide)
  obtain ⟨hU, _, _⟩ := hE
  rcases hlen with hlen | hlen
  · simp only [texSubImage2D, hlen]
    cases hu : E.unpackArgv [.uint, .int, .int, .int, .uint, .uint] jsArgv with
    | error e =>
      intro h
      simp at h
      subst h
      exact hU _ _ hu
    | ok a =>
      simp only [Nat.reduceEqDiff, if_false, if_true]
      split
      · simp
      · split
        · rename_i e heq
          intro h
          simp only at h
          injection h with h
          subst h
          exact hP _ _ _ heq
        · simp [texSubImage2DCountError]
        · simp
  · simp only [texSubImage2D, hlen]
    cases hu : E.unpackArgv [.uint, .int, .int, .int, .int, .int, .uint, .uint] jsArgv with
    | error e =>
      intro h
      simp at h
      subst h
      exact hU _ _ hu
    | ok a =>
      simp only [Nat.reduceEqDiff, if_false, if_true]
      split
      · simp
      · split
        · rename_i e heq
          intro h
          simp only at h
          injection h with h
          subst h
          exact hP _ _ _ heq
        · simp [texSubImage2DCountError]
        · simp

theorem sampleExternals_neverThrows (msg : String) (h1 : msg ≠ "EXGL: Too few arguments")
    (h2 : msg ≠ "EXGL: not an ArrayBuffer") : sampleExternals.neverThrows msg := by
  refine ⟨?_, ?_, ?_⟩
  · intro types jsArgv h
    simp only [sampleExternals] at h
    split at h
    · injection h with h
      exact h1 h.symm
    · cases h
  · intro v h
    simp only [sampleExternals] at h
    split at h
    · cases h
    · cases h
    · injection h with h
      exact h2 h.symm
  · intro v width height h
    simp [sampleExternals] at h

/-- C17: argument counts of texImage2D and texSubImage2D. Provided the absent
helpers never throw these very messages, texImage2D throws
"EXGL: Invalid number of arguments to gl.texImage2D()!" exactly when its
argument count is neither 6 nor 9, and texSubImage2D throws
"EXGL: Invalid number of arguments to gl.texSubImage2D()!" exactly when its
count is neither 7 nor 9; in these cases the context is unchanged, so nothing
is enqueued. With an accepted count, arguments that unpack and null pixels,
the call returns null and appends exactly one item that captured no pixel
bytes: for texImage2D the item passes a null pointer, for texSubImage2D it
passes a buffer it zero-fills itself when it runs. -/
theorem texImage2D_argument_count (E : Externals) (jsArgv : List JsValue) (c : EXGLContext)
    (a0 a1 a2 a3 a4 a5 a6 a7 : Int)
    (hT : E.neverThrows texImage2DCountError) (hS : E.neverThrows texSubImage2DCountError) :
    ((texImage2D E jsArgv c).1 = .error texImage2DCountError ↔
      (jsArgv.length ≠ 6 ∧ jsArgv.length ≠ 9)) ∧
    (jsArgv.length ≠ 6 → jsArgv.length ≠ 9 →
      texImage2D E jsArgv c = (.error texImage2DCountError, c)) ∧
    ((texSubImage2D E jsArgv c).1 = .error texSubImage2DCountError ↔
      (jsArgv.length ≠ 7 ∧ jsArgv.length ≠ 9)) ∧
    (jsArgv.length ≠ 7 → jsArgv.length ≠ 9 →
      texSubImage2D E jsArgv c = (.error texSubImage2DCountError, c)) ∧
    (jsArgv.length = 9 →
      E.unpackArgv [.uint, .int, .int, .int, .int, .int, .uint, .uint] jsArgv
        = .ok [a0, a1, a2, a3, a4, a5, a6, a7] →
      jsArgv[8]? = some .null →
      texImage2D E jsArgv c =
        (.ok .null,
          addToNextBatch (.upload "glTexImage2D" [a0, a1, a2, a3, a4, a5, a6, a7] none) c) ∧
      texSubImage2D E jsArgv c =
        (.ok .null,
          addToNextBatch
            (.uploadZeroed "glTexSubImage2D" [a0, a1, a2, a3, a4, a5, a6, a7]
              (asSizeT (wrapInt32 (a4 * a5))) (E.bytesPerPixel a7.toNat a6.toNat)) c)) ∧
    (jsArgv.length = 6 →
      E.unpackArgv [.uint, .int, .int, .uint, .uint] jsArgv = .ok [a0, a1, a2, a3, a4] →
      jsArgv[5]? = some .null →
      texImage2D E jsArgv c =
        (.ok .null,
          addToNextBatch (.upload "glTexImage2D" [a0, a1, a2, 0, 0, 0, a3, a4] none) c)) ∧
    (jsArgv.length = 7 →
      E.unpackArgv [.uint, .int, .int, .int, .uint, .uint] jsArgv
        = .ok [a0, a1, a2, a3, a4, a5] →
      jsArgv[6]? = some .null →
      texSubImage2D E jsArgv c =
        (.ok .null,
          addToNextBatch
            (.uploadZeroed "glTexSubImage2D" [a0, a1, a2, a3, 0, 0, a4, a5] 0
              (E.bytesPerPixel a5.toNat a4.toNat)) c)) := by
  have htex : jsArgv.length ≠ 6 → jsArgv.length ≠ 9 →
      texImage2D E jsArgv c = (.error texImage2DCountError, c) := by
    intro h6 h9
    simp [texImage2D, h6, h9, texImage2DCountError]
  have hsub : jsArgv.length ≠ 7 → jsArgv.length ≠ 9 →
      texSubImage2D E jsArgv c = (.error texSubImage2DCountError, c) := by
    intro h7 h9
    simp [texSubImage2D, h7, h9, texSubImage2DCountError]
  refine ⟨⟨?_, fun h => by rw [htex h.1 h.2]⟩, htex, ⟨?_, fun h => by rw [hsub h.1 h.2]⟩, hsub,
    ?_, ?_, ?_⟩
  · intro herr
    by_contra hcon
    have hlen : jsArgv.length = 6 ∨ jsArgv.length = 9 := by omega
    exact texImage2D_count_ok E jsArgv c hT hlen herr
  · intro herr
    by_contra hcon
    have hlen : jsArgv.length = 7 ∨ jsArgv.length = 9 := by omega
    exact texSubImage2D_count_ok E jsArgv c hS hlen herr
  · intro hlen hun hpx
    have hget : jsArgv.getD 8 .undefined = .null := by
      simp [List.getD_eq_getElem?_getD, hpx]
    refine ⟨?_, ?_⟩
    · simp only [texImage2D, hlen, hun, hget]
      simp
    · simp only [texSubImage2D, hlen, hun, hget]
      simp
  · intro hlen hun hpx
    have hget : jsArgv.getD 5 .undefined = .null := by
      simp [List.getD_eq_getElem?_getD, hpx]
    simp only [texImage2D, hlen, hun, hget]
    simp
  · intro hlen hun hpx
    have hget : jsArgv.getD 6 .undefined = .null := by
      simp [List.getD_eq_getElem?_getD, hpx]
    simp only [texSubImage2D, hlen, hun, hget]
    simp [asSizeT, wrapInt32]

theorem texImage2D_argument_count_witness :
    sampleExternals.neverThrows texImage2DCountError ∧
    sampleExternals.neverThrows texSubImage2DCountError ∧
    texImage2D sampleExternals [.number 3553, .number 0] {}
      = (.error "EXGL: Invalid number of arguments to gl.texImage2D()!", {}) ∧
    texSubImage2D sampleExternals
        [.number 3553, .number 0, .number 0, .number 0, .number 6408, .number 5121] {}
      = (.error "EXGL: Invalid number of arguments to gl.texSubImage2D()!", {}) ∧
    texImage2D sampleExternals
        [.number 3553, .number 0, .number 6408, .number 2, .number 2, .number 0, .number 6408,
         .number 5121, .null] {}
      = (.ok .null,
         { nextBatch :=
            [{ op := .upload "glTexImage2D" [3553, 0, 6408, 2, 2, 0, 6408, 5121] none }] }) ∧
    texSubImage2D sampleExternals
        [.number 3553, .number 0, .number 0, .number 0, .number 6408, .number 5121, .null] {}
      = (.ok .null,
         { nextBatch :=
            [{ op := .uploadZeroed "glTexSubImage2D" [3553, 0, 0, 0, 0, 0, 6408, 5121] 0 4 }] }) :=
  ⟨sampleExternals_neverThrows _ (by decide) (by decide),
    sampleExternals_neverThrows _ (by decide) (by decide),
    (texImage2D_argument_count sampleExternals [.number 3553, .number 0] {} 0 0 0 0 0 0 0 0
      (sampleExternals_neverThrows _ (by decide) (by decide))
      (sampleExternals_neverThrows _ (by decide) (by decide))).2.1 (by decide) (by decide),
    (texImage2D_argument_count sampleExternals
      [.number 3553, .number 0, .number 0, .number 0, .number 6408, .number 5121] {}
      0 0 0 0 0 0 0 0
      (sampleExternals_neverThrows _ (by decide) (by decide))
      (sampleExternals_neverThrows _ (by decide) (by decide))).2.2.2.1 (by decide) (by decide),
    ((texImage2D_argument_count sampleExternals
      [.number 3553, .number 0, .number 6408, .number 2, .number 2, .number 0, .number 6408,
       .number 5121, .null] {} 3553 0 6408 2 2 0 6408 5121
      (sampleExternals_neverThrows _ (by decide) (by decide))
      (sampleExternals_neverThrows _ (by decide) (by decide))).2.2.2.2.1
      (by decide) (by decide) (by decide)).1,
    (texImage2D_argument_count sampleExternals
      [.number 3553, .number 0, .number 0, .number 0, .number 6408, .number 5121, .null] {}
      3553 0 0 0 6408 5121 0 0
      (sampleExternals_neverThrows _ (by decide) (by decide))
      (sampleExternals_neverThrows _ (by decide) (by decide))).2.2.2.2.2.2
      (by decide) (by decide) (by decide)⟩

/-! ## Reverse lookup -/

theorem mem_of_lookupObject (objects : List (UEXGLObjectId × GLuint)) (h : UEXGLObjectId)
    (n : GLuint) (hl : lookupObject objects h = .ok n) : (h, n) ∈ objects := by
  simp only [lookupObject] at hl
  cases hf : objects.find? (fun p => decide (p.1 = h)) with
  | none => simp [hf] at hl
  | some p =>
    simp only [hf] at hl
    injection hl with hl
    have hm := List.mem_of_find?_eq_some hf
    have hp := List.find?_some hf
    simp at hp
    obtain ⟨a, b⟩ := p
    simp at hp hl
    subst hp hl
    exact hm

theorem lookupObject_of_mem (objects : List (UEXGLObjectId × GLuint)) (h : UEXGLObjectId)
    (n : GLuint) (hnd : (objects.map Prod.fst).Nodup) (hm : (h, n) ∈ objects) :
    lookupObject objects h = .ok n := by
  induction objects with
  | nil => simp at hm
  | cons p rest ih =>
    obtain ⟨k, v⟩ := p
    simp only [List.map_cons, List.nodup_cons, List.mem_map, not_exists, not_and] at hnd
    rcases List.mem_cons.1 hm with heq | hin
    · injection heq with h1 h2
      subst h1 h2
      simp [lookupObject]
    · have hne : k ≠ h := by
        intro hk
        exact hnd.1 (h, n) hin hk.symm
      have := ih hnd.2 hin
      simp only [lookupObject, List.find?, hne, decide_False] at this ⊢
      exact this

theorem findObjectId_found (objects : List (UEXGLObjectId × GLuint)) (glInt : Int)
    (hex : ∃ p ∈ objects, p.2 = asGLuint glInt) :
    ∃ h : UEXGLObjectId,
      findObjectId objects glInt = .number (h : Int) ∧ (h, asGLuint glInt) ∈ objects := by
  simp only [findObjectId]
  cases hf : objects.find? (fun p => decide (p.2 = asGLuint glInt)) with
  | none =>
    obtain ⟨p, hp, hpn⟩ := hex
    have := List.find?_eq_none.1 hf p hp
    simp [hpn] at this
  | some p =>
    have hm := List.mem_of_find?_eq_some hf
    have hp := List.find?_some hf
    simp at hp
    obtain ⟨a, b⟩ := p
    simp at hp
    subst hp
    exact ⟨a, rfl, hm⟩

theorem findObjectId_missing (objects : List (UEXGLObjectId × GLuint)) (glInt : Int)
    (hno : ∀ p ∈ objects, p.2 ≠ asGLuint glInt) : findObjectId objects glInt = .null := by
  have hf : objects.find? (fun p => decide (p.2 = asGLuint glInt)) = none := by
    rw [List.find?_eq_none]
    intro p hp
    simp [hno p hp]
  simp [findObjectId, hf]

theorem getParameter_binding (E : Externals) (jsArgv : List JsValue) (c : EXGLContext)
    (pname : GLenum) (harg : ARG E.unpackUInt jsArgv 0 = .ok pname)
    (hp : pname = GL_ARRAY_BUFFER_BINDING ∨ pname = GL_ELEMENT_ARRAY_BUFFER_BINDING ∨
      pname = GL_CURRENT_PROGRAM) :
    getParameter E jsArgv c =
      blockingQuery E "glGetIntegerv" [(pname : Int)]
        (fun a c1 => findObjectId c1.gl.objects (a.headD 0)) c := by
  rcases hp with h | h | h <;> subst h <;>
    simp [getParameter, harg, GL_COMPRESSED_TEXTURE_FORMATS,
      GL_ALIASED_LINE_WIDTH_RANGE, GL_ALIASED_POINT_SIZE_RANGE, GL_DEPTH_RANGE, GL_BLEND_COLOR,
      GL_COLOR_CLEAR_VALUE, GL_MAX_VIEWPORT_DIMS, GL_SCISSOR_BOX, GL_VIEWPORT, GL_COLOR_WRITEMASK,
      GL_UNPACK_FLIP_Y_WEBGL, GL_UNPACK_PREMULTIPLY_ALPHA_WEBGL,
      GL_UNPACK_COLORSPACE_CONVERSION_WEBGL, GL_RASTERIZER_DISCARD, GL_SAMPLE_ALPHA_TO_COVERAGE,
      GL_SAMPLE_COVERAGE, GL_TRANSFORM_FEEDBACK_ACTIVE, GL_TRANSFORM_FEEDBACK_PAUSED, GL_RENDERER,
      GL_SHADING_LANGUAGE_VERSION, GL_VENDOR, GL_VERSION, GL_DEPTH_CLEAR_VALUE, GL_LINE_WIDTH,
      GL_POLYGON_OFFSET_FACTOR, GL_POLYGON_OFFSET_UNITS, GL_SAMPLE_COVERAGE_VALUE,
      GL_MAX_TEXTURE_LOD_BIAS, GL_ARRAY_BUFFER_BINDING, GL_ELEMENT_ARRAY_BUFFER_BINDING,
      GL_CURRENT_PROGRAM]

/-- C18: getParameter for ARRAY_BUFFER_BINDING, ELEMENT_ARRAY_BUFFER_BINDING
and CURRENT_PROGRAM. Let n be the name the driver reports to the blocking
glGetIntegerv and let the registry be the one the call leaves behind. If some
registry entry has native name n, the result is a handle h with the entry
(h, n) in the registry, which is what lookupObject returns for h in a registry
with one entry per handle; if no entry has native name n, the result is
null. -/
theorem getParameter_binding_handle (E : Externals) (jsArgv : List JsValue) (c : EXGLContext)
    (pname : GLenum) (harg : ARG E.unpackUInt jsArgv 0 = .ok pname)
    (hp : pname = GL_ARRAY_BUFFER_BINDING ∨ pname = GL_ELEMENT_ARRAY_BUFFER_BINDING ∨
      pname = GL_CURRENT_PROGRAM) :
    let objects := (getParameter E jsArgv c).2.gl.objects
    let n := asGLuint
      ((E.drv (settle E.drv c).gl.calls
        { func := "glGetIntegerv", args := [(pname : Int)] }).headD 0)
    ((∃ p ∈ objects, p.2 = n) →
      ∃ h : UEXGLObjectId,
        (getParameter E jsArgv c).1 = .ok (.number (h : Int)) ∧ (h, n) ∈ objects ∧
        ((objects.map Prod.fst).Nodup → lookupObject objects h = .ok n)) ∧
    ((∀ p ∈ objects, p.2 ≠ n) → (getParameter E jsArgv c).1 = .ok .null) := by
  intro objects n
  have hq := getParameter_binding E jsArgv c pname harg hp
  have hres : (getParameter E jsArgv c).1 = .ok (findObjectId objects
      ((E.drv (settle E.drv c).gl.calls
        { func := "glGetIntegerv", args := [(pname : Int)] }).headD 0)) := by
    simp only [objects]
    rw [hq]
    simp [blockingQuery, addBlockingToNextBatch_eq, Op.run, glCall]
  refine ⟨?_, ?_⟩
  · intro hex
    obtain ⟨h, hfound, hmem⟩ := findObjectId_found objects _ hex
    exact ⟨h, by rw [hres, hfound], hmem, fun hnd => lookupObject_of_mem _ _ _ hnd hmem⟩
  · intro hno
    rw [hres, findObjectId_missing objects _ hno]

theorem getParameter_binding_handle_witness :
    ARG sampleExternals.unpackUInt [JsValue.number 0x8894] 0 = .ok GL_ARRAY_BUFFER_BINDING ∧
    getParameter sampleExternals [JsValue.number 0x8894]
        { gl := { objects := [(1, 4), (2, 1), (3, 7)] } }
      = (.ok (.number 2),
         { gl := { objects := [(1, 4), (2, 1), (3, 7)],
                   calls := [{ func := "glGetIntegerv", args := [0x8894] }],
                   published := some (.ok [1]) } }) ∧
    ∃ h : UEXGLObjectId,
      (getParameter sampleExternals [JsValue.number 0x8894]
        { gl := { objects := [(1, 4), (2, 1), (3, 7)] } }).1 = .ok (.number (h : Int)) ∧
      (h, 1) ∈ [((1 : UEXGLObjectId), (4 : GLuint)), (2, 1), (3, 7)] :=
  ⟨by decide, by decide,
    by
      obtain ⟨h, h1, h2, _⟩ :=
        (getParameter_binding_handle sampleExternals [JsValue.number 0x8894]
          { gl := { objects := [(1, 4), (2, 1), (3, 7)] } } GL_ARRAY_BUFFER_BINDING
          (by decide) (Or.inl rfl)).1 ⟨(2, 1), by decide, by decide⟩
      exact ⟨h, h1, h2⟩⟩

theorem shaderObjectId_missing (objects : List (UEXGLObjectId × GLuint)) (name : Int)
    (hno : ∀ p ∈ objects, p.2 ≠ asGLuint name) (start : UEXGLObjectId) :
    objects.foldl (fun exglObjId pair => if pair.2 = asGLuint name then pair.1 else exglObjId)
      start = start := by
  induction objects generalizing start with
  | nil => rfl
  | cons p rest ih =>
    have hp := hno p (List.mem_cons_self _ _)
    simp only [List.foldl_cons, hp, if_false]
    exact ih (fun q hq => hno q (List.mem_cons_of_mem _ hq)) start

theorem shaderObjectId_found (objects : List (UEXGLObjectId × GLuint)) (name : Int)
    (hex : ∃ p ∈ objects, p.2 = asGLuint name) (start : UEXGLObjectId) :
    ∃ h : UEXGLObjectId,
      objects.foldl (fun exglObjId pair => if pair.2 = asGLuint name then pair.1 else exglObjId)
        start = h ∧ (h, asGLuint name) ∈ objects := by
  induction objects generalizing start with
  | nil => obtain ⟨p, hp, _⟩ := hex; simp at hp
  | cons p rest ih =>
    simp only [List.foldl_cons]
    by_cases hrest : ∃ q ∈ rest, q.2 = asGLuint name
    · obtain ⟨h, h1, h2⟩ := ih hrest (if p.2 = asGLuint name then p.1 else start)
      exact ⟨h, h1, List.mem_cons_of_mem _ h2⟩
    · have hno : ∀ q ∈ rest, q.2 ≠ asGLuint name := by
        intro q hq hqn
        exact hrest ⟨q, hq, hqn⟩
      have hp : p.2 = asGLuint name := by
        obtain ⟨q, hq, hqn⟩ := hex
        rcases List.mem_cons.1 hq with rfl | hq
        · exact hqn
        · exact absurd hqn (hno q hq)
      rw [shaderObjectId_missing rest name hno]
      refine ⟨p.1, by simp [hp], ?_⟩
      rw [← hp]
      exact List.mem_cons_self _ _

theorem shaderObjectIds_found (objects : List (UEXGLObjectId × GLuint))
    (hpos : ∀ p ∈ objects, p.1 ≠ 0) (names : List Int)
    (hall : ∀ n ∈ names, ∃ p ∈ objects, p.2 = asGLuint n) :
    ∃ ids : List Int,
      shaderObjectIds objects names = .ok ids ∧
      List.Forall₂
        (fun (id : Int) (n : Int) =>
          ∃ h : UEXGLObjectId, id = (h : Int) ∧ (h, asGLuint n) ∈ objects)
        ids names := by
  induction names with
  | nil => exact ⟨[], rfl, List.Forall₂.nil⟩
  | cons n rest ih =>
    obtain ⟨ids, hids, hrel⟩ := ih (fun m hm => hall m (List.mem_cons_of_mem _ hm))
    obtain ⟨h, hh, hmem⟩ := shaderObjectId_found objects n (hall n (List.mem_cons_self _ _)) 0
    have hid : shaderObjectId objects n = h := hh
    have hne : h ≠ 0 := hpos (h, asGLuint n) hmem
    refine ⟨(h : Int) :: ids, ?_, List.Forall₂.cons ⟨h, rfl, hmem⟩ hrel⟩
    simp [shaderObjectIds, hid, hne, hids]

theorem shaderObjectIds_missing (objects : List (UEXGLObjectId × GLuint)) (names : List Int)
    (hex : ∃ n ∈ names, ∀ p ∈ objects, p.2 ≠ asGLuint n) :
    shaderObjectIds objects names =
      .error ("EXGL: Internal error: couldn\x27t find UEXGLObjectId " ++
        "associated with shader in getAttachedShaders()!") := by
  induction names with
  | nil => obtain ⟨n, hn, _⟩ := hex; simp at hn
  | cons n rest ih =>
    by_cases h0 : shaderObjectId objects n = 0
    · simp [shaderObjectIds, h0]
    · have hrest : ∃ m ∈ rest, ∀ p ∈ objects, p.2 ≠ asGLuint m := by
        obtain ⟨m, hm, hno⟩ := hex
        rcases List.mem_cons.1 hm with rfl | hm
        · exact absurd (shaderObjectId_missing objects m hno 0) h0
        · exact ⟨m, hm, hno⟩
      simp [shaderObjectIds, h0, ih hrest]

/-- C19: getAttachedShaders. Let `names` be the shader names the driver
reports to the blocking item and let the registry, whose handles are never 0,
be the one the call leaves behind. If every name has a registry entry, the
result is an array with one handle per name, in the driver's order, the i-th
handle h having the entry (h, n_i) in the registry, which is what lookupObject
returns for h in a registry with one entry per handle. If some name has no
registry entry, the call throws "EXGL: Internal error: couldn't find
UEXGLObjectId associated with shader in getAttachedShaders()!". -/
theorem getAttachedShaders_handles (E : Externals) (jsArgv : List JsValue) (c : EXGLContext)
    (fProgram : Int) (names : List Int)
    (hun : E.unpackArgv [.uint] jsArgv = .ok [fProgram])
    (hrun : (addBlockingToNextBatch E.drv (.getAttachedShaders fProgram.toNat) c).1 = .ok names)
    (hpos : ∀ p ∈ (getAttachedShaders E jsArgv c).2.gl.objects, p.1 ≠ 0) :
    let objects := (getAttachedShaders E jsArgv c).2.gl.objects
    ((∀ n ∈ names, ∃ p ∈ objects, p.2 = asGLuint n) →
      ∃ ids : List Int,
        (getAttachedShaders E jsArgv c).1 = .ok (.array ids) ∧
        List.Forall₂
          (fun (id : Int) (n : Int) =>
            ∃ h : UEXGLObjectId, id = (h : Int) ∧ (h, asGLuint n) ∈ objects ∧
              ((objects.map Prod.fst).Nodup → lookupObject objects h = .ok (asGLuint n)))
          ids names) ∧
    ((∃ n ∈ names, ∀ p ∈ objects, p.2 ≠ asGLuint n) →
      (getAttachedShaders E jsArgv c).1 =
        .error ("EXGL: Internal error: couldn\x27t find UEXGLObjectId " ++
          "associated with shader in getAttachedShaders()!")) := by
  intro objects
  have hctx : (getAttachedShaders E jsArgv c).2
      = (addBlockingToNextBatch E.drv (.getAttachedShaders fProgram.toNat) c).2 := by
    simp only [getAttachedShaders, hun, List.getD_cons_zero, hrun]
    split <;> rfl
  have hres : (getAttachedShaders E jsArgv c).1 =
      match shaderObjectIds objects names with
      | .error e => .error e
      | .ok ids => .ok (.array ids) := by
    simp only [objects, hctx]
    simp only [getAttachedShaders, hun, List.getD_cons_zero, hrun]
    split <;> simp_all
  refine ⟨?_, ?_⟩
  · intro hall
    obtain ⟨ids, hids, hrel⟩ := shaderObjectIds_found objects hpos names hall
    refine ⟨ids, by rw [hres, hids], hrel.imp ?_⟩
    rintro id n ⟨h, hid, hmem⟩
    exact ⟨h, hid, hmem, fun hnd => lookupObject_of_mem _ _ _ hnd hmem⟩
  · intro hex
    rw [hres, shaderObjectIds_missing objects names hex]

theorem getAttachedShaders_handles_witness :
    sampleExternals.unpackArgv [.uint] [JsValue.number 5] = .ok [5] ∧
    (addBlockingToNextBatch sampleExternals.drv (.getAttachedShaders (5 : Int).toNat)
      { gl := { objects := [(5, 9), (6, 2)] } }).1 = .ok [2] ∧
    (getAttachedShaders sampleExternals [JsValue.number 5]
      { gl := { objects := [(5, 9), (6, 2)] } }).1 = .ok (.array [6]) ∧
    ∃ ids : List Int,
      (getAttachedShaders sampleExternals [JsValue.number 5]
        { gl := { objects := [(5, 9), (6, 2)] } }).1 = .ok (.array ids) ∧
      ids.length = [(2 : Int)].length :=
  ⟨by decide, by decide, by decide,
    by
      obtain ⟨ids, h1, h2⟩ :=
        (getAttachedShaders_handles sampleExternals [JsValue.number 5]
          { gl := { objects := [(5, 9), (6, 2)] } } 5 [2] (by decide) (by decide)
          (by decide)).1 (by decide)
      exact ⟨ids, h1, h2.length_eq⟩⟩

theorem asGLuint_of_name (n : GLuint) (hn : n < 4294967296) : asGLuint (n : Int) = n := by
  have h0 : (0 : Int) ≤ (n : Int) := Int.natCast_nonneg n
  have h1 : (n : Int) < 4294967296 := by exact_mod_cast hn
  simp only [asGLuint]
  rw [Int.emod_eq_of_lt h0 h1, Int.toNat_natCast]

/-- C20: the reverse lookup after createBuffer and createProgram on a driver
that names the first buffer 1 and the first program 1. The one registry holds
objects of every kind, so handle 1 (the buffer) and handle 2 (the program) are
both live with registry entry 1. getParameter(CURRENT_PROGRAM), the driver
reporting name 1, returns handle 1, the buffer, although the program is handle
2; getAttachedShaders, the driver reporting the name 1, returns handle 2
although handle 1 has entry 1: the two scans disagree, and neither is a left
inverse of the lookup. -/
theorem reverse_lookup_not_left_inverse :
    (getParameter firstNameExternals [.number 0x8B8D]
      (run firstNameExternals [.call .createBuffer [], .call .createProgram []] {}).2).2.gl.objects
      = [(1, 1), (2, 1)] ∧
    lookupObject [(1, 1), (2, 1)] 2 = .ok 1 ∧
    (getParameter firstNameExternals [.number 0x8B8D]
      (run firstNameExternals [.call .createBuffer [], .call .createProgram []] {}).2).1
      = .ok (.number 1) ∧
    findObjectId [(1, 1), (2, 1)] 1 ≠ .number 2 ∧
    lookupObject [(1, 1), (2, 1)] 1 = .ok 1 ∧
    (getAttachedShaders firstNameExternals [.number 2]
      (run firstNameExternals [.call .createBuffer [], .call .createProgram []] {}).2).1
      = .ok (.array [2]) ∧
    shaderObjectId [(1, 1), (2, 1)] 1 ≠ 1 := by
  decide

/-- Reverse lookup of a name held by one handle only: for every registry state
and every live handle h (not 0)
whose registry entry is the native name n, if no other handle of the registry
has the native name n, then the reverse lookup of getParameter
(ARRAY_BUFFER_BINDING, ELEMENT_ARRAY_BUFFER_BINDING, CURRENT_PROGRAM) and the
reverse lookup of getAttachedShaders, given n, both return h. -/
theorem reverse_lookup_of_unique_name (objects : List (UEXGLObjectId × GLuint))
    (h : UEXGLObjectId) (n : GLuint)
    (hentry : lookupObject objects h = .ok n) (hlive : h ≠ 0) (hname : n < 4294967296)
    (hunique : ∀ p ∈ objects, p.2 = n → p.1 = h) :
    findObjectId objects (n : Int) = .number (h : Int) ∧
    shaderObjectId objects (n : Int) = h ∧
    shaderObjectIds objects [(n : Int)] = .ok [(h : Int)] := by
  have hmem := mem_of_lookupObject objects h n hentry
  have hn := asGLuint_of_name n hname
  have hex : ∃ p ∈ objects, p.2 = asGLuint (n : Int) := ⟨(h, n), hmem, by rw [hn]⟩
  obtain ⟨h1, hf1, hm1⟩ := findObjectId_found objects (n : Int) hex
  obtain ⟨h2, hf2, hm2⟩ := shaderObjectId_found objects (n : Int) hex 0
  have e1 : h1 = h := hunique (h1, asGLuint (n : Int)) hm1 (by rw [hn])
  have e2 : h2 = h := hunique (h2, asGLuint (n : Int)) hm2 (by rw [hn])
  rw [e1] at hf1
  rw [e2] at hf2
  have hs : shaderObjectId objects (n : Int) = h := hf2
  refine ⟨hf1, hs, ?_⟩
  simp [shaderObjectIds, hs, hlive]

theorem reverse_lookup_of_unique_name_witness :
    lookupObject [(1, 4), (2, 1), (3, 7)] 2 = .ok 1 ∧
    (2 : UEXGLObjectId) ≠ 0 ∧ (1 : GLuint) < 4294967296 ∧
    (∀ p ∈ [((1 : UEXGLObjectId), (4 : GLuint)), (2, 1), (3, 7)], p.2 = 1 → p.1 = 2) ∧
    findObjectId [(1, 4), (2, 1), (3, 7)] ((1 : GLuint) : Int) = .number ((2 : UEXGLObjectId) : Int) ∧
    shaderObjectId [(1, 4), (2, 1), (3, 7)] ((1 : GLuint) : Int) = 2 :=
  ⟨by decide, by decide, by decide, by decide,
    (reverse_lookup_of_unique_name [(1, 4), (2, 1), (3, 7)] 2 1 (by decide) (by decide)
      (by decide) (by decide)).1,
    (reverse_lookup_of_unique_name [(1, 4), (2, 1), (3, 7)] 2 1 (by decide) (by decide)
      (by decide) (by decide)).2.1⟩

/-! ## getParameter: framebuffer and renderbuffer bindings -/

theorem getParameter_renderbuffer_binding (E : Externals) (jsArgv : List JsValue)
    (c : EXGLContext) (harg : ARG E.unpackUInt jsArgv 0 = .ok GL_RENDERBUFFER_BINDING) :
    getParameter E jsArgv c =
      blockingQuery E "glGetIntegerv" [(GL_RENDERBUFFER_BINDING : Int)]
        (fun a _ => .number (a.headD 0)) c := by
  simp [getParameter, harg, unsupportedParameters, GL_RENDERBUFFER_BINDING,
    GL_COMPRESSED_TEXTURE_FORMATS,
    GL_ALIASED_LINE_WIDTH_RANGE, GL_ALIASED_POINT_SIZE_RANGE, GL_DEPTH_RANGE, GL_BLEND_COLOR,
    GL_COLOR_CLEAR_VALUE, GL_MAX_VIEWPORT_DIMS, GL_SCISSOR_BOX, GL_VIEWPORT, GL_COLOR_WRITEMASK,
    GL_UNPACK_FLIP_Y_WEBGL, GL_UNPACK_PREMULTIPLY_ALPHA_WEBGL,
    GL_UNPACK_COLORSPACE_CONVERSION_WEBGL, GL_RASTERIZER_DISCARD, GL_SAMPLE_ALPHA_TO_COVERAGE,
    GL_SAMPLE_COVERAGE, GL_TRANSFORM_FEEDBACK_ACTIVE, GL_TRANSFORM_FEEDBACK_PAUSED, GL_RENDERER,
    GL_SHADING_LANGUAGE_VERSION, GL_VENDOR, GL_VERSION, GL_DEPTH_CLEAR_VALUE, GL_LINE_WIDTH,
    GL_POLYGON_OFFSET_FACTOR, GL_POLYGON_OFFSET_UNITS, GL_SAMPLE_COVERAGE_VALUE,
    GL_MAX_TEXTURE_LOD_BIAS, GL_ARRAY_BUFFER_BINDING, GL_ELEMENT_ARRAY_BUFFER_BINDING,
    GL_CURRENT_PROGRAM, GL_COPY_READ_BUFFER_BINDING, GL_COPY_WRITE_BUFFER_BINDING,
    GL_DRAW_FRAMEBUFFER_BINDING, GL_READ_FRAMEBUFFER_BINDING, GL_RENDERBUFFER,
    GL_SAMPLER_BINDING, GL_TEXTURE_BINDING_2D_ARRAY, GL_TEXTURE_BINDING_2D,
    GL_TEXTURE_BINDING_3D, GL_TEXTURE_BINDING_CUBE_MAP, GL_TRANSFORM_FEEDBACK_BINDING,
    GL_TRANSFORM_FEEDBACK_BUFFER_BINDING, GL_UNIFORM_BUFFER_BINDING, GL_VERTEX_ARRAY_BINDING]

theorem getParameter_framebuffer_binding (E : Externals) (jsArgv : List JsValue)
    (c : EXGLContext) (harg : ARG E.unpackUInt jsArgv 0 = .ok GL_FRAMEBUFFER_BINDING) :
    getParameter E jsArgv c =
      (.error "EXGL: getParameter() doesn\x27t support gl.36006 yet!", c) := by
  simp [getParameter, harg, unsupportedParameters, GL_FRAMEBUFFER_BINDING,
    GL_COMPRESSED_TEXTURE_FORMATS,
    GL_ALIASED_LINE_WIDTH_RANGE, GL_ALIASED_POINT_SIZE_RANGE, GL_DEPTH_RANGE, GL_BLEND_COLOR,
    GL_COLOR_CLEAR_VALUE, GL_MAX_VIEWPORT_DIMS, GL_SCISSOR_BOX, GL_VIEWPORT, GL_COLOR_WRITEMASK,
    GL_UNPACK_FLIP_Y_WEBGL, GL_UNPACK_PREMULTIPLY_ALPHA_WEBGL,
    GL_UNPACK_COLORSPACE_CONVERSION_WEBGL, GL_RASTERIZER_DISCARD, GL_SAMPLE_ALPHA_TO_COVERAGE,
    GL_SAMPLE_COVERAGE, GL_TRANSFORM_FEEDBACK_ACTIVE, GL_TRANSFORM_FEEDBACK_PAUSED, GL_RENDERER,
    GL_SHADING_LANGUAGE_VERSION, GL_VENDOR, GL_VERSION, GL_DEPTH_CLEAR_VALUE, GL_LINE_WIDTH,
    GL_POLYGON_OFFSET_FACTOR, GL_POLYGON_OFFSET_UNITS, GL_SAMPLE_COVERAGE_VALUE,
    GL_MAX_TEXTURE_LOD_BIAS, GL_ARRAY_BUFFER_BINDING, GL_ELEMENT_ARRAY_BUFFER_BINDING,
    GL_CURRENT_PROGRAM, GL_COPY_READ_BUFFER_BINDING, GL_COPY_WRITE_BUFFER_BINDING,
    GL_DRAW_FRAMEBUFFER_BINDING, GL_READ_FRAMEBUFFER_BINDING, GL_RENDERBUFFER,
    GL_SAMPLER_BINDING, GL_TEXTURE_BINDING_2D_ARRAY, GL_TEXTURE_BINDING_2D,
    GL_TEXTURE_BINDING_3D, GL_TEXTURE_BINDING_CUBE_MAP, GL_TRANSFORM_FEEDBACK_BINDING,
    GL_TRANSFORM_FEEDBACK_BUFFER_BINDING, GL_UNIFORM_BUFFER_BINDING, GL_VERTEX_ARRAY_BINDING]
  rfl

/-- C21: getParameter for RENDERBUFFER_BINDING and FRAMEBUFFER_BINDING. For
RENDERBUFFER_BINDING the result is the integer n that the driver reports to the
blocking glGetIntegerv, whatever the registry holds: no reverse lookup is made.
FRAMEBUFFER_BINDING has the value of DRAW_FRAMEBUFFER_BINDING, one of the names
listed under "Unimplemented...": the call throws and leaves the context
unchanged. -/
theorem getParameter_renderbuffer_binding_is_driver_name (E : Externals)
    (jsArgv : List JsValue) (c : EXGLContext) (pname : GLenum)
    (harg : ARG E.unpackUInt jsArgv 0 = .ok pname) :
    (pname = GL_RENDERBUFFER_BINDING →
      (getParameter E jsArgv c).1 =
        .ok (.number ((E.drv (settle E.drv c).gl.calls
          { func := "glGetIntegerv", args := [(GL_RENDERBUFFER_BINDING : Int)] }).headD 0)) ∧
      (getParameter E jsArgv c).2.gl.objects = (settle E.drv c).gl.objects) ∧
    (pname = GL_FRAMEBUFFER_BINDING →
      GL_FRAMEBUFFER_BINDING ∈ unsupportedParameters ∧
      getParameter E jsArgv c =
        (.error "EXGL: getParameter() doesn\x27t support gl.36006 yet!", c)) := by
  refine ⟨?_, ?_⟩
  · intro hp
    subst hp
    rw [getParameter_renderbuffer_binding E jsArgv c harg]
    simp [blockingQuery, addBlockingToNextBatch_eq, Op.run, glCall, WorkItem.exec]
  · intro hp
    subst hp
    exact ⟨by decide, getParameter_framebuffer_binding E jsArgv c harg⟩

theorem getParameter_renderbuffer_binding_is_driver_name_witness :
    (createRenderbuffer (constantExternals 7) [] {}).1 = .ok (.number 1) ∧
    (settle (constantExternals 7).drv (createRenderbuffer (constantExternals 7) [] {}).2).gl.objects
      = [(1, 7)] ∧
    ARG (constantExternals 7).unpackUInt [JsValue.number 0x8CA7] 0 = .ok GL_RENDERBUFFER_BINDING ∧
    (getParameter (constantExternals 7) [JsValue.number 0x8CA7]
      (createRenderbuffer (constantExternals 7) [] {}).2).1 = .ok (.number 7) ∧
    findObjectId [(1, 7)] 7 = .number 1 ∧
    ARG (constantExternals 7).unpackUInt [JsValue.number 0x8CA6] 0 = .ok GL_FRAMEBUFFER_BINDING ∧
    (getParameter (constantExternals 7) [JsValue.number 0x8CA6]
      (createRenderbuffer (constantExternals 7) [] {}).2).1
      = .error "EXGL: getParameter() doesn\x27t support gl.36006 yet!" :=
  ⟨by decide, by decide, by decide,
    ((getParameter_renderbuffer_binding_is_driver_name (constantExternals 7)
      [JsValue.number 0x8CA7] (createRenderbuffer (constantExternals 7) [] {}).2
      GL_RENDERBUFFER_BINDING (by decide)).1 rfl).1,
    by decide, by decide,
    congrArg Prod.fst
      ((getParameter_renderbuffer_binding_is_driver_name (constantExternals 7)
        [JsValue.number 0x8CA6] (createRenderbuffer (constantExternals 7) [] {}).2
        GL_FRAMEBUFFER_BINDING (by decide)).2 rfl).2⟩

/-! ## Zero-filled buffers of texSubImage2D and texSubImage3D -/

theorem handsToDriver_uploadZeroed (E : Externals) (c : EXGLContext) (func : String)
    (args : List Int) (nmemb size : Nat) :
    handsToDriver E (.ok .null, addToNextBatch (.uploadZeroed func args nmemb size) c) func args
      (some (List.replicate (nmemb * size) 0)) := by
  refine ⟨rfl, fun flag => ?_⟩
  have h : ({ addToNextBatch (.uploadZeroed func args nmemb size) c with unpackFLipY := flag }
        : EXGLContext)
      = addToNextBatch (.uploadZeroed func args nmemb size) { c with unpackFLipY := flag } := rfl
  simp only [h, settle_gl_addToNextBatch]
  simp [WorkItem.exec, Op.run, glCallData]

theorem callocCount (width height : Int) (hw : 0 ≤ width) (hh : 0 ≤ height)
    (hfit : width * height < 2147483648) :
    asSizeT (wrapInt32 (width * height)) = (width * height).toNat := by
  have h0 : 0 ≤ width * height := Int.mul_nonneg hw hh
  rw [wrapInt32_of_fits _ h0 hfit]
  simp only [asSizeT]
  rw [Int.emod_eq_of_lt h0 (by omega)]

theorem texSubImage3D_null (E : Externals) (jsArgv : List JsValue) (c : EXGLContext)
    (target level xoffset yoffset zoffset width height depth format type : Int)
    (hun : E.unpackArgv [.uint, .int, .int, .int, .int, .int, .int, .int, .uint, .uint] jsArgv
      = .ok [target, level, xoffset, yoffset, zoffset, width, height, depth, format, type])
    (hpx : jsArgv[10]? = some .null) :
    texSubImage3D E jsArgv c =
      (.ok .null,
        addToNextBatch
          (.uploadZeroed "glTexSubImage3D"
            [target, level, xoffset, yoffset, zoffset, width, height, depth, format, type]
            (asSizeT (wrapInt32 (width * height)))
            (E.bytesPerPixel type.toNat format.toNat)) c) := by
  have hget : jsArgv.getD 10 .undefined = .null := by
    simp [List.getD_eq_getElem?_getD, hpx]
  simp only [texSubImage3D, hun, hget]
  simp

theorem texSubImage2D_null (E : Externals) (jsArgv : List JsValue) (c : EXGLContext)
    (target level xoffset yoffset width height format type : Int)
    (hlen : jsArgv.length = 9)
    (hun : E.unpackArgv [.uint, .int, .int, .int, .int, .int, .uint, .uint] jsArgv
      = .ok [target, level, xoffset, yoffset, width, height, format, type])
    (hpx : jsArgv[8]? = some .null) :
    texSubImage2D E jsArgv c =
      (.ok .null,
        addToNextBatch
          (.uploadZeroed "glTexSubImage2D"
            [target, level, xoffset, yoffset, width, height, format, type]
            (asSizeT (wrapInt32 (width * height)))
            (E.bytesPerPixel type.toNat format.toNat)) c) := by
  have hget : jsArgv.getD 8 .undefined = .null := by
    simp [List.getD_eq_getElem?_getD, hpx]
  simp only [texSubImage2D, hlen, hun, hget]
  simp

/-- C22: the zero-filled buffer of texSubImage3D and texSubImage2D with null
pixels. For non-negative width and height whose product fits `int`, the buffer
that either work item hands to the driver holds exactly
width × height × bytesPerPixel(type, format) zero bytes: the depth of
texSubImage3D does not enter its size. For positive width, height and bytes per
pixel and a depth of at least 2 the buffer of texSubImage3D is smaller than the
width × height × depth × bytesPerPixel(type, format) bytes the driver reads. -/
theorem texSubImage3D_zeroed_buffer_lacks_depth (E : Externals) (c : EXGLContext)
    (args3 args2 : List JsValue)
    (target target2 level xoffset yoffset zoffset width height depth format type : Int)
    (hun3 : E.unpackArgv [.uint, .int, .int, .int, .int, .int, .int, .int, .uint, .uint] args3
      = .ok [target, level, xoffset, yoffset, zoffset, width, height, depth, format, type])
    (hpx3 : args3[10]? = some .null)
    (hlen2 : args2.length = 9)
    (hun2 : E.unpackArgv [.uint, .int, .int, .int, .int, .int, .uint, .uint] args2
      = .ok [target2, level, xoffset, yoffset, width, height, format, type])
    (hpx2 : args2[8]? = some .null)
    (hw : 0 ≤ width) (hh : 0 ≤ height) (hfit : width * height < 2147483648) :
    let bpp := E.bytesPerPixel type.toNat format.toNat
    let zeroes := List.replicate ((width * height).toNat * bpp) 0
    handsToDriver E (texSubImage3D E args3 c) "glTexSubImage3D"
      [target, level, xoffset, yoffset, zoffset, width, height, depth, format, type]
      (some zeroes) ∧
    handsToDriver E (texSubImage2D E args2 c) "glTexSubImage2D"
      [target2, level, xoffset, yoffset, width, height, format, type] (some zeroes) ∧
    (zeroes.length : Int) = width * height * (bpp : Int) ∧
    (0 < width → 0 < height → 0 < bpp → 2 ≤ depth →
      (zeroes.length : Int) < width * height * depth * (bpp : Int)) := by
  intro bpp zeroes
  have hcount := callocCount width height hw hh hfit
  have h0 : 0 ≤ width * height := Int.mul_nonneg hw hh
  have hlen : (zeroes.length : Int) = width * height * (bpp : Int) := by
    simp only [zeroes, List.length_replicate]
    push_cast
    rw [Int.toNat_of_nonneg h0]
  refine ⟨?_, ?_, hlen, ?_⟩
  · rw [texSubImage3D_null E args3 c target level xoffset yoffset zoffset width height depth
      format type hun3 hpx3, hcount]
    exact handsToDriver_uploadZeroed E c _ _ _ _
  · rw [texSubImage2D_null E args2 c target2 level xoffset yoffset width height format type
      hlen2 hun2 hpx2, hcount]
    exact handsToDriver_uploadZeroed E c _ _ _ _
  · intro hw1 hh1 hb hd
    rw [hlen]
    have hwh : 0 < width * height := Int.mul_pos hw1 hh1
    have hb1 : (0 : Int) < (bpp : Int) := by exact_mod_cast hb
    have hwhb : 0 < width * height * (bpp : Int) := Int.mul_pos hwh hb1
    have : width * height * depth * (bpp : Int) = depth * (width * height * (bpp : Int)) := by
      ring
    rw [this]
    nlinarith

theorem texSubImage3D_zeroed_buffer_lacks_depth_witness :
    sampleExternals.unpackArgv [.uint, .int, .int, .int, .int, .int, .int, .int, .uint, .uint]
      [JsValue.number 0x806F, .number 0, .number 0, .number 0, .number 0, .number 1, .number 1,
        .number 2, .number 0x1908, .number 0x1401, .null]
      = .ok [0x806F, 0, 0, 0, 0, 1, 1, 2, 0x1908, 0x1401] ∧
    sampleExternals.bytesPerPixel GL_UNSIGNED_BYTE GL_RGBA = 4 ∧
    (settle sampleExternals.drv
      (texSubImage3D sampleExternals
        [JsValue.number 0x806F, .number 0, .number 0, .number 0, .number 0, .number 1, .number 1,
          .number 2, .number 0x1908, .number 0x1401, .null] {}).2).gl.calls
      = [{ func := "glTexSubImage3D", args := [0x806F, 0, 0, 0, 0, 1, 1, 2, 0x1908, 0x1401],
           data := some [0, 0, 0, 0] }] ∧
    handsToDriver sampleExternals
      (texSubImage3D sampleExternals
        [JsValue.number 0x806F, .number 0, .number 0, .number 0, .number 0, .number 1, .number 1,
          .number 2, .number 0x1908, .number 0x1401, .null] {})
      "glTexSubImage3D" [0x806F, 0, 0, 0, 0, 1, 1, 2, 0x1908, 0x1401] (some [0, 0, 0, 0]) ∧
    (([0, 0, 0, 0] : List Nat).length : Int) < 1 * 1 * 2 * 4 :=
  ⟨by decide, by decide, by decide,
    (texSubImage3D_zeroed_buffer_lacks_depth sampleExternals {}
      [JsValue.number 0x806F, .number 0, .number 0, .number 0, .number 0, .number 1, .number 1,
        .number 2, .number 0x1908, .number 0x1401, .null]
      [JsValue.number 0x0DE1, .number 0, .number 0, .number 0, .number 1, .number 1,
        .number 0x1908, .number 0x1401, .null]
      0x806F 0x0DE1 0 0 0 0 1 1 2 0x1908 0x1401 (by decide) (by decide) (by decide)
      (by decide) (by decide) (by decide) (by decide) (by decide)).1,
    by decide⟩

/-! ## Attachment lists of invalidateFramebuffer and invalidateSubFramebuffer -/

theorem invalidateSubFramebuffer_enqueues (E : Externals) (jsArgv : List JsValue)
    (c : EXGLContext) (target : GLenum) (jsAttachments : List Int) (x y width height : Int)
    (htarget : ARG E.unpackUInt jsArgv 0 = .ok target)
    (harray : ARG E.unpackArray jsArgv 1 = .ok jsAttachments)
    (hx : ARG E.unpackInt jsArgv 2 = .ok x) (hy : ARG E.unpackInt jsArgv 3 = .ok y)
    (hwidth : ARG E.unpackInt jsArgv 4 = .ok width)
    (hheight : ARG E.unpackInt jsArgv 5 = .ok height) :
    invalidateSubFramebuffer E jsArgv c =
      (.ok .null,
        addToNextBatch
          (.upload "glInvalidateSubFramebuffer"
            [(target : Int), wrapInt32 ((attachmentEnums jsAttachments).length : Int), x, y,
              width, height]
            (some (attachmentEnums jsAttachments))) c) := by
  simp only [invalidateSubFramebuffer, htarget, harray, hx, hy, hwidth, hheight]
  rfl

theorem invalidateFramebuffer_enqueues (E : Externals) (order : CaptureOrder)
    (jsArgv : List JsValue) (c : EXGLContext) (target : GLenum) (jsAttachments : List Int)
    (htarget : ARG E.unpackUInt jsArgv 0 = .ok target)
    (harray : ARG E.unpackArray jsArgv 1 = .ok jsAttachments) :
    invalidateFramebuffer E order jsArgv c =
      (.ok .null,
        addToNextBatch
          (.upload "glInvalidateFramebuffer"
            [(target : Int),
              wrapInt32
                ((match order with
                  | .initCapturesFirst => []
                  | .copiesFirst => attachmentEnums jsAttachments : List GLenum).length : Int)]
            (some (match order with
              | .initCapturesFirst => []
              | .copiesFirst => attachmentEnums jsAttachments))) c) := by
  simp only [invalidateFramebuffer, htarget, harray]
  rfl

theorem length_attachmentEnums (jsAttachments : List Int) :
    (attachmentEnums jsAttachments).length = jsAttachments.length := by
  simp [attachmentEnums]

theorem wrapInt32_length (n : Nat) (h : n < 2147483648) : wrapInt32 (n : Int) = (n : Int) :=
  wrapInt32_of_fits _ (Int.natCast_nonneg n) (by exact_mod_cast h)

/-- C23: the attachment lists of invalidateFramebuffer and
invalidateSubFramebuffer, for an array of fewer than 2^31 elements. The work
item of invalidateSubFramebuffer hands the driver the caller's elements
converted to enums, in the caller's order, with a count equal to the array's
length. The work item of invalidateFramebuffer hands the driver the same list
and count when the closure's copy of `attachments` is made before the
init-capture `attachaments` moves the vector away; when the init-capture is
initialised first, it hands the driver the count 0 and no element, whatever the
array holds. -/
theorem invalidateFramebuffer_attachments (E : Externals) (order : CaptureOrder)
    (jsArgv : List JsValue) (c : EXGLContext) (target : GLenum) (jsAttachments : List Int)
    (x y width height : Int)
    (htarget : ARG E.unpackUInt jsArgv 0 = .ok target)
    (harray : ARG E.unpackArray jsArgv 1 = .ok jsAttachments)
    (hx : ARG E.unpackInt jsArgv 2 = .ok x) (hy : ARG E.unpackInt jsArgv 3 = .ok y)
    (hwidth : ARG E.unpackInt jsArgv 4 = .ok width)
    (hheight : ARG E.unpackInt jsArgv 5 = .ok height)
    (hsize : jsAttachments.length < 2147483648) :
    handsToDriver E (invalidateSubFramebuffer E jsArgv c) "glInvalidateSubFramebuffer"
      [(target : Int), (jsAttachments.length : Int), x, y, width, height]
      (some (jsAttachments.map asGLuint)) ∧
    (order = .copiesFirst →
      handsToDriver E (invalidateFramebuffer E order jsArgv c) "glInvalidateFramebuffer"
        [(target : Int), (jsAttachments.length : Int)] (some (jsAttachments.map asGLuint))) ∧
    (order = .initCapturesFirst →
      handsToDriver E (invalidateFramebuffer E order jsArgv c) "glInvalidateFramebuffer"
        [(target : Int), 0] (some [])) := by
  refine ⟨?_, ?_, ?_⟩
  · rw [invalidateSubFramebuffer_enqueues E jsArgv c target jsAttachments x y width height
      htarget harray hx hy hwidth hheight, length_attachmentEnums,
      wrapInt32_length _ hsize]
    exact handsToDriver_upload E c _ _ _
  · intro ho
    subst ho
    rw [invalidateFramebuffer_enqueues E _ jsArgv c target jsAttachments htarget harray]
    simp only [length_attachmentEnums, wrapInt32_length _ hsize]
    exact handsToDriver_upload E c _ _ _
  · intro ho
    subst ho
    have h0 : wrapInt32 ((([] : List GLenum).length : Nat) : Int) = 0 := by
      have := wrapInt32_length 0 (by norm_num)
      simpa using this
    rw [invalidateFramebuffer_enqueues E _ jsArgv c target jsAttachments htarget harray]
    simp only [h0]
    exact handsToDriver_upload E c _ _ _

theorem invalidateFramebuffer_attachments_witness :
    ARG sampleExternals.unpackArray
      [JsValue.number 0x8D40, .array [0x8CE0, 0x8D00], .number 0, .number 0, .number 4, .number 4]
      1 = .ok [0x8CE0, 0x8D00] ∧
    (settle sampleExternals.drv
      (invalidateSubFramebuffer sampleExternals
        [JsValue.number 0x8D40, .array [0x8CE0, 0x8D00], .number 0, .number 0, .number 4,
          .number 4] {}).2).gl.calls
      = [{ func := "glInvalidateSubFramebuffer", args := [0x8D40, 2, 0, 0, 4, 4],
           data := some [0x8CE0, 0x8D00] }] ∧
    (settle sampleExternals.drv
      (invalidateFramebuffer sampleExternals .initCapturesFirst
        [JsValue.number 0x8D40, .array [0x8CE0, 0x8D00], .number 0, .number 0, .number 4,
          .number 4] {}).2).gl.calls
      = [{ func := "glInvalidateFramebuffer", args := [0x8D40, 0], data := some [] }] ∧
    (settle sampleExternals.drv
      (invalidateFramebuffer sampleExternals .copiesFirst
        [JsValue.number 0x8D40, .array [0x8CE0, 0x8D00], .number 0, .number 0, .number 4,
          .number 4] {}).2).gl.calls
      = [{ func := "glInvalidateFramebuffer", args := [0x8D40, 2],
           data := some [0x8CE0, 0x8D00] }] ∧
    handsToDriver sampleExternals
      (invalidateFramebuffer sampleExternals .initCapturesFirst
        [JsValue.number 0x8D40, .array [0x8CE0, 0x8D00], .number 0, .number 0, .number 4,
          .number 4] {})
      "glInvalidateFramebuffer" [0x8D40, 0] (some []) :=
  ⟨by decide, by decide, by decide, by decide,
    (invalidateFramebuffer_attachments sampleExternals .initCapturesFirst
      [JsValue.number 0x8D40, .array [0x8CE0, 0x8D00], .number 0, .number 0, .number 4,
        .number 4] {} 0x8D40 [0x8CE0, 0x8D00] 0 0 4 4 (by decide) (by decide) (by decide)
      (by decide) (by decide) (by decide) (by decide)).2.2 rfl⟩

/-! ## Program and shader parameters -/

theorem blockingObjectQuery_result (E : Externals) (func : String) (obj : UEXGLObjectId)
    (more : List Int) (convert : Int → JsValue) (c : EXGLContext) (name : GLuint)
    (hobj : lookupObject (settle E.drv c).gl.objects obj = .ok name) :
    (blockingObjectQuery E func obj more convert c).1 =
      .ok (convert ((E.drv (settle E.drv c).gl.calls
        { func := func, args := [(name : Int)] ++ more }).headD 0)) := by
  simp [blockingObjectQuery, addBlockingToNextBatch_eq, Op.run, hobj, glCall]

theorem blockingObjectQuery_unknown (E : Externals) (func : String) (obj : UEXGLObjectId)
    (more : List Int) (convert : Int → JsValue) (c : EXGLContext) (e : String)
    (hobj : lookupObject (settle E.drv c).gl.objects obj = .error e) :
    (blockingObjectQuery E func obj more convert c).1 = .error e := by
  simp [blockingObjectQuery, addBlockingToNextBatch_eq, Op.run, hobj]

/-- C24: results of getProgramParameter and getShaderParameter. Let r be the
integer the driver reports to the blocking glGetProgramiv (glGetShaderiv) for
the native name of the given handle and the given parameter name.
getProgramParameter returns the boolean (r = GL_TRUE) when the name is
DELETE_STATUS, LINK_STATUS or VALIDATE_STATUS and the number r for every other
name; getShaderParameter returns the boolean (r = GL_TRUE) when the name is
DELETE_STATUS or COMPILE_STATUS and the number r otherwise. In both, the result
is a boolean exactly when the name is one of those listed. -/
theorem status_parameters_are_booleans (E : Externals) (jsArgv : List JsValue)
    (c : EXGLContext) (object : UEXGLObjectId) (pname : GLenum) (name : GLuint)
    (hun : E.unpackArgv [.uint, .uint] jsArgv = .ok [(object : Int), (pname : Int)])
    (hobj : lookupObject (settle E.drv c).gl.objects object = .ok name) :
    let p := (E.drv (settle E.drv c).gl.calls
      { func := "glGetProgramiv", args := [(name : Int), (pname : Int)] }).headD 0
    let s := (E.drv (settle E.drv c).gl.calls
      { func := "glGetShaderiv", args := [(name : Int), (pname : Int)] }).headD 0
    (getProgramParameter E jsArgv c).1 =
      .ok (if pname = GL_DELETE_STATUS ∨ pname = GL_LINK_STATUS ∨ pname = GL_VALIDATE_STATUS
        then .bool (decide (p = GL_TRUE)) else .number p) ∧
    ((∃ b, (getProgramParameter E jsArgv c).1 = .ok (.bool b)) ↔
      (pname = GL_DELETE_STATUS ∨ pname = GL_LINK_STATUS ∨ pname = GL_VALIDATE_STATUS)) ∧
    (getShaderParameter E jsArgv c).1 =
      .ok (if pname = GL_DELETE_STATUS ∨ pname = GL_COMPILE_STATUS
        then .bool (decide (s = GL_TRUE)) else .number s) ∧
    ((∃ b, (getShaderParameter E jsArgv c).1 = .ok (.bool b)) ↔
      (pname = GL_DELETE_STATUS ∨ pname = GL_COMPILE_STATUS)) := by
  intro p s
  have hp : (getProgramParameter E jsArgv c).1 =
      .ok (if pname = GL_DELETE_STATUS ∨ pname = GL_LINK_STATUS ∨ pname = GL_VALIDATE_STATUS
        then .bool (decide (p = GL_TRUE)) else .number p) := by
    simp only [getProgramParameter, hun, List.getD_cons_zero, List.getD_cons_succ,
      Int.toNat_natCast]
    rw [blockingObjectQuery_result E _ _ _ _ c name hobj]
    rfl
  have hs : (getShaderParameter E jsArgv c).1 =
      .ok (if pname = GL_DELETE_STATUS ∨ pname = GL_COMPILE_STATUS
        then .bool (decide (s = GL_TRUE)) else .number s) := by
    simp only [getShaderParameter, hun, List.getD_cons_zero, List.getD_cons_succ,
      Int.toNat_natCast]
    rw [blockingObjectQuery_result E _ _ _ _ c name hobj]
    rfl
  refine ⟨hp, ?_, hs, ?_⟩
  · rw [hp]
    by_cases h : pname = GL_DELETE_STATUS ∨ pname = GL_LINK_STATUS ∨ pname = GL_VALIDATE_STATUS
    · simp only [if_pos h, h, iff_true]
      exact ⟨_, rfl⟩
    · simp only [if_neg h, h, iff_false]
      rintro ⟨b, hb⟩
      cases hb
  · rw [hs]
    by_cases h : pname = GL_DELETE_STATUS ∨ pname = GL_COMPILE_STATUS
    · simp only [if_pos h, h, iff_true]
      exact ⟨_, rfl⟩
    · simp only [if_neg h, h, iff_false]
      rintro ⟨b, hb⟩
      cases hb

theorem status_parameters_are_booleans_witness :
    sampleExternals.unpackArgv [.uint, .uint] [JsValue.number 5, .number 0x8B82]
      = .ok [((5 : UEXGLObjectId) : Int), (GL_LINK_STATUS : Int)] ∧
    lookupObject (settle sampleExternals.drv { gl := { objects := [(5, 9)] } }).gl.objects 5
      = .ok 9 ∧
    (getProgramParameter sampleExternals [JsValue.number 5, .number 0x8B82]
      { gl := { objects := [(5, 9)] } }).1 = .ok (.bool true) ∧
    (getProgramParameter (constantExternals 0) [JsValue.number 5, .number 0x8B82]
      { gl := { objects := [(5, 9)] } }).1 = .ok (.bool false) ∧
    (getProgramParameter (constantExternals 3) [JsValue.number 5, .number 0x8B85]
      { gl := { objects := [(5, 9)] } }).1 = .ok (.number 3) ∧
    (getShaderParameter sampleExternals [JsValue.number 5, .number 0x8B81]
      { gl := { objects := [(5, 9)] } }).1 = .ok (.bool true) ∧
    (getShaderParameter sampleExternals [JsValue.number 5, .number 0x8B82]
      { gl := { objects := [(5, 9)] } }).1 = .ok (.number 1) :=
  ⟨by decide, by decide,
    (status_parameters_are_booleans sampleExternals [JsValue.number 5, .number 0x8B82]
      { gl := { objects := [(5, 9)] } } 5 GL_LINK_STATUS 9 (by decide) (by decide)).1,
    by decide, by decide, by decide,
    (status_parameters_are_booleans sampleExternals [JsValue.number 5, .number 0x8B82]
      { gl := { objects := [(5, 9)] } } 5 GL_LINK_STATUS 9 (by decide) (by decide)).2.2.1⟩

/-! ## Locations -/

theorem locationQuery_result (E : Externals) (func : String) (convert : Int → JsValue)
    (jsArgv : List JsValue) (c : EXGLContext) (program : UEXGLObjectId) (name : String)
    (glName : GLuint)
    (hun : E.unpackArgv [.uint] jsArgv = .ok [(program : Int)])
    (hname : jsArgv[1]? = some (.string name))
    (hobj : lookupObject (settle E.drv c).gl.objects program = .ok glName) :
    (locationQuery E func convert jsArgv c).1 =
      .ok (convert ((E.drv (settle E.drv c).gl.calls
        { func := func, args := [(glName : Int)] ++ nameChars name }).headD 0)) := by
  have hget : jsArgv.getD 1 .undefined = .string name := by
    simp [List.getD_eq_getElem?_getD, hname]
  simp only [locationQuery, hun, hget, asString, List.getD_cons_zero, Int.toNat_natCast]
  exact blockingObjectQuery_result E _ _ _ _ c glName hobj

/-- C25: results of the location queries. Let l be the location the driver
reports to the blocking glGetUniformLocation (glGetFragDataLocation,
glGetAttribLocation) for the native name of the program and the given name.
getUniformLocation and getFragDataLocation return null if and only if
l = -1 and return the number l otherwise; getAttribLocation returns the number
l in every case, -1 included. -/
theorem location_results (E : Externals) (jsArgv : List JsValue) (c : EXGLContext)
    (program : UEXGLObjectId) (name : String) (glName : GLuint)
    (hun : E.unpackArgv [.uint] jsArgv = .ok [(program : Int)])
    (hname : jsArgv[1]? = some (.string name))
    (hobj : lookupObject (settle E.drv c).gl.objects program = .ok glName) :
    let l := fun (func : String) =>
      (E.drv (settle E.drv c).gl.calls
        { func := func, args := [(glName : Int)] ++ nameChars name }).headD 0
    ((getUniformLocation E jsArgv c).1 = .ok .null ↔ l "glGetUniformLocation" = -1) ∧
    (l "glGetUniformLocation" ≠ -1 →
      (getUniformLocation E jsArgv c).1 = .ok (.number (l "glGetUniformLocation"))) ∧
    ((getFragDataLocation E jsArgv c).1 = .ok .null ↔ l "glGetFragDataLocation" = -1) ∧
    (l "glGetFragDataLocation" ≠ -1 →
      (getFragDataLocation E jsArgv c).1 = .ok (.number (l "glGetFragDataLocation"))) ∧
    (getAttribLocation E jsArgv c).1 = .ok (.number (l "glGetAttribLocation")) := by
  intro l
  have hu : (getUniformLocation E jsArgv c).1 =
      .ok (if l "glGetUniformLocation" = -1 then .null
        else .number (l "glGetUniformLocation")) :=
    locationQuery_result E _ _ jsArgv c program name glName hun hname hobj
  have hf : (getFragDataLocation E jsArgv c).1 =
      .ok (if l "glGetFragDataLocation" = -1 then .null
        else .number (l "glGetFragDataLocation")) :=
    locationQuery_result E _ _ jsArgv c program name glName hun hname hobj
  have ha : (getAttribLocation E jsArgv c).1 = .ok (.number (l "glGetAttribLocation")) :=
    locationQuery_result E _ _ jsArgv c program name glName hun hname hobj
  refine ⟨?_, ?_, ?_, ?_, ha⟩
  · rw [hu]
    by_cases h : l "glGetUniformLocation" = -1
    · simp [h]
    · simp [h]
  · intro h
    rw [hu, if_neg h]
  · rw [hf]
    by_cases h : l "glGetFragDataLocation" = -1
    · simp [h]
    · simp [h]
  · intro h
    rw [hf, if_neg h]

theorem location_results_witness :
    (constantExternals (-1)).unpackArgv [.uint] [JsValue.number 5, .string "uColor"]
      = .ok [((5 : UEXGLObjectId) : Int)] ∧
    lookupObject
      (settle (constantExternals (-1)).drv { gl := { objects := [(5, 9)] } }).gl.objects 5
      = .ok 9 ∧
    (getUniformLocation (constantExternals (-1)) [JsValue.number 5, .string "uColor"]
      { gl := { objects := [(5, 9)] } }).1 = .ok .null ∧
    (getFragDataLocation (constantExternals (-1)) [JsValue.number 5, .string "uColor"]
      { gl := { objects := [(5, 9)] } }).1 = .ok .null ∧
    (getAttribLocation (constantExternals (-1)) [JsValue.number 5, .string "uColor"]
      { gl := { objects := [(5, 9)] } }).1 = .ok (.number (-1)) ∧
    (getUniformLocation (constantExternals 3) [JsValue.number 5, .string "uColor"]
      { gl := { objects := [(5, 9)] } }).1 = .ok (.number 3) ∧
    (getFragDataLocation (constantExternals 0) [JsValue.number 5, .string "uColor"]
      { gl := { objects := [(5, 9)] } }).1 = .ok (.number 0) :=
  ⟨by decide, by decide,
    (location_results (constantExternals (-1)) [JsValue.number 5, .string "uColor"]
      { gl := { objects := [(5, 9)] } } 5 "uColor" 9 (by decide) (by decide) (by decide)).1.2
      rfl,
    (location_results (constantExternals (-1)) [JsValue.number 5, .string "uColor"]
      { gl := { objects := [(5, 9)] } } 5 "uColor" 9 (by decide) (by decide)
      (by decide)).2.2.1.2 rfl,
    (location_results (constantExternals (-1)) [JsValue.number 5, .string "uColor"]
      { gl := { objects := [(5, 9)] } } 5 "uColor" 9 (by decide) (by decide)
      (by decide)).2.2.2.2,
    by decide, by decide⟩

end EXGL
